import Mathlib

/-!
# BStone 3D renderer and task queue: a verification development

Shallow embedding of `Ren3dUtils` (`src/bstone_detail_ren_3d_utils.cpp`), of
the command submission and the anti-aliasing of `Ren3dGl`
(`src/bstone_detail_ren_3d_gl.cpp`), of `Ren3dGlVertexInputImpl`
(`src/bstone_detail_ren_3d_gl_vertex_input.cpp`) and of `detail::MtTaskQueue`
(`src/bstone_mt_task_mgr.cpp`).

Conventions of the embedding.

* A C++ `int` is a Lean `Int`, and an `int` has 32 bits.  Where a result of
  the source can leave the range of an `int` it is wrapped by `wrap_int32`,
  which is what a two's-complement target computes where the C++ standard
  leaves the overflow undefined: the shift `1 << i` of
  `find_nearest_pot_value`; the pixel counts `width_ * height_` and
  `actual_width_ * actual_height_` of the size checks and of `area`; the
  running `src_index` of the column-major loops; the `src_index` of
  `rgba_8_npot_to_rgba_8_pot` and the indices recorded by the `*_accesses`
  definitions.  The four `indexed_npot_to_rgba_8_*` loops compute their
  `src_index` in `Int`: it is the `int` of the source for a bitmap of at most
  `2^31 - 1` pixels, and the theorems that state which pixel these loops read
  assume this bound.  Counters that only count up to a dimension, and the sums
  of channels, stay far inside the range.
* `static_cast<std::size_t>` of an `int` is `to_size_t`, the value modulo
  `2^64`.
* An exception is a value of `Except Ren3dUtilsException`; a function that
  also writes to caller-owned memory returns the pair of its outcome and of
  the memory after the call.
* A raw pointer is `Option (Int → α)`: `none` is the null pointer, `some m`
  gives the element at every offset from the pointer.  Source and destination
  memory are distinct objects (no aliasing).
* A `std::vector` is a `List`; a write through `data()` at an offset is
  `List.set`.
* An 8-bit channel is a `Fin 256`; it is promoted to a natural number before
  any arithmetic, as the source promotes it to `int`.
* A `double` is an exact rational: the quotients and their partial sums formed
  by the resampling loops are exact in the source whenever the target
  dimensions are powers of two and the partial sums fit the 53-bit significand
  of a `double`, as they do for dimensions up to
  `absolute_max_texture_dimension`.
* A collaborator whose source is not at hand (the context and its managers,
  the command buffer, the OpenGL driver) is the sequence of the operations
  invoked on it, oldest first, next to the answers it gives.
-/

namespace bstone
namespace detail

/-! ## Exceptions -/

/-- The chain of messages of a `Ren3dUtilsException`, outermost first:
`std::throw_with_nested` puts the name of the failing function in front of
the message of the exception it wraps. -/
abbrev Ren3dUtilsException := List String

namespace Ren3dUtils

/-- `Ren3dUtils::fail`: throws an exception with the message. -/
def fail {α : Type} (message : String) : Except Ren3dUtilsException α :=
  Except.error [message]

/-- `Ren3dUtils::fail_nested`, as used by the `catch (...)` clause of a
function-try-block: an exception leaving the body is rethrown nested in one
that names the function. -/
def fail_nested {α : Type} (func : String) (body : Except Ren3dUtilsException α) :
    Except Ren3dUtilsException α :=
  match body with
  | Except.ok a => Except.ok a
  | Except.error e => Except.error (func :: e)

/-! ## Integer helpers -/

/-- The value of a 32-bit two's-complement `int` holding `x` modulo `2^32`. -/
def wrap_int32 (x : Int) : Int :=
  (x + 2 ^ 31) % 2 ^ 32 - 2 ^ 31

/-- `static_cast<std::size_t>(x)` for an `int`, with a 64-bit `std::size_t`:
a negative `x` becomes a size above every `int`. -/
def to_size_t (x : Int) : Nat :=
  (x % 2 ^ 64).toNat

/-- The counted loop `for (int i = 0; i < n; ++i) body(i)` over a state. -/
def for_loop {σ : Type} : Nat → (Nat → σ → σ) → σ → σ
  | 0, _, s => s
  | n + 1, body, s => body n (for_loop n body s)

/-! ## Powers of two and mipmap count -/

/-- Loop of `find_nearest_pot_value`, started at `i = 32 - fuel`:
`for (int i = 0; i < 32; ++i) { new_value = 1 << i; if (new_value >= value) return new_value; } return 0;` -/
def find_nearest_pot_value_loop : Nat → Nat → Int → Int
  | 0, _, _ => 0
  | fuel + 1, i, value =>
    let new_value := wrap_int32 (2 ^ i)
    if new_value ≥ value then new_value
    else find_nearest_pot_value_loop fuel (i + 1) value

/-- `Ren3dUtils::find_nearest_pot_value`. -/
def find_nearest_pot_value (value : Int) : Int :=
  find_nearest_pot_value_loop 32 0 value

/-- `Ren3dUtils::is_pot_value`. -/
def is_pot_value (value : Int) : Bool :=
  let nearest_value := find_nearest_pot_value value
  nearest_value == value

/-- The `while (max_size > 1) { log_2 += 1; max_size /= 2; }` loop of
`calculate_mipmap_count`; `fuel` bounds the number of iterations. -/
def calculate_mipmap_count_loop : Nat → Int → Int → Int
  | 0, log_2, _ => log_2
  | fuel + 1, log_2, max_size =>
    if max_size > 1 then
      calculate_mipmap_count_loop fuel (log_2 + 1) (Int.tdiv max_size 2)
    else log_2

/-- `Ren3dUtils::calculate_mipmap_count`.  The loop halves `max_size`, so
`max_size` iterations are always enough. -/
def calculate_mipmap_count (width height : Int) : Except Ren3dUtilsException Int :=
  fail_nested "calculate_mipmap_count" <|
    if width ≤ 0 then fail "Width out of range."
    else if height ≤ 0 then fail "Height out of range."
    else
      let max_size := max width height
      let log_2 := calculate_mipmap_count_loop max_size.toNat 0 max_size
      let result := log_2 + 1
      Except.ok result

/-! ## Colours, buffers, parameters -/

end Ren3dUtils

/-- `std::uint8_t`. -/
abbrev uint8_t := Fin 256

/-- Modelled from the spec: the colour type `Rgba8`, whose header is not part
of the sources; the code reads and writes its four 8-bit channels `r_`, `g_`,
`b_`, `a_` in this order. -/
structure Rgba8 where
  r_ : uint8_t
  g_ : uint8_t
  b_ : uint8_t
  a_ : uint8_t
deriving DecidableEq, Repr

instance : Inhabited Rgba8 := ⟨⟨0, 0, 0, 0⟩⟩

/-- Modelled from the spec: `Rgba8::reset`, whose header is not part of the
sources; it makes the colour fully transparent, all channels zero. -/
def Rgba8.reset (_self : Rgba8) : Rgba8 :=
  ⟨0, 0, 0, 0⟩

/-- Modelled from the spec: `Rgba8Palette`, whose header is not part of the
sources; a table of colours indexed by an 8-bit pixel value. -/
abbrev Rgba8Palette := uint8_t → Rgba8

namespace Ren3dUtils

/-- `Ren3dUtils::Rgba8Buffer`, a `std::vector<Rgba8>`. -/
abbrev Rgba8Buffer := List Rgba8

/-- `Ren3dUtils::IndexedToRgba8Param`.  The vector `rgba_8_buffer_` points to
is passed next to the parameter and returned by the functions that write it;
`indexed_palette_` is dereferenced unchecked by the source and is the table
itself. -/
structure IndexedToRgba8Param where
  width_ : Int
  height_ : Int
  actual_width_ : Int
  actual_height_ : Int
  indexed_is_column_major_ : Bool
  indexed_pixels_ : Option (Int → uint8_t)
  indexed_palette_ : Rgba8Palette
  indexed_alphas_ : Option (Int → Bool)

/-- The element `p[i]` of a raw pointer.  The source reads through a pointer
only after it has checked it, or leaves the check to its caller. -/
def ptr_read {α : Type} [Inhabited α] (p : Option (Int → α)) (i : Int) : α :=
  match p with
  | some m => m i
  | none => default

/-- The memory after `p[i] = v`. -/
def mem_write {α : Type} (m : Int → α) (i : Int) (v : α) : Int → α :=
  fun j => if j = i then v else m j

/-- A write cursor into the destination vector: the offset of `dst_pixels`
from `rgba_8_buffer_->data()` and the content of the vector. -/
structure DstCursor where
  offset : Nat
  buffer : Rgba8Buffer

/-- `*dst_pixels++ = color`. -/
def DstCursor.put (c : DstCursor) (color : Rgba8) : DstCursor :=
  ⟨c.offset + 1, c.buffer.set c.offset color⟩

/-- `auto& dst_pixel = *dst_pixels++; dst_pixel.reset();`. -/
def DstCursor.put_reset (c : DstCursor) : DstCursor :=
  c.put (Rgba8.reset (c.buffer.getD c.offset default))

/-- `static_cast<std::uint8_t>(x)` for a non-negative `int`. -/
def to_uint8 (x : Nat) : uint8_t :=
  ⟨x % 256, Nat.mod_lt x (by decide)⟩

/-- `static_cast<int>(x)` for a `double`: truncation towards zero. -/
def double_to_int (x : ℚ) : Int :=
  if 0 ≤ x then Int.floor x else Int.ceil x

/-! ## Indexed to RGBA -/

/-- `Ren3dUtils::indexed_to_rgba_8_rm_na`: row major, no alpha.  The state is
the offset of `src_pixels` and the write cursor; `area` is an `int`. -/
def indexed_to_rgba_8_rm_na (param : IndexedToRgba8Param) (buffer : Rgba8Buffer) :
    Rgba8Buffer :=
  let src_palette := param.indexed_palette_
  let area := wrap_int32 (param.width_ * param.height_)
  (for_loop area.toNat
    (fun _ (st : Int × DstCursor) =>
      (st.1 + 1, st.2.put (src_palette (ptr_read param.indexed_pixels_ st.1))))
    (0, ⟨0, buffer⟩)).2.buffer

/-- `Ren3dUtils::indexed_to_rgba_8_rm_ha`: row major, with alpha. -/
def indexed_to_rgba_8_rm_ha (param : IndexedToRgba8Param) (buffer : Rgba8Buffer) :
    Rgba8Buffer :=
  let src_palette := param.indexed_palette_
  let area := wrap_int32 (param.width_ * param.height_)
  (for_loop area.toNat
    (fun i (st : Int × DstCursor) =>
      let src_pixel := ptr_read param.indexed_pixels_ st.1
      if ptr_read param.indexed_alphas_ (i : Int) then
        (st.1 + 1, st.2.put (src_palette src_pixel))
      else
        (st.1 + 1, st.2.put_reset))
    (0, ⟨0, buffer⟩)).2.buffer

/-- The inner loop of `indexed_to_rgba_8_cm_na` for the row `src_y`, with
`src_index`, an `int`, and the write cursor as its state. -/
def indexed_to_rgba_8_cm_na_row (param : IndexedToRgba8Param) (src_y : Nat)
    (dst : DstCursor) : DstCursor :=
  (for_loop param.width_.toNat
    (fun _ (st : Int × DstCursor) =>
      (wrap_int32 (st.1 + param.height_),
        st.2.put (param.indexed_palette_ (ptr_read param.indexed_pixels_ st.1))))
    ((src_y : Int), dst)).2

/-- `Ren3dUtils::indexed_to_rgba_8_cm_na`: column major, no alpha. -/
def indexed_to_rgba_8_cm_na (param : IndexedToRgba8Param) (buffer : Rgba8Buffer) :
    Rgba8Buffer :=
  (for_loop param.height_.toNat (indexed_to_rgba_8_cm_na_row param) ⟨0, buffer⟩).buffer

/-- The inner loop of `indexed_to_rgba_8_cm_ha` for the row `src_y`. -/
def indexed_to_rgba_8_cm_ha_row (param : IndexedToRgba8Param) (src_y : Nat)
    (dst : DstCursor) : DstCursor :=
  (for_loop param.width_.toNat
    (fun _ (st : Int × DstCursor) =>
      if ptr_read param.indexed_alphas_ st.1 then
        (wrap_int32 (st.1 + param.height_),
          st.2.put (param.indexed_palette_ (ptr_read param.indexed_pixels_ st.1)))
      else
        (wrap_int32 (st.1 + param.height_), st.2.put_reset))
    ((src_y : Int), dst)).2

/-- `Ren3dUtils::indexed_to_rgba_8_cm_ha`: column major, with alpha. -/
def indexed_to_rgba_8_cm_ha (param : IndexedToRgba8Param) (buffer : Rgba8Buffer) :
    Rgba8Buffer :=
  (for_loop param.height_.toNat (indexed_to_rgba_8_cm_ha_row param) ⟨0, buffer⟩).buffer

/-- The outcome of a function that throws: the exception nested in the one
naming the function, next to the memory as it is at the throw. -/
def throw_in {σ : Type} (func message : String) (state : σ) :
    Except Ren3dUtilsException Unit × σ :=
  (fail_nested func (fail message), state)

/-- `Ren3dUtils::indexed_to_rgba_8`.  The size check compares the size of the
vector with `static_cast<std::size_t>((param.width_ * param.height_))`, the
product being an `int`. -/
def indexed_to_rgba_8 (param : IndexedToRgba8Param) (buffer : Rgba8Buffer) :
    Except Ren3dUtilsException Unit × Rgba8Buffer :=
  if param.width_ ≤ 0 then throw_in "indexed_to_rgba_8" "Width out of range." buffer
  else if param.height_ ≤ 0 then throw_in "indexed_to_rgba_8" "Height out of range." buffer
  else if param.indexed_pixels_.isNone then
    throw_in "indexed_to_rgba_8" "Null indexed pixels." buffer
  else if buffer.length < to_size_t (wrap_int32 (param.width_ * param.height_)) then
    throw_in "indexed_to_rgba_8" "Bitmap buffer too small." buffer
  else
    let is_column_major := param.indexed_is_column_major_
    let has_alphas := param.indexed_alphas_.isSome
    if !is_column_major && !has_alphas then
      (Except.ok (), indexed_to_rgba_8_rm_na param buffer)
    else if !is_column_major && has_alphas then
      (Except.ok (), indexed_to_rgba_8_rm_ha param buffer)
    else if is_column_major && !has_alphas then
      (Except.ok (), indexed_to_rgba_8_cm_na param buffer)
    else if is_column_major && has_alphas then
      (Except.ok (), indexed_to_rgba_8_cm_ha param buffer)
    else
      throw_in "indexed_to_rgba_8" "Unsupported values combination." buffer

/-! ## Non-power-of-two resampling -/

/-- The last resolved source index and its colour: `cached_src_index`,
`cached_color`. -/
structure ResampleCache where
  cached_src_index : Int
  cached_color : Rgba8

/-- `if (src_index != cached_src_index) { cached_src_index = src_index;
cached_color = src_palette[indexed_pixels_[src_index]]; }`. -/
def ResampleCache.resolve (cache : ResampleCache) (param : IndexedToRgba8Param)
    (src_index : Int) : ResampleCache :=
  if src_index ≠ cache.cached_src_index then
    ⟨src_index, param.indexed_palette_ (ptr_read param.indexed_pixels_ src_index)⟩
  else cache

/-- The inner loop of `indexed_npot_to_rgba_8_rm_na` for the source row
`src_v`; its state is `src_u_f`, the cache and the write cursor.  In this loop
and in the three that follow `src_index` is computed in `Int`: it is the `int`
of the source when `width_ * height_` is at most `2^31 - 1`. -/
def indexed_npot_to_rgba_8_rm_na_row (param : IndexedToRgba8Param) (src_du_f : ℚ)
    (src_v : Int) (st : ResampleCache × DstCursor) : ResampleCache × DstCursor :=
  let src_base_index := src_v * param.width_
  (for_loop param.actual_width_.toNat
    (fun _ (s : ℚ × ResampleCache × DstCursor) =>
      let src_u := double_to_int s.1
      let src_index := src_base_index + src_u
      let cache := s.2.1.resolve param src_index
      (s.1 + src_du_f, cache, s.2.2.put cache.cached_color))
    (0, st)).2

/-- The inner loop of `indexed_npot_to_rgba_8_rm_ha`. -/
def indexed_npot_to_rgba_8_rm_ha_row (param : IndexedToRgba8Param) (src_du_f : ℚ)
    (src_v : Int) (st : ResampleCache × DstCursor) : ResampleCache × DstCursor :=
  let src_base_index := src_v * param.width_
  (for_loop param.actual_width_.toNat
    (fun _ (s : ℚ × ResampleCache × DstCursor) =>
      let src_u := double_to_int s.1
      let src_index := src_base_index + src_u
      if ptr_read param.indexed_alphas_ src_index then
        let cache := s.2.1.resolve param src_index
        (s.1 + src_du_f, cache, s.2.2.put cache.cached_color)
      else
        (s.1 + src_du_f, s.2.1, s.2.2.put_reset))
    (0, st)).2

/-- The inner loop of `indexed_npot_to_rgba_8_cm_na`. -/
def indexed_npot_to_rgba_8_cm_na_row (param : IndexedToRgba8Param) (src_du_f : ℚ)
    (src_v : Int) (st : ResampleCache × DstCursor) : ResampleCache × DstCursor :=
  (for_loop param.actual_width_.toNat
    (fun _ (s : ℚ × ResampleCache × DstCursor) =>
      let src_u := double_to_int s.1
      let src_index := (src_u * param.height_) + src_v
      let cache := s.2.1.resolve param src_index
      (s.1 + src_du_f, cache, s.2.2.put cache.cached_color))
    (0, st)).2

/-- The inner loop of `indexed_npot_to_rgba_8_cm_ha`. -/
def indexed_npot_to_rgba_8_cm_ha_row (param : IndexedToRgba8Param) (src_du_f : ℚ)
    (src_v : Int) (st : ResampleCache × DstCursor) : ResampleCache × DstCursor :=
  (for_loop param.actual_width_.toNat
    (fun _ (s : ℚ × ResampleCache × DstCursor) =>
      let src_u := double_to_int s.1
      let src_index := (src_u * param.height_) + src_v
      if ptr_read param.indexed_alphas_ src_index then
        let cache := s.2.1.resolve param src_index
        (s.1 + src_du_f, cache, s.2.2.put cache.cached_color)
      else
        (s.1 + src_du_f, s.2.1, s.2.2.put_reset))
    (0, st)).2

/-- The outer loop shared by the four `indexed_npot_to_rgba_8_*` functions:
`src_v_f` starts at `0.0` and grows by `src_dv_f` per destination row, the
cache starts at index `-1` with the colour `Rgba8{}`. -/
def indexed_npot_rows (param : IndexedToRgba8Param)
    (row : IndexedToRgba8Param → ℚ → Int → ResampleCache × DstCursor → ResampleCache × DstCursor)
    (buffer : Rgba8Buffer) : Rgba8Buffer :=
  let src_du_f : ℚ := (param.width_ : ℚ) / (param.actual_width_ : ℚ)
  let src_dv_f : ℚ := (param.height_ : ℚ) / (param.actual_height_ : ℚ)
  (for_loop param.actual_height_.toNat
    (fun _ (st : ℚ × ResampleCache × DstCursor) =>
      let src_v := double_to_int st.1
      (st.1 + src_dv_f, row param src_du_f src_v st.2))
    (0, ⟨-1, ⟨0, 0, 0, 0⟩⟩, ⟨0, buffer⟩)).2.2.buffer

/-- `Ren3dUtils::indexed_npot_to_rgba_8_rm_na`. -/
def indexed_npot_to_rgba_8_rm_na (param : IndexedToRgba8Param) (buffer : Rgba8Buffer) :
    Rgba8Buffer :=
  indexed_npot_rows param indexed_npot_to_rgba_8_rm_na_row buffer

/-- `Ren3dUtils::indexed_npot_to_rgba_8_rm_ha`. -/
def indexed_npot_to_rgba_8_rm_ha (param : IndexedToRgba8Param) (buffer : Rgba8Buffer) :
    Rgba8Buffer :=
  indexed_npot_rows param indexed_npot_to_rgba_8_rm_ha_row buffer

/-- `Ren3dUtils::indexed_npot_to_rgba_8_cm_na`. -/
def indexed_npot_to_rgba_8_cm_na (param : IndexedToRgba8Param) (buffer : Rgba8Buffer) :
    Rgba8Buffer :=
  indexed_npot_rows param indexed_npot_to_rgba_8_cm_na_row buffer

/-- `Ren3dUtils::indexed_npot_to_rgba_8_cm_ha`. -/
def indexed_npot_to_rgba_8_cm_ha (param : IndexedToRgba8Param) (buffer : Rgba8Buffer) :
    Rgba8Buffer :=
  indexed_npot_rows param indexed_npot_to_rgba_8_cm_ha_row buffer

/-- `Ren3dUtils::indexed_npot_to_rgba_8_pot`.  The size check compares the size
of the vector with
`static_cast<std::size_t>((param.actual_width_ * param.actual_height_))`, the
product being an `int`. -/
def indexed_npot_to_rgba_8_pot (param : IndexedToRgba8Param) (buffer : Rgba8Buffer) :
    Except Ren3dUtilsException Unit × Rgba8Buffer :=
  if param.width_ ≤ 0 then
    throw_in "indexed_npot_to_rgba_8_pot" "Width out of range." buffer
  else if param.height_ ≤ 0 then
    throw_in "indexed_npot_to_rgba_8_pot" "Height out of range." buffer
  else if param.actual_width_ ≤ 0 then
    throw_in "indexed_npot_to_rgba_8_pot" "Actual width out of range." buffer
  else if param.actual_height_ ≤ 0 then
    throw_in "indexed_npot_to_rgba_8_pot" "Actual height out of range." buffer
  else if param.indexed_pixels_.isNone then
    throw_in "indexed_npot_to_rgba_8_pot" "Null indexed pixels." buffer
  else if buffer.length <
      to_size_t (wrap_int32 (param.actual_width_ * param.actual_height_)) then
    throw_in "indexed_npot_to_rgba_8_pot" "Indexed bitmap buffer too small." buffer
  else
    let is_column_major := param.indexed_is_column_major_
    let has_alphas := param.indexed_alphas_.isSome
    if !is_column_major && !has_alphas then
      (Except.ok (), indexed_npot_to_rgba_8_rm_na param buffer)
    else if !is_column_major && has_alphas then
      (Except.ok (), indexed_npot_to_rgba_8_rm_ha param buffer)
    else if is_column_major && !has_alphas then
      (Except.ok (), indexed_npot_to_rgba_8_cm_na param buffer)
    else if is_column_major && has_alphas then
      (Except.ok (), indexed_npot_to_rgba_8_cm_ha param buffer)
    else
      throw_in "indexed_npot_to_rgba_8_pot" "Unsupported values combination." buffer

/-- The `catch (...)` clause of a function that calls a throwing function:
the exception of the callee is rethrown nested in one naming the caller. -/
def rethrow_in {σ : Type} (func : String) (r : Except Ren3dUtilsException Unit × σ) :
    Except Ren3dUtilsException Unit × σ :=
  (fail_nested func r.1, r.2)

/-- `Ren3dUtils::indexed_to_rgba_8_pot`. -/
def indexed_to_rgba_8_pot (param : IndexedToRgba8Param) (buffer : Rgba8Buffer) :
    Except Ren3dUtilsException Unit × Rgba8Buffer :=
  let is_npot :=
    decide (param.width_ ≠ param.actual_width_) || decide (param.height_ ≠ param.actual_height_)
  rethrow_in "indexed_to_rgba_8_pot" <|
    if !is_npot then indexed_to_rgba_8 param buffer
    else if is_npot then indexed_npot_to_rgba_8_pot param buffer
    else (Except.ok (), buffer)

/-! ## Mipmaps -/

/-- `Ren3dUtils::average_pa` for two colours. -/
def average_pa_2 (color_0 color_1 : Rgba8) : Rgba8 :=
  let color_count := 2
  let denominator := 255 * color_count * color_count
  let a_sum := color_0.a_.val + color_1.a_.val
  let r_sum := color_0.r_.val + color_1.r_.val
  let g_sum := color_0.g_.val + color_1.g_.val
  let b_sum := color_0.b_.val + color_1.b_.val
  ⟨to_uint8 ((r_sum * a_sum) / denominator),
    to_uint8 ((g_sum * a_sum) / denominator),
    to_uint8 ((b_sum * a_sum) / denominator),
    to_uint8 (a_sum / color_count)⟩

/-- `Ren3dUtils::average_pa` for four colours. -/
def average_pa_4 (color_0 color_1 color_2 color_3 : Rgba8) : Rgba8 :=
  let color_count := 4
  let denominator := 255 * color_count * color_count
  let a_sum := color_0.a_.val + color_1.a_.val + color_2.a_.val + color_3.a_.val
  let r_sum := color_0.r_.val + color_1.r_.val + color_2.r_.val + color_3.r_.val
  let g_sum := color_0.g_.val + color_1.g_.val + color_2.g_.val + color_3.g_.val
  let b_sum := color_0.b_.val + color_1.b_.val + color_2.b_.val + color_3.b_.val
  ⟨to_uint8 ((r_sum * a_sum) / denominator),
    to_uint8 ((g_sum * a_sum) / denominator),
    to_uint8 ((b_sum * a_sum) / denominator),
    to_uint8 (a_sum / color_count)⟩

/-- A write cursor into raw destination memory: the offset of `dst_colors_0`
from `dst_colors` and the memory. -/
structure MemCursor where
  offset : Int
  mem : Int → Rgba8

/-- `*dst_colors_0++ = color`. -/
def MemCursor.put (c : MemCursor) (color : Rgba8) : MemCursor :=
  ⟨c.offset + 1, mem_write c.mem c.offset color⟩

/-- `Ren3dUtils::build_mipmap_1`, on the memory of its non-null pointers.  The
state of the loop is the offset of `src_colors_0` and the write cursor. -/
def build_mipmap_1 (previous_dimension : Int) (src_colors : Int → Rgba8)
    (dst_colors : Int → Rgba8) : Int → Rgba8 :=
  let dimension := Int.tdiv previous_dimension 2
  (for_loop dimension.toNat
    (fun _ (st : Int × MemCursor) =>
      (st.1 + 2, st.2.put (average_pa_2 (src_colors st.1) (src_colors (st.1 + 1)))))
    (0, ⟨0, dst_colors⟩)).2.mem

/-- One iteration of the outer loop of `build_mipmap`.  The state is the pair
of the offsets of `src_colors_0` and `src_colors_1` and the write cursor. -/
def build_mipmap_row (previous_width : Int) (src_colors : Int → Rgba8) (width : Int)
    (st : (Int × Int) × MemCursor) : (Int × Int) × MemCursor :=
  let inner := for_loop width.toNat
    (fun _ (s : (Int × Int) × MemCursor) =>
      ((s.1.1 + 2, s.1.2 + 2),
        s.2.put (average_pa_4 (src_colors s.1.1) (src_colors (s.1.1 + 1))
          (src_colors s.1.2) (src_colors (s.1.2 + 1)))))
    st
  ((inner.1.1 + previous_width, inner.1.2 + previous_width), inner.2)

/-- `Ren3dUtils::build_mipmap`.  The second component is the destination
pointer with the memory behind it after the call. -/
def build_mipmap (previous_width previous_height : Int)
    (src_colors dst_colors : Option (Int → Rgba8)) :
    Except Ren3dUtilsException Unit × Option (Int → Rgba8) :=
  if previous_width ≤ 0 then
    throw_in "build_mipmap" "Previous width out of range." dst_colors
  else if previous_height ≤ 0 then
    throw_in "build_mipmap" "Previous height out of range." dst_colors
  else if previous_width = 1 ∧ previous_height = 1 then
    throw_in "build_mipmap" "No more mipmap to build." dst_colors
  else
    match src_colors with
    | none => throw_in "build_mipmap" "Null source colors." dst_colors
    | some src =>
      match dst_colors with
      | none => throw_in "build_mipmap" "Null target colors." dst_colors
      | some dst =>
        if previous_width = 1 then
          (Except.ok (), some (build_mipmap_1 previous_height src dst))
        else if previous_height = 1 then
          (Except.ok (), some (build_mipmap_1 previous_width src dst))
        else
          let width := Int.tdiv previous_width 2
          let height := Int.tdiv previous_height 2
          (Except.ok (),
            some (for_loop height.toNat
              (fun _ st => build_mipmap_row previous_width src width st)
              ((0, previous_width), ⟨0, dst⟩)).2.mem)

/-! ## Resampling of decoded pixels -/

/-- Opaque red. -/
def red : Rgba8 := ⟨255, 0, 0, 255⟩

/-- Opaque green. -/
def green : Rgba8 := ⟨0, 255, 0, 255⟩

/-- Opaque blue. -/
def blue : Rgba8 := ⟨0, 0, 255, 255⟩

/-- Opaque white. -/
def white : Rgba8 := ⟨255, 255, 255, 255⟩

/-- The palette `[red, green, blue, white]`, white from entry 3 on. -/
def sample_palette : Rgba8Palette :=
  fun i => if i = 0 then red else if i = 1 then green else if i = 2 then blue else white

/-- The pixels `0, 1, 2, 3, ...`: the pixel at offset `i` is `i` modulo 256. -/
def sample_pixels : Int → uint8_t :=
  fun i => to_uint8 i.toNat

/-- The alpha flags `true, false, true, false, ...`. -/
def sample_alphas : Int → Bool :=
  fun i => decide (i % 2 = 0)

/-- A 2x2 bitmap of `sample_pixels` with `sample_palette`. -/
def sample_param (is_column_major : Bool) (alphas : Option (Int → Bool)) :
    IndexedToRgba8Param :=
  ⟨2, 2, 2, 2, is_column_major, some sample_pixels, sample_palette, alphas⟩

/-- A destination vector of four arbitrary colours. -/
def sample_buffer : Rgba8Buffer :=
  [⟨9, 9, 9, 9⟩, ⟨8, 8, 8, 8⟩, ⟨7, 7, 7, 7⟩, ⟨6, 6, 6, 6⟩]

/-- A source level whose texel at offset `i` has red `i` modulo 256 and is
opaque. -/
def sample_texels : Int → Rgba8 :=
  fun i => ⟨to_uint8 i.toNat, 0, 0, 255⟩

/-- Raw destination memory holding an arbitrary colour everywhere. -/
def sample_memory : Int → Rgba8 :=
  fun _ => ⟨9, 9, 9, 9⟩

/-- The element at offset `i` behind a pointer, if the pointer is not null. -/
def mem_at (p : Option (Int → Rgba8)) (i : Int) : Option Rgba8 :=
  p.map (fun m => m i)

/-- The 2x2 bitmap of `sample_param` with the target dimensions 4x4. -/
def sample_param_pot : IndexedToRgba8Param :=
  ⟨2, 2, 4, 4, false, some sample_pixels, sample_palette, none⟩

/-- A destination vector of `n` arbitrary colours. -/
def sample_buffer_of (n : Nat) : Rgba8Buffer :=
  List.replicate n ⟨9, 9, 9, 9⟩

/-- A 65536x65536 bitmap of `sample_pixels`, each side being
`absolute_max_texture_dimension`, with the same target dimensions: its pixel
count `2^32` is `0` as an `int`. -/
def sample_param_65536 (is_column_major : Bool) (alphas : Option (Int → Bool)) :
    IndexedToRgba8Param :=
  ⟨65536, 65536, 65536, 65536, is_column_major, some sample_pixels, sample_palette, alphas⟩

/-- A 46341x46341 column-major bitmap of `sample_pixels`: its pixel count
`2147488281` is `-2147479015` as an `int`. -/
def sample_param_46341 : IndexedToRgba8Param :=
  ⟨46341, 46341, 46341, 46341, true, some sample_pixels, sample_palette, none⟩

end Ren3dUtils

/-! ## Vertex input validation -/

/-- Modelled from the spec: `Ren3dBufferKind`, whose header is not part of the
sources; the code compares it with `index` and `vertex`. -/
inductive Ren3dBufferKind where
  | none
  | index
  | vertex
deriving DecidableEq, Repr

/-- Modelled from the spec: `Ren3dVertexAttribFormat`, whose header is not
part of the sources; the supported set is 8-bit-normalized RGBA, 2 x float32
and 3 x float32. -/
inductive Ren3dVertexAttribFormat where
  | none
  | rgba_8_unorm
  | rg_32_sfloat
  | rgb_32_sfloat
deriving DecidableEq, Repr

/-- Modelled from the spec: `Ren3dVertexAttribDescr`, whose header is not part
of the sources, with the fields the validation reads.  A buffer pointer is
the kind of the buffer it points to, `none` when null. -/
structure Ren3dVertexAttribDescr where
  is_default_ : Bool
  location_ : Int
  format_ : Ren3dVertexAttribFormat
  vertex_buffer_ : Option Ren3dBufferKind
  offset_ : Int
  stride_ : Int
deriving DecidableEq, Repr

/-- Modelled from the spec: `Ren3dCreateVertexInputParam`, whose header is not
part of the sources: an optional index buffer and the list of attribute
descriptors. -/
structure Ren3dCreateVertexInputParam where
  index_buffer_ : Option Ren3dBufferKind
  attrib_descrs_ : List Ren3dVertexAttribDescr
deriving DecidableEq, Repr

namespace Ren3dUtils

/-- `Ren3dUtils::vertex_input_validate_format`. -/
def vertex_input_validate_format (attribute_format : Ren3dVertexAttribFormat) :
    Except Ren3dUtilsException Unit :=
  fail_nested "vertex_input_validate_format" <|
    match attribute_format with
    | Ren3dVertexAttribFormat.rgba_8_unorm => Except.ok ()
    | Ren3dVertexAttribFormat.rg_32_sfloat => Except.ok ()
    | Ren3dVertexAttribFormat.rgb_32_sfloat => Except.ok ()
    | _ => fail "Unsupported vertex input attribute format."

/-- The body of the loop of `vertex_input_validate_param` for one attribute
description; the state is the set `used_locations`. -/
def vertex_input_validate_descr (max_locations : Int)
    (attribute_description : Ren3dVertexAttribDescr) (used_locations : List Int) :
    Except Ren3dUtilsException (List Int) :=
  if attribute_description.is_default_ then Except.ok used_locations
  else
    let location := attribute_description.location_
    if location < 0 ∨ location ≥ max_locations then fail "Location out of range."
    else
      let has_location := used_locations.contains location
      if has_location then fail "Duplicate location."
      else
        match vertex_input_validate_format attribute_description.format_ with
        | Except.error e => Except.error e
        | Except.ok () =>
          match attribute_description.vertex_buffer_ with
          | none => fail "Null vertex buffer."
          | some kind =>
            if kind ≠ Ren3dBufferKind.vertex then fail "Non-vertex buffer."
            else if attribute_description.offset_ < 0 then fail "Invalid offset."
            else if attribute_description.stride_ < 0 then fail "Invalid stride."
            else Except.ok (location :: used_locations)

/-- The loop of `vertex_input_validate_param` over the attribute
descriptions. -/
def vertex_input_validate_descrs (max_locations : Int) :
    List Ren3dVertexAttribDescr → List Int → Except Ren3dUtilsException Unit
  | [], _ => Except.ok ()
  | attribute_description :: rest, used_locations =>
    match vertex_input_validate_descr max_locations attribute_description used_locations with
    | Except.error e => Except.error e
    | Except.ok used => vertex_input_validate_descrs max_locations rest used

/-- `Ren3dUtils::vertex_input_validate_param`. -/
def vertex_input_validate_param (max_locations : Int) (param : Ren3dCreateVertexInputParam) :
    Except Ren3dUtilsException Unit :=
  fail_nested "vertex_input_validate_param" <|
    if max_locations < 0 then fail "Maximum location count out of range."
    else if param.index_buffer_.isSome ∧ param.index_buffer_ ≠ some Ren3dBufferKind.index then
      fail "Non-index buffer."
    else
      vertex_input_validate_descrs max_locations param.attrib_descrs_ []

/-- A default attribute at location 0. -/
def sample_default_descr : Ren3dVertexAttribDescr :=
  ⟨true, 0, Ren3dVertexAttribFormat.none, none, 0, 0⟩

/-- A non-default attribute at `location` with a supported format and a
vertex buffer. -/
def sample_descr (location : Int) : Ren3dVertexAttribDescr :=
  ⟨false, location, Ren3dVertexAttribFormat.rgb_32_sfloat, some Ren3dBufferKind.vertex, 0, 12⟩

/-- A non-default attribute at location 0 with a supported format and a null
vertex buffer. -/
def sample_descr_null_buffer : Ren3dVertexAttribDescr :=
  ⟨false, 0, Ren3dVertexAttribFormat.rgb_32_sfloat, none, 0, 12⟩

end Ren3dUtils

/-! ## Command submission (`src/bstone_detail_ren_3d_gl.cpp`)

The command buffer, the context and its managers are collaborators whose
sources are not part of the repository files at hand.  They are modelled by
the operations `Ren3dGl` invokes on them, recorded in order of invocation; an
operation of a collaborator returns normally. -/

/-- A loop `for (int i = 0; i < n; ++i) body(i)` whose body may throw: the
first exception ends the loop. -/
def for_loop_try {σ : Type} :
    Nat → (Nat → σ → Except Ren3dUtilsException Unit × σ) → σ →
      Except Ren3dUtilsException Unit × σ
  | 0, _, s => (Except.ok (), s)
  | n + 1, body, s =>
    match for_loop_try n body s with
    | (Except.ok (), s2) => body n s2
    | (Except.error e, s2) => (Except.error e, s2)

/-- Modelled from the spec: `Ren3dPrimitiveTopology`, whose header is not part
of the sources; the five supported kinds and one value outside them. -/
inductive Ren3dPrimitiveTopology where
  | none
  | point_list
  | line_list
  | line_strip
  | triangle_list
  | triangle_strip
deriving DecidableEq, Repr

/-- Modelled from the spec: the `draw_indexed_` payload of
`Ren3dDrawIndexedCmd`, whose header is not part of the sources, with the
fields `submit_draw_indexed` reads. -/
structure Ren3dDrawIndexedParam where
  primitive_topology_ : Ren3dPrimitiveTopology
  vertex_count_ : Int
  index_byte_depth_ : Int
  index_buffer_offset_ : Int
  index_offset_ : Int
deriving DecidableEq, Repr

/-- Modelled from the spec: a vertex input as `submit_draw_indexed` sees it,
through `get_index_buffer()`; the index buffer is a handle, `none` when
null. -/
structure Ren3dGlVertexInput where
  index_buffer_ : Option Nat
deriving DecidableEq, Repr

/-- Modelled from the spec: a recorded command, its `Ren3dCmdId` and the part
of its payload that `Ren3dGl` inspects: the twenty recognised ids and
`unsupported` for any other id.  A pointer payload is `none` when null. -/
inductive Ren3dCmd where
  | clear
  | enable_culling (is_enable_ : Bool)
  | enable_depth_test (is_enable_ : Bool)
  | enable_depth_write (is_enable_ : Bool)
  | set_viewport
  | enable_scissor (is_enable_ : Bool)
  | set_scissor_box
  | enable_blending (is_enable_ : Bool)
  | set_blending_func
  | set_texture (texture_2d_ : Option Nat)
  | set_sampler (sampler_ : Option Nat)
  | set_vertex_input (vertex_input_ : Option Ren3dGlVertexInput)
  | set_shader_stage (shader_stage_ : Option Nat)
  | set_int32_uniform (var_ : Option Nat)
  | set_float32_uniform (var_ : Option Nat)
  | set_vec2_uniform (var_ : Option Nat)
  | set_vec4_uniform (var_ : Option Nat)
  | set_mat4_uniform (var_ : Option Nat)
  | set_sampler_2d_uniform (var_ : Option Nat)
  | draw_indexed (draw_indexed_ : Ren3dDrawIndexedParam)
  | unsupported (command_id : Int)
deriving DecidableEq, Repr

/-- Modelled from the spec: a command buffer, whether it is enabled and its
recorded commands in order; `get_count()` is the number of commands. -/
structure Ren3dCmdBuffer where
  is_enabled_ : Bool
  commands_ : List Ren3dCmd
deriving DecidableEq, Repr

/-- An operation `Ren3dGl` invokes on a collaborator.  `begin_read`,
`read_command_id`, `read_command` and `end_read` are operations of the
command buffer at the given position of the array; `context` is the context
or shader-variable operation that carries out a command other than
`draw_indexed`; the remaining ones are the bindings and the native draw call
of `submit_draw_indexed`. -/
inductive GlCall where
  | begin_read (buffer : Nat)
  | read_command_id (buffer : Nat)
  | read_command (buffer : Nat)
  | end_read (buffer : Nat)
  | context (command : Ren3dCmd)
  | vertex_input_set
  | shader_stage_set
  | sampler_set
  | texture_set
  | index_buffer_set
  | draw_elements (param : Ren3dDrawIndexedParam)
deriving DecidableEq, Repr

/-- Whether the operation is one of the context or of the backend, that is
not an operation of a command buffer. -/
def GlCall.is_backend : GlCall → Bool
  | GlCall.begin_read _ => false
  | GlCall.read_command_id _ => false
  | GlCall.read_command _ => false
  | GlCall.end_read _ => false
  | _ => true

/-- Whether the operation is the native `glDrawElements`. -/
def GlCall.is_draw : GlCall → Bool
  | GlCall.draw_elements _ => true
  | _ => false

/-- The state command submission works on: the vertex input the context
currently holds (`context_->get_vertex_input()`) and the operations invoked so
far, oldest first. -/
structure SubmitState where
  vertex_input_ : Option Ren3dGlVertexInput
  calls : List GlCall
deriving DecidableEq, Repr

/-- The state after an operation is invoked. -/
def SubmitState.invoke (s : SubmitState) (call : GlCall) : SubmitState :=
  { s with calls := s.calls ++ [call] }

namespace Ren3dGl

/-- `Ren3dGl::submit_draw_indexed`. -/
def submit_draw_indexed (param : Ren3dDrawIndexedParam) (s : SubmitState) :
    Except Ren3dUtilsException Unit × SubmitState :=
  if param.primitive_topology_ = Ren3dPrimitiveTopology.none then
    Ren3dUtils.throw_in "submit_draw_indexed" "Unsupported primitive topology." s
  else if param.vertex_count_ < 0 then
    Ren3dUtils.throw_in "submit_draw_indexed" "Vertex count out of range." s
  else if param.vertex_count_ = 0 then (Except.ok (), s)
  else if ¬ (param.index_byte_depth_ = 1 ∨ param.index_byte_depth_ = 2 ∨
      param.index_byte_depth_ = 4) then
    Ren3dUtils.throw_in "submit_draw_indexed" "Unsupported index value byte depth." s
  else if param.index_buffer_offset_ < 0 then
    Ren3dUtils.throw_in "submit_draw_indexed" "Offset to indices out of range." s
  else if param.index_offset_ < 0 then
    Ren3dUtils.throw_in "submit_draw_indexed" "Index offset out of range." s
  else
    match s.vertex_input_ with
    | none => Ren3dUtils.throw_in "submit_draw_indexed" "Null current vertex input." s
    | some vertex_input =>
      let s1 := (((s.invoke GlCall.vertex_input_set).invoke GlCall.shader_stage_set).invoke
        GlCall.sampler_set).invoke GlCall.texture_set
      match vertex_input.index_buffer_ with
      | none => Ren3dUtils.throw_in "submit_draw_indexed" "Null index buffer." s1
      | some _ =>
        (Except.ok (), (s1.invoke GlCall.index_buffer_set).invoke (GlCall.draw_elements param))

/-- The `submit_set_*_uniform` functions: `if (!command.var_) fail("Null
variable."); command.var_->set_*(...)`. -/
def submit_set_uniform (func : String) (command : Ren3dCmd) (var_ : Option Nat)
    (s : SubmitState) : Except Ren3dUtilsException Unit × SubmitState :=
  match var_ with
  | none => Ren3dUtils.throw_in func "Null variable." s
  | some _ => (Except.ok (), s.invoke (GlCall.context command))

/-- The `submit_*` function `submit_commands` dispatches a command to. -/
def submit_command (command : Ren3dCmd) (s : SubmitState) :
    Except Ren3dUtilsException Unit × SubmitState :=
  match command with
  | Ren3dCmd.set_vertex_input vertex_input =>
    (Except.ok (), { s.invoke (GlCall.context command) with vertex_input_ := vertex_input })
  | Ren3dCmd.set_int32_uniform var_ => submit_set_uniform "submit_set_int32_uniform" command var_ s
  | Ren3dCmd.set_float32_uniform var_ =>
    submit_set_uniform "submit_set_float32_uniform" command var_ s
  | Ren3dCmd.set_vec2_uniform var_ => submit_set_uniform "submit_set_vec2_uniform" command var_ s
  | Ren3dCmd.set_vec4_uniform var_ => submit_set_uniform "submit_set_vec4_uniform" command var_ s
  | Ren3dCmd.set_mat4_uniform var_ => submit_set_uniform "submit_set_mat4_uniform" command var_ s
  | Ren3dCmd.set_sampler_2d_uniform var_ =>
    submit_set_uniform "submit_set_sampler_2d_uniform" command var_ s
  | Ren3dCmd.draw_indexed param => submit_draw_indexed param s
  | Ren3dCmd.unsupported _ => (Ren3dUtils.fail "Unsupported command id.", s)
  | _ => (Except.ok (), s.invoke (GlCall.context command))

/-- The inner loop of `submit_commands` over the commands of the buffer at
position `i`: `read_command_id`, then the command is read and dispatched. -/
def submit_buffer_commands (i : Nat) :
    List Ren3dCmd → SubmitState → Except Ren3dUtilsException Unit × SubmitState
  | [], s => (Except.ok (), s)
  | command :: rest, s =>
    let s1 := s.invoke (GlCall.read_command_id i)
    match command with
    | Ren3dCmd.unsupported _ => (Ren3dUtils.fail "Unsupported command id.", s1)
    | _ =>
      match submit_command command (s1.invoke (GlCall.read_command i)) with
      | (Except.ok (), s2) => submit_buffer_commands i rest s2
      | (Except.error e, s2) => (Except.error e, s2)

/-- The body of the outer loop of `submit_commands` for the entry at position
`i` of the array. -/
def submit_buffer (i : Nat) (command_buffer : Option Ren3dCmdBuffer) (s : SubmitState) :
    Except Ren3dUtilsException Unit × SubmitState :=
  match command_buffer with
  | none => (Ren3dUtils.fail "Null command buffer.", s)
  | some buffer =>
    if !buffer.is_enabled_ then (Except.ok (), s)
    else
      match submit_buffer_commands i buffer.commands_ (s.invoke (GlCall.begin_read i)) with
      | (Except.ok (), s2) => (Except.ok (), s2.invoke (GlCall.end_read i))
      | (Except.error e, s2) => (Except.error e, s2)

/-- `Ren3dGl::submit_commands`. -/
def submit_commands (command_buffers : Option (Int → Option Ren3dCmdBuffer))
    (command_buffer_count : Int) (s : SubmitState) :
    Except Ren3dUtilsException Unit × SubmitState :=
  Ren3dUtils.rethrow_in "submit_commands" <|
    if command_buffer_count < 0 then
      (Ren3dUtils.fail "Command buffer count out of range.", s)
    else if command_buffer_count > 0 ∧ command_buffers.isNone then
      (Ren3dUtils.fail "Null command buffers.", s)
    else
      for_loop_try command_buffer_count.toNat
        (fun i s => submit_buffer i (Ren3dUtils.ptr_read command_buffers (i : Int)) s) s

end Ren3dGl

namespace Ren3dGl

/-- A draw of six vertices as a triangle list with 16-bit indices. -/
def sample_draw : Ren3dDrawIndexedParam :=
  ⟨Ren3dPrimitiveTopology.triangle_list, 6, 2, 0, 0⟩

/-- A state whose current vertex input has the index buffer 7 and in which
nothing was invoked yet. -/
def sample_state : SubmitState :=
  ⟨some ⟨some 7⟩, []⟩

/-- An array whose entry 0 is a disabled buffer holding a command and whose
other entries are enabled buffers without commands. -/
def sample_idle_buffers : Int → Option Ren3dCmdBuffer :=
  fun i => if i = 0 then some ⟨false, [Ren3dCmd.clear]⟩ else some ⟨true, []⟩

/-- An array whose entry 0 holds `clear`, a command with the unrecognised id
99 and `set_viewport`, whose entry 1 is null and whose other entries hold
`clear`. -/
def sample_bad_buffers : Int → Option Ren3dCmdBuffer :=
  fun i =>
    if i = 0 then
      some ⟨true, [Ren3dCmd.clear] ++ Ren3dCmd.unsupported 99 :: [Ren3dCmd.set_viewport]⟩
    else if i = 1 then none
    else some ⟨true, [Ren3dCmd.clear]⟩

end Ren3dGl

/-! ## Anti-aliasing and the MSAA framebuffer (`src/bstone_detail_ren_3d_gl.cpp`) -/

/-- Modelled from the spec: `Ren3dAaKind`, whose header is not part of the
sources: `none`, `ms` and one value outside them. -/
inductive Ren3dAaKind where
  | none
  | ms
  | invalid
deriving DecidableEq, Repr

/-- The constants `Ren3dLimits::min_aa_off`, `min_aa_on` and `max_aa`, whose
header is not part of the sources: parameters of the functions that use
them. -/
structure Ren3dLimits where
  min_aa_off : Int
  min_aa_on : Int
  max_aa : Int
deriving DecidableEq, Repr

/-- The internal formats of the two renderbuffers. -/
inductive GlInternalFormat where
  | rgba8
  | depth_component
deriving DecidableEq, Repr

/-- A call of `glRenderbufferStorageMultisample` with its arguments. -/
structure RenderbufferStorage where
  sample_count : Int
  gl_internal_format : GlInternalFormat
  width : Int
  height : Int
deriving DecidableEq, Repr

/-- What the window layer and the driver answer during one call into the
device: whether the window operations return normally, the names generated
for the colour renderbuffer, the depth renderbuffer and the framebuffer object
(`none` when the creation throws), and whether the framebuffer is complete. -/
structure GlDriver where
  window_ok : Bool
  color_rb : Option Nat
  depth_rb : Option Nat
  fbo : Option Nat
  is_complete : Bool
deriving DecidableEq, Repr

/-- The members of `Ren3dGl` the anti-aliasing and window-mode functions use,
and the renderbuffer storage calls issued so far, oldest first.  A resource
handle is the name it owns, `none` when empty. -/
structure Ren3dGlDevice where
  is_msaa_requires_restart_ : Bool
  max_msaa_degree_ : Int
  is_framebuffer_available_ : Bool
  screen_width : Int
  screen_height : Int
  aa_kind_ : Ren3dAaKind
  aa_value_ : Int
  msaa_fbo_ : Option Nat
  msaa_color_rb_ : Option Nat
  msaa_depth_rb_ : Option Nat
  storage_calls : List RenderbufferStorage
deriving DecidableEq, Repr

/-- The three handles of the MSAA framebuffer are all non-empty or all
empty. -/
def Ren3dGlDevice.triple_ok (dev : Ren3dGlDevice) : Prop :=
  (dev.msaa_fbo_.isSome = true ∧ dev.msaa_color_rb_.isSome = true ∧
      dev.msaa_depth_rb_.isSome = true) ∨
    (dev.msaa_fbo_ = none ∧ dev.msaa_color_rb_ = none ∧ dev.msaa_depth_rb_ = none)

namespace Ren3dUtils

/-- `Ren3dUtils::set_window_mode(window, param)`, as far as the device
depends on it: it fails on a non-positive height or width and when an
operation of the window layer throws. -/
def set_window_mode (window_ok : Bool) (width_ height_ : Int) :
    Except Ren3dUtilsException Unit :=
  fail_nested "set_window_mode" <|
    if height_ ≤ 0 then fail "Height out of range."
    else if width_ ≤ 0 then fail "Width out of range."
    else if !window_ok then fail "Window operation failed."
    else Except.ok ()

end Ren3dUtils

namespace Ren3dGl

/-- `Ren3dGl::create_renderbuffer(width, height, sample_count,
gl_internal_format)`: it generates a name with `create_renderbuffer()` and
defines the storage.  `name` is the answer of the driver. -/
def create_renderbuffer (width height sample_count : Int)
    (gl_internal_format : GlInternalFormat) (name : Option Nat) (dev : Ren3dGlDevice) :
    Except Ren3dUtilsException Nat × Ren3dGlDevice :=
  if !dev.is_framebuffer_available_ then
    (Except.error ["create_renderbuffer", "create_renderbuffer", "Framebuffer not available."],
      dev)
  else
    match name with
    | none =>
      (Except.error ["create_renderbuffer", "create_renderbuffer",
        "Failed to create OpenGL renderbuffer object."], dev)
    | some gl_name =>
      (Except.ok gl_name,
        { dev with storage_calls :=
            dev.storage_calls ++ [⟨sample_count, gl_internal_format, width, height⟩] })

/-- `Ren3dGl::create_framebuffer()`. -/
def create_framebuffer (name : Option Nat) (dev : Ren3dGlDevice) :
    Except Ren3dUtilsException Nat × Ren3dGlDevice :=
  if !dev.is_framebuffer_available_ then
    (Except.error ["create_framebuffer", "Framebuffer not available."], dev)
  else
    match name with
    | none =>
      (Except.error ["create_framebuffer", "Failed to create OpenGL framebuffer object."], dev)
    | some gl_name => (Except.ok gl_name, dev)

/-- `Ren3dGl::create_msaa_color_rb`. -/
def create_msaa_color_rb (width height sample_count : Int) (driver : GlDriver)
    (dev : Ren3dGlDevice) : Except Ren3dUtilsException Unit × Ren3dGlDevice :=
  match create_renderbuffer width height sample_count GlInternalFormat.rgba8
      driver.color_rb dev with
  | (Except.ok gl_name, dev2) => (Except.ok (), { dev2 with msaa_color_rb_ := some gl_name })
  | (Except.error e, dev2) => (Except.error ("create_msaa_color_rb" :: e), dev2)

/-- `Ren3dGl::create_msaa_depth_rb`. -/
def create_msaa_depth_rb (width height sample_count : Int) (driver : GlDriver)
    (dev : Ren3dGlDevice) : Except Ren3dUtilsException Unit × Ren3dGlDevice :=
  match create_renderbuffer width height sample_count GlInternalFormat.depth_component
      driver.depth_rb dev with
  | (Except.ok gl_name, dev2) => (Except.ok (), { dev2 with msaa_depth_rb_ := some gl_name })
  | (Except.error e, dev2) => (Except.error ("create_msaa_depth_rb" :: e), dev2)

/-- The sample count `aa_degree` that `create_msaa_framebuffer` computes. -/
def msaa_aa_degree (limits : Ren3dLimits) (dev : Ren3dGlDevice) : Int :=
  let aa_degree := dev.aa_value_
  let aa_degree := if dev.aa_kind_ = Ren3dAaKind.none then limits.min_aa_off else aa_degree
  let aa_degree := if aa_degree < limits.min_aa_on then limits.min_aa_off else aa_degree
  if aa_degree > dev.max_msaa_degree_ then dev.max_msaa_degree_ else aa_degree

/-- `Ren3dGl::create_msaa_framebuffer`. -/
def create_msaa_framebuffer (limits : Ren3dLimits) (driver : GlDriver)
    (dev : Ren3dGlDevice) : Except Ren3dUtilsException Unit × Ren3dGlDevice :=
  let aa_degree := msaa_aa_degree limits dev
  Ren3dUtils.rethrow_in "create_msaa_framebuffer" <|
    match create_msaa_color_rb dev.screen_width dev.screen_height aa_degree driver dev with
    | (Except.error e, dev1) => (Except.error e, dev1)
    | (Except.ok (), dev1) =>
      match create_msaa_depth_rb dev1.screen_width dev1.screen_height aa_degree driver dev1 with
      | (Except.error e, dev2) => (Except.error e, dev2)
      | (Except.ok (), dev2) =>
        match create_framebuffer driver.fbo dev2 with
        | (Except.error e, dev3) => (Except.error e, dev3)
        | (Except.ok gl_name, dev3) =>
          let dev4 := { dev3 with msaa_fbo_ := some gl_name }
          if !driver.is_complete then
            (Ren3dUtils.fail "Incomplete framebuffer object.", dev4)
          else (Except.ok (), dev4)

/-- `Ren3dGl::destroy_msaa_framebuffer`: the three handles are reset. -/
def destroy_msaa_framebuffer (dev : Ren3dGlDevice) : Ren3dGlDevice :=
  { dev with msaa_fbo_ := none, msaa_color_rb_ := none, msaa_depth_rb_ := none }

/-- `Ren3dGl::destroy_framebuffers`. -/
def destroy_framebuffers (dev : Ren3dGlDevice) : Ren3dGlDevice :=
  destroy_msaa_framebuffer dev

/-- `Ren3dGl::create_framebuffers`. -/
def create_framebuffers (limits : Ren3dLimits) (driver : GlDriver) (dev : Ren3dGlDevice) :
    Except Ren3dUtilsException Unit × Ren3dGlDevice :=
  Ren3dUtils.rethrow_in "create_framebuffers" <|
    if !dev.is_framebuffer_available_ then (Except.ok (), dev)
    else create_msaa_framebuffer limits driver dev

/-- `Ren3dGl::disable_aa`. -/
def disable_aa (limits : Ren3dLimits) (driver : GlDriver) (dev : Ren3dGlDevice) :
    Except Ren3dUtilsException Unit × Ren3dGlDevice :=
  let dev1 := { dev with aa_kind_ := Ren3dAaKind.none }
  Ren3dUtils.rethrow_in "disable_aa" <|
    if dev1.msaa_fbo_.isNone then (Except.ok (), dev1)
    else create_msaa_framebuffer limits driver (destroy_msaa_framebuffer dev1)

/-- `Ren3dGl::set_msaa`. -/
def set_msaa (limits : Ren3dLimits) (driver : GlDriver) (aa_value : Int)
    (dev : Ren3dGlDevice) : Except Ren3dUtilsException Unit × Ren3dGlDevice :=
  Ren3dUtils.rethrow_in "set_msaa" <|
    if dev.is_msaa_requires_restart_ then (Ren3dUtils.fail "Requires restart.", dev)
    else if !dev.is_framebuffer_available_ then
      (Ren3dUtils.fail "Framebuffer not available.", dev)
    else if dev.aa_kind_ = Ren3dAaKind.ms ∧ dev.aa_value_ = aa_value then (Except.ok (), dev)
    else
      let dev1 := { dev with aa_kind_ := Ren3dAaKind.ms, aa_value_ := aa_value }
      create_framebuffers limits driver (destroy_framebuffers dev1)

/-- The value `clamped_aa_value` of `set_anti_aliasing`. -/
def clamp_aa_value (limits : Ren3dLimits) (aa_value : Int) : Int :=
  let clamped_aa_value := aa_value
  let clamped_aa_value :=
    if clamped_aa_value < limits.min_aa_off then limits.min_aa_off else clamped_aa_value
  if clamped_aa_value > limits.max_aa then limits.max_aa else clamped_aa_value

/-- `Ren3dGl::set_anti_aliasing`. -/
def set_anti_aliasing (limits : Ren3dLimits) (driver : GlDriver) (aa_kind : Ren3dAaKind)
    (aa_value : Int) (dev : Ren3dGlDevice) :
    Except Ren3dUtilsException Unit × Ren3dGlDevice :=
  Ren3dUtils.rethrow_in "set_anti_aliasing" <|
    match aa_kind with
    | Ren3dAaKind.invalid => (Ren3dUtils.fail "Invalid anti-aliasing kind.", dev)
    | Ren3dAaKind.none => disable_aa limits driver dev
    | Ren3dAaKind.ms => set_msaa limits driver (clamp_aa_value limits aa_value) dev

/-- `Ren3dGl::set_window_mode`, with the extent of `param.rect_2d_`. -/
def set_window_mode (limits : Ren3dLimits) (driver : GlDriver) (width_ height_ : Int)
    (dev : Ren3dGlDevice) : Except Ren3dUtilsException Unit × Ren3dGlDevice :=
  Ren3dUtils.rethrow_in "set_window_mode" <|
    match Ren3dUtils.set_window_mode driver.window_ok width_ height_ with
    | Except.error e => (Except.error e, dev)
    | Except.ok () =>
      let size_changed := decide (dev.screen_width ≠ width_) || decide (dev.screen_height ≠ height_)
      let dev1 := { dev with screen_width := width_, screen_height := height_ }
      if size_changed && dev1.is_framebuffer_available_ then
        create_msaa_framebuffer limits driver (destroy_msaa_framebuffer dev1)
      else (Except.ok (), dev1)

/-- A call into the device that may rebuild the MSAA framebuffer. -/
inductive DeviceCall where
  | set_anti_aliasing (aa_kind : Ren3dAaKind) (aa_value : Int)
  | set_window_mode (width_ height_ : Int)
deriving DecidableEq, Repr

/-- The outcome of a call and the device after it. -/
def DeviceCall.run (limits : Ren3dLimits) (call : DeviceCall) (driver : GlDriver)
    (dev : Ren3dGlDevice) : Except Ren3dUtilsException Unit × Ren3dGlDevice :=
  match call with
  | DeviceCall.set_anti_aliasing aa_kind aa_value =>
    Ren3dGl.set_anti_aliasing limits driver aa_kind aa_value dev
  | DeviceCall.set_window_mode width_ height_ =>
    Ren3dGl.set_window_mode limits driver width_ height_ dev

/-- The device after a sequence of calls, each with the answers of the driver
during it; a call that fails leaves the device as it is at the throw. -/
def run_calls (limits : Ren3dLimits) :
    List (DeviceCall × GlDriver) → Ren3dGlDevice → Ren3dGlDevice
  | [], dev => dev
  | (call, driver) :: rest, dev => run_calls limits rest (call.run limits driver dev).2

/-- Limits with `min_aa_off = 1`, `min_aa_on = 2`, `max_aa = 32`. -/
def sample_limits : Ren3dLimits :=
  ⟨1, 2, 32⟩

/-- A driver that creates every object. -/
def sample_driver : GlDriver :=
  ⟨true, some 1, some 2, some 3, true⟩

/-- A driver that creates the colour renderbuffer and fails to create the
depth renderbuffer. -/
def sample_driver_no_depth : GlDriver :=
  ⟨true, some 1, none, some 3, true⟩

/-- A 640x480 device with framebuffers, up to 8 samples and anti-aliasing
off, as the constructor has it before it calls `create_framebuffers`: the
three handles are empty. -/
def sample_device_init : Ren3dGlDevice :=
  ⟨false, 8, true, 640, 480, Ren3dAaKind.none, 1, none, none, none, []⟩

/-- The answers of the driver during the construction of `sample_device`. -/
def sample_driver_init : GlDriver := ⟨true, some 10, some 20, some 30, true⟩

/-- The device after the constructor created the framebuffers. -/
def sample_device : Ren3dGlDevice :=
  (create_framebuffers sample_limits sample_driver_init sample_device_init).2

/-- A driver that fails to create any renderbuffer. -/
def sample_driver_no_rb : GlDriver := ⟨true, none, none, none, true⟩

end Ren3dGl

namespace Ren3dGl

/-- The device `sample_device` with four-sample anti-aliasing on, whose
features report that a change of MSAA requires a restart. -/
def sample_device_restart : Ren3dGlDevice :=
  { sample_device with
      is_msaa_requires_restart_ := true, aa_kind_ := Ren3dAaKind.ms, aa_value_ := 4 }

end Ren3dGl

namespace Ren3dGl

/-- The operations `submit_draw_indexed` has invoked when it throws an
exception whose innermost message is "Null index buffer.": the bindings of
the vertex input, the shader stage, the sampler and the texture. -/
def bindings_before (e : Ren3dUtilsException) : List GlCall :=
  if e.getLast? = some "Null index buffer." then
    [GlCall.vertex_input_set, GlCall.shader_stage_set, GlCall.sampler_set, GlCall.texture_set]
  else []

/-- A state whose current vertex input has no index buffer and in which
nothing was invoked yet. -/
def sample_state_no_index : SubmitState :=
  ⟨some ⟨none⟩, []⟩

/-- An array whose entry 0 holds `clear` and the draw `sample_draw`. -/
def sample_draw_buffers : Int → Option Ren3dCmdBuffer :=
  fun i =>
    if i = 0 then some ⟨true, [Ren3dCmd.clear] ++ Ren3dCmd.draw_indexed sample_draw :: []⟩
    else some ⟨true, []⟩

end Ren3dGl

/-- Two texels that differ at most in the `r_`, `g_`, `b_` channels of a fully
transparent texel: the alphas agree and the texels agree unless the alpha
is 0. -/
def Rgba8.same_visible (c d : Rgba8) : Prop :=
  c.a_ = d.a_ ∧ (c.a_ ≠ 0 → c = d)

namespace Ren3dUtils

/-! ## Resampling without the cache

The traversals of the four `indexed_npot_to_rgba_8_*` functions with the
lookup `src_palette[indexed_pixels_[src_index]]` at every destination pixel in
place of `cached_src_index` and `cached_color`: the reference the cached loops
are compared with. -/

end Ren3dUtils

/-! ## Vertex input (`src/bstone_detail_ren_3d_gl_vertex_input.cpp`)

The OpenGL context is modelled by the enable flag of every generic vertex
attribute array and by the operations invoked, oldest first; an OpenGL
operation and `Ren3dGlError::ensure_debug` return normally. -/

/-- An operation the vertex input invokes: `set(true)` of the index buffer or
of a vertex buffer, and the OpenGL calls. -/
inductive VertexInputCall where
  | index_buffer_set
  | vertex_buffer_set
  | bind_vertex_array (gl_name : Nat)
  | vertex_attrib_4fv (location : Int)
  | enable_vertex_attrib_array (index : Int)
  | disable_vertex_attrib_array (index : Int)
  | vertex_attrib_pointer (location : Int) (format : Ren3dVertexAttribFormat)
      (stride : Int) (offset : Int)
deriving DecidableEq, Repr

/-- The part of the OpenGL state the vertex input works on. -/
structure GlVertexArrayState where
  enabled_ : Int → Bool
  calls : List VertexInputCall

/-- The state after an operation that changes no enable flag. -/
def GlVertexArrayState.invoke (st : GlVertexArrayState) (call : VertexInputCall) :
    GlVertexArrayState :=
  { st with calls := st.calls ++ [call] }

/-- `Ren3dGlVertexInputImpl`, with the fields `bind` reads;
`max_vertex_input_locations_` is the one of `device_features_`, and
`vao_resource_` is `none` when empty. -/
structure Ren3dGlVertexInputImpl where
  max_vertex_input_locations_ : Int
  index_buffer_ : Option Ren3dBufferKind
  attrib_descrs_ : List Ren3dVertexAttribDescr
  vao_resource_ : Option Nat

namespace Ren3dGlVertexInputImpl

/-- `Ren3dGlVertexInputImpl::enable_attrib_array`. -/
def enable_attrib_array (index : Int) (is_enable : Bool) (st : GlVertexArrayState) :
    Except Ren3dUtilsException Unit × GlVertexArrayState :=
  Ren3dUtils.rethrow_in "enable_attrib_array"
    (Except.ok (),
      { enabled_ := Ren3dUtils.mem_write st.enabled_ index is_enable,
        calls := st.calls ++
          [if is_enable then VertexInputCall.enable_vertex_attrib_array index
            else VertexInputCall.disable_vertex_attrib_array index] })

/-- `Ren3dGlVertexInputImpl::assign_default_attribute`. -/
def assign_default_attribute (attribute_description : Ren3dVertexAttribDescr)
    (st : GlVertexArrayState) : Except Ren3dUtilsException Unit × GlVertexArrayState :=
  Ren3dUtils.rethrow_in "assign_default_attribute"
    (Except.ok (), st.invoke (VertexInputCall.vertex_attrib_4fv attribute_description.location_))

/-- `Ren3dGlVertexInputImpl::assign_regular_attribute`. -/
def assign_regular_attribute (attribute_description : Ren3dVertexAttribDescr)
    (st : GlVertexArrayState) : Except Ren3dUtilsException Unit × GlVertexArrayState :=
  Ren3dUtils.rethrow_in "assign_regular_attribute" <|
    match attribute_description.format_ with
    | Ren3dVertexAttribFormat.none => (Ren3dUtils.fail "Invalid format.", st)
    | _ =>
      match enable_attrib_array attribute_description.location_ true st with
      | (Except.error e, st1) => (Except.error e, st1)
      | (Except.ok (), st1) =>
        (Except.ok (),
          (st1.invoke VertexInputCall.vertex_buffer_set).invoke
            (VertexInputCall.vertex_attrib_pointer attribute_description.location_
              attribute_description.format_ attribute_description.stride_
              attribute_description.offset_))

/-- `Ren3dGlVertexInputImpl::assign_attribute`. -/
def assign_attribute (attribute_description : Ren3dVertexAttribDescr)
    (st : GlVertexArrayState) : Except Ren3dUtilsException Unit × GlVertexArrayState :=
  Ren3dUtils.rethrow_in "assign_attribute" <|
    if attribute_description.is_default_ then
      assign_default_attribute attribute_description st
    else
      assign_regular_attribute attribute_description st

/-- The loop `for (const auto& attribute_description : attrib_descrs_)
assign_attribute(attribute_description);` of `bind_internal`. -/
def assign_attributes :
    List Ren3dVertexAttribDescr → GlVertexArrayState →
      Except Ren3dUtilsException Unit × GlVertexArrayState
  | [], st => (Except.ok (), st)
  | attribute_description :: rest, st =>
    match assign_attribute attribute_description st with
    | (Except.ok (), st1) => assign_attributes rest st1
    | (Except.error e, st1) => (Except.error e, st1)

/-- The body of the second loop of `bind_internal` for the slot `i`. -/
def disable_unreferenced (self : Ren3dGlVertexInputImpl) (i : Nat)
    (st : GlVertexArrayState) : Except Ren3dUtilsException Unit × GlVertexArrayState :=
  let it := self.attrib_descrs_.find?
    (fun item => !item.is_default_ && decide (item.location_ = (i : Int)))
  if it.isNone then enable_attrib_array (i : Int) false st
  else (Except.ok (), st)

/-- `Ren3dGlVertexInputImpl::bind_internal`. -/
def bind_internal (self : Ren3dGlVertexInputImpl) (st : GlVertexArrayState) :
    Except Ren3dUtilsException Unit × GlVertexArrayState :=
  Ren3dUtils.rethrow_in "bind_internal" <|
    let st1 :=
      if self.index_buffer_.isSome then st.invoke VertexInputCall.index_buffer_set else st
    match assign_attributes self.attrib_descrs_ st1 with
    | (Except.error e, st2) => (Except.error e, st2)
    | (Except.ok (), st2) =>
      for_loop_try self.max_vertex_input_locations_.toNat (disable_unreferenced self) st2

/-- The loop of `bind` over the default attributes, with a VAO. -/
def assign_default_attributes :
    List Ren3dVertexAttribDescr → GlVertexArrayState →
      Except Ren3dUtilsException Unit × GlVertexArrayState
  | [], st => (Except.ok (), st)
  | attribute_description :: rest, st =>
    if attribute_description.is_default_ then
      match assign_default_attribute attribute_description st with
      | (Except.ok (), st1) => assign_default_attributes rest st1
      | (Except.error e, st1) => (Except.error e, st1)
    else assign_default_attributes rest st

/-- `Ren3dGlVertexInputImpl::bind`. -/
def bind (self : Ren3dGlVertexInputImpl) (st : GlVertexArrayState) :
    Except Ren3dUtilsException Unit × GlVertexArrayState :=
  Ren3dUtils.rethrow_in "bind" <|
    match self.vao_resource_ with
    | some gl_name =>
      assign_default_attributes self.attrib_descrs_
        (st.invoke (VertexInputCall.bind_vertex_array gl_name))
    | none => bind_internal self st

/-- A vertex input without VAO on a device with four locations: a default
attribute at location 0 and regular attributes at the locations 2 and 0. -/
def sample_vertex_input : Ren3dGlVertexInputImpl :=
  ⟨4, some Ren3dBufferKind.index,
    [Ren3dUtils.sample_default_descr, Ren3dUtils.sample_descr 2, Ren3dUtils.sample_descr 0],
    none⟩

/-- A state left by a previous vertex input: the arrays 1 and 2 are
enabled. -/
def sample_vertex_state : GlVertexArrayState :=
  ⟨fun i => decide (i = 1 ∨ i = 2), []⟩

end Ren3dGlVertexInputImpl

namespace Ren3dUtils

/-- The dimensions of the level `build_mipmap` writes, read off the three
cases of its body: `build_mipmap_1` halves the one dimension above 1, the main
loop runs over `previous_width / 2` by `previous_height / 2` texels. -/
def build_mipmap_size (previous_width previous_height : Int) : Int × Int :=
  if previous_width = 1 then (1, Int.tdiv previous_height 2)
  else if previous_height = 1 then (Int.tdiv previous_width 2, 1)
  else (Int.tdiv previous_width 2, Int.tdiv previous_height 2)

end Ren3dUtils

namespace Ren3dUtils

/-! ## The accesses of the resampling loops

The loop nests of the resampling functions with every access recorded in
place of being carried out: an inner iteration computes `src_index` in `int`
arithmetic, reads the source at it and writes the destination at the offset of
the write pointer, which it then advances. -/

end Ren3dUtils

/-! ## Task queue (`src/bstone_mt_task_mgr.cpp`)

`detail::MtTaskQueue` as one thread sees it: the atomic loads and stores are
reads and writes, and the spin flag is free whenever a member function is
entered.  An `Index` (`unsigned int`) is a natural number; the indices stay
below `size_`, which is at most the greatest `int`, so no index arithmetic
wraps. -/

/-- `MtTaskPtr`: a pointer to a task, `none` when null; the task is named by a
number. -/
abbrev MtTaskPtr := Option Nat

/-- The message of an `MtTaskQueueException`. -/
abbrev MtTaskQueueException := List String

/-- `detail::MtTaskQueue`. -/
structure MtTaskQueue where
  size_ : Nat
  mt_read_index_ : Nat
  mt_write_index_ : Nat
  items_ : List MtTaskPtr
deriving DecidableEq, Repr

namespace MtTaskQueue

/-- `MtTaskQueue::fail`. -/
def fail {α : Type} (message : String) : Except MtTaskQueueException α :=
  Except.error [message]

/-- `MtTaskQueue::MtTaskQueue(int size)`. -/
def create (size : Int) : Except MtTaskQueueException MtTaskQueue :=
  if size ≤ 0 then fail "Max size out of range."
  else Except.ok ⟨size.toNat, 0, 0, List.replicate size.toNat none⟩

/-- `MtTaskQueue::push(MtTaskPtr mt_task)`. -/
def push (mt_task : MtTaskPtr) (q : MtTaskQueue) :
    Except MtTaskQueueException Unit × MtTaskQueue :=
  if mt_task.isNone then (fail "Null task.", q)
  else
    let read_index := q.mt_read_index_
    let write_index := q.mt_write_index_
    let new_write_index := (write_index + 1) % q.size_
    if read_index = new_write_index then (fail "Queue overflow.", q)
    else
      (Except.ok (),
        { q with
            items_ := q.items_.set write_index mt_task,
            mt_write_index_ := new_write_index })

/-- The local state of the loop of `push(MtTaskPtr*, int)`. -/
structure PushState where
  write_index : Nat
  new_write_index : Nat
  items_ : List MtTaskPtr
deriving DecidableEq, Repr

/-- The body of the loop of `push(MtTaskPtr*, int)` for the task at position
`i`. -/
def push_tasks_step (size_ read_index : Nat) (mt_tasks : Int → MtTaskPtr) (i : Nat)
    (st : PushState) : Except MtTaskQueueException Unit × PushState :=
  let new_write_index := (st.new_write_index + 1) % size_
  if read_index = new_write_index then
    (fail "Queue overflow.", { st with new_write_index := new_write_index })
  else
    (Except.ok (),
      { write_index := (st.write_index + 1) % size_,
        new_write_index := new_write_index,
        items_ := st.items_.set st.write_index (mt_tasks (i : Int)) })

/-- `MtTaskQueue::push(MtTaskPtr* mt_tasks, int mt_task_count)`.  The loop
writes `items_` in place; `mt_write_index_` is stored after the loop only. -/
def push_tasks (mt_tasks : Option (Int → MtTaskPtr)) (mt_task_count : Int)
    (q : MtTaskQueue) : Except MtTaskQueueException Unit × MtTaskQueue :=
  match mt_tasks with
  | none => (fail "Null task list.", q)
  | some tasks =>
    if mt_task_count ≤ 0 then (fail "Task count out of range.", q)
    else
      let has_null :=
        (List.range mt_task_count.toNat).any (fun i : Nat => (tasks (i : Int)).isNone)
      if has_null then (fail "Null task.", q)
      else
        let read_index := q.mt_read_index_
        match for_loop_try mt_task_count.toNat
            (push_tasks_step q.size_ read_index tasks)
            ⟨q.mt_write_index_, q.mt_write_index_, q.items_⟩ with
        | (Except.error e, st) => (Except.error e, { q with items_ := st.items_ })
        | (Except.ok (), st) =>
          (Except.ok (),
            { q with items_ := st.items_, mt_write_index_ := st.new_write_index })

/-- `MtTaskQueue::pop(MtTaskPtr& mt_task)`: the returned flag, the referenced
pointer after the call and the queue. -/
def pop (mt_task : MtTaskPtr) (q : MtTaskQueue) : Bool × MtTaskPtr × MtTaskQueue :=
  let read_index := q.mt_read_index_
  let write_index := q.mt_write_index_
  if read_index = write_index then (false, mt_task, q)
  else
    let new_read_index := (read_index + 1) % q.size_
    (true, q.items_.getD read_index none, { q with mt_read_index_ := new_read_index })

/-- The tasks that up to `fuel` subsequent calls of `pop` return, first pop
first. -/
def drain : Nat → MtTaskQueue → List MtTaskPtr
  | 0, _ => []
  | fuel + 1, q =>
    match pop none q with
    | (false, _, _) => []
    | (true, mt_task, q2) => mt_task :: drain fuel q2

/-- The logical content of the queue: the tasks that subsequent pops return;
`size_` pops empty every queue. -/
def contents (q : MtTaskQueue) : List MtTaskPtr :=
  drain q.size_ q

/-- The state of a queue between calls: a positive size, both indices below
it, and `size_` items. -/
def valid (q : MtTaskQueue) : Prop :=
  0 < q.size_ ∧ q.mt_read_index_ < q.size_ ∧ q.mt_write_index_ < q.size_ ∧
    q.items_.length = q.size_

/-- The number of slots from the read index up to the write index. -/
def count (q : MtTaskQueue) : Nat :=
  if q.mt_read_index_ ≤ q.mt_write_index_ then q.mt_write_index_ - q.mt_read_index_
  else q.mt_write_index_ + q.size_ - q.mt_read_index_

/-- Reference: `push` of a bounded FIFO list of `capacity` tasks. -/
def fifo_push (capacity : Nat) (queued : List MtTaskPtr) (mt_task : MtTaskPtr) :
    Except MtTaskQueueException Unit × List MtTaskPtr :=
  if queued.length < capacity then (Except.ok (), queued ++ [mt_task])
  else (fail "Queue overflow.", queued)

/-- Reference: `pop` of a FIFO list: whether a task was removed, the task
handed out and the list left. -/
def fifo_pop (mt_task : MtTaskPtr) (queued : List MtTaskPtr) :
    Bool × MtTaskPtr × List MtTaskPtr :=
  match queued with
  | [] => (false, mt_task, [])
  | oldest :: rest => (true, oldest, rest)

/-- Reference: the atomic batch `push` of a bounded FIFO list. -/
def fifo_push_tasks (capacity : Nat) (queued : List MtTaskPtr) (mt_tasks : List MtTaskPtr) :
    Except MtTaskQueueException Unit × List MtTaskPtr :=
  if queued.length + mt_tasks.length ≤ capacity then (Except.ok (), queued ++ mt_tasks)
  else (fail "Queue overflow.", queued)

/-- The tasks `1, 2, 3, ...`: the task at position `i` is `i + 1`. -/
def sample_tasks : Int → MtTaskPtr :=
  fun i => some (i.toNat + 1)

/-- A queue of size 4 after the pushes of the tasks 7, 8, 9 and one pop: it
holds 8 and 9, the write index has wrapped to 3 and the read index is 1. -/
def sample_queue : MtTaskQueue :=
  ⟨4, 1, 3, [some 7, some 8, some 9, none]⟩

end MtTaskQueue

/-! ## Theorems -/

namespace Ren3dUtils

theorem fail_nested_ok {α : Type} (func : String) (a : α) :
    fail_nested func (Except.ok a) = Except.ok a := rfl

theorem calculate_mipmap_count_loop_spec (fuel : Nat) :
    ∀ (log_2 : Int) (m : Nat), 1 ≤ m → m ≤ fuel →
      calculate_mipmap_count_loop fuel log_2 (m : Int) = log_2 + (Nat.log 2 m : Int) := by
  induction fuel with
  | zero => intro log_2 m h1 h2; omega
  | succ fuel ih =>
    intro log_2 m h1 h2
    unfold calculate_mipmap_count_loop
    by_cases hm : (m : Int) > 1
    · have hm2 : 2 ≤ m := by omega
      have hdiv : Int.tdiv (m : Int) 2 = ((m / 2 : Nat) : Int) := by
        rw [Int.tdiv_eq_ediv (by omega) (by omega)]
        simp
      rw [if_pos hm, hdiv, ih (log_2 + 1) (m / 2) (by omega) (by omega)]
      rw [Nat.log_of_one_lt_of_le (by decide) hm2]
      push_cast
      ring
    · have hm1 : m = 1 := by omega
      subst hm1
      simp

/-- Claim C1. For all `width, height ≥ 1`, `calculate_mipmap_count` returns
`floor(log2(max(width, height))) + 1`, which is the `n ≥ 1` with
`2^(n-1) ≤ max(width, height) < 2^n`. -/
theorem calculate_mipmap_count_eq (width height : Int) (hw : 1 ≤ width) (hh : 1 ≤ height) :
    ∃ n : Nat,
      calculate_mipmap_count width height = Except.ok (n : Int) ∧
      n = Nat.log 2 (max width height).toNat + 1 ∧
      1 ≤ n ∧ (2 : Int) ^ (n - 1) ≤ max width height ∧ max width height < (2 : Int) ^ n := by
  obtain ⟨m, hm⟩ : ∃ m : Nat, max width height = (m : Int) :=
    ⟨(max width height).toNat, (Int.toNat_of_nonneg (by omega)).symm⟩
  have hm1 : 1 ≤ m := by omega
  refine ⟨Nat.log 2 m + 1, ?_, ?_, by omega, ?_, ?_⟩
  · unfold calculate_mipmap_count
    rw [if_neg (by omega), if_neg (by omega)]
    simp only [hm, Int.toNat_ofNat]
    rw [calculate_mipmap_count_loop_spec m 0 m hm1 le_rfl]
    simp [fail_nested]
  · simp [hm]
  · rw [hm]
    have := Nat.pow_log_le_self 2 (x := m) (by omega)
    simp only [Nat.add_sub_cancel]
    exact_mod_cast this
  · rw [hm]
    have := Nat.lt_pow_succ_log_self (b := 2) (by decide) m
    exact_mod_cast this

/-- Claim C1 at `(300, 1)`, and the evaluations `(1, 1) -> 1`,
`(256, 256) -> 9`, `(300, 1) -> 9`. -/
theorem calculate_mipmap_count_eq_witness :
    (∃ n : Nat,
      calculate_mipmap_count 300 1 = Except.ok (n : Int) ∧
      n = Nat.log 2 (max (300 : Int) 1).toNat + 1 ∧
      1 ≤ n ∧ (2 : Int) ^ (n - 1) ≤ max 300 1 ∧ max (300 : Int) 1 < (2 : Int) ^ n) ∧
    calculate_mipmap_count 1 1 = Except.ok 1 ∧
    calculate_mipmap_count 256 256 = Except.ok 9 ∧
    calculate_mipmap_count 300 1 = Except.ok 9 :=
  ⟨calculate_mipmap_count_eq 300 1 (by decide) (by decide), rfl, rfl, rfl⟩

/-! ### Nearest power of two -/

theorem wrap_int32_two_pow (i : Nat) (hi : i ≤ 30) : wrap_int32 (2 ^ i) = 2 ^ i := by
  have h1 : (2 : Int) ^ i ≤ 2 ^ 30 := pow_le_pow_right₀ (by norm_num) hi
  have h0 : (0 : Int) < 2 ^ i := by positivity
  unfold wrap_int32
  rw [Int.emod_eq_of_lt (by omega) (by omega)]
  omega

theorem wrap_int32_two_pow_31 : wrap_int32 (2 ^ 31) = -2 ^ 31 := by decide

theorem find_nearest_pot_value_loop_found (value : Int) (k : Nat) (hk : k ≤ 30)
    (hge : value ≤ 2 ^ k) (hlt : ∀ j : Nat, j < k → (2 : Int) ^ j < value) :
    ∀ fuel i : Nat, fuel + i = 32 → i ≤ k →
      find_nearest_pot_value_loop fuel i value = 2 ^ k := by
  intro fuel
  induction fuel with
  | zero => intro i h1 h2; omega
  | succ fuel ih =>
    intro i h1 h2
    unfold find_nearest_pot_value_loop
    dsimp only
    by_cases hik : i = k
    · subst hik
      rw [wrap_int32_two_pow i hk, if_pos hge]
    · have hi : i < k := by omega
      have h3 := hlt i hi
      rw [wrap_int32_two_pow i (by omega), if_neg (by omega)]
      exact ih (i + 1) (by omega) (by omega)

theorem find_nearest_pot_value_loop_none (value : Int) (h : 2 ^ 30 < value) :
    ∀ fuel i : Nat, fuel + i = 32 → find_nearest_pot_value_loop fuel i value = 0 := by
  intro fuel
  induction fuel with
  | zero => intro i _; rfl
  | succ fuel ih =>
    intro i h1
    unfold find_nearest_pot_value_loop
    dsimp only
    have hlt : wrap_int32 (2 ^ i) < value := by
      by_cases hi : i ≤ 30
      · rw [wrap_int32_two_pow i hi]
        have : (2 : Int) ^ i ≤ 2 ^ 30 := pow_le_pow_right₀ (by norm_num) hi
        omega
      · have hi31 : i = 31 := by omega
        subst hi31
        rw [wrap_int32_two_pow_31]
        omega
    rw [if_neg (by omega)]
    exact ih (i + 1) (by omega)

/-- For `1 ≤ v ≤ 2^30` the result is `2 ^ clog2 v`, the smallest power of two
that is `≥ v`. -/
theorem find_nearest_pot_value_small (v : Nat) (h2 : v ≤ 2 ^ 30) :
    find_nearest_pot_value (v : Int) = 2 ^ Nat.clog 2 v := by
  have hk : Nat.clog 2 v ≤ 30 := (Nat.le_pow_iff_clog_le (by decide)).1 h2
  have hge : (v : Int) ≤ 2 ^ Nat.clog 2 v := by
    exact_mod_cast Nat.le_pow_clog (by decide) v
  have hlt : ∀ j : Nat, j < Nat.clog 2 v → (2 : Int) ^ j < (v : Int) := by
    intro j hj
    by_contra hcon
    have hle : v ≤ 2 ^ j := by
      have : (v : Int) ≤ 2 ^ j := by omega
      exact_mod_cast this
    have := (Nat.le_pow_iff_clog_le (by decide)).1 hle
    omega
  exact find_nearest_pot_value_loop_found (v : Int) (Nat.clog 2 v) hk hge hlt 32 0 rfl
    (Nat.zero_le _)

/-- For `v > 2^30` no `1 << i` with `i < 32` is `≥ v` and the result is `0`. -/
theorem find_nearest_pot_value_large (v : Int) (h : 2 ^ 30 < v) :
    find_nearest_pot_value v = 0 :=
  find_nearest_pot_value_loop_none v h 32 0 rfl

/-- Claim C2, as amended. For `1 ≤ v ≤ 2^30`, `find_nearest_pot_value v` is the
smallest power of two that is `≥ v`; for `2^30 < v ≤ 2^31 - 1`, where no power
of two `≥ v` is an `int`, it is `0`. -/
theorem find_nearest_pot_value_spec (v : Int) (h1 : 1 ≤ v) (h2 : v ≤ 2 ^ 31 - 1) :
    (v ≤ 2 ^ 30 ∧ ∃ k : Nat, find_nearest_pot_value v = 2 ^ k ∧ v ≤ 2 ^ k ∧
        ∀ j : Nat, v ≤ 2 ^ j → (2 : Int) ^ k ≤ 2 ^ j) ∨
    (2 ^ 30 < v ∧ find_nearest_pot_value v = 0) := by
  by_cases hv : v ≤ 2 ^ 30
  · left
    obtain ⟨n, rfl⟩ : ∃ n : Nat, v = (n : Int) := ⟨v.toNat, (Int.toNat_of_nonneg (by omega)).symm⟩
    have hn1 : 1 ≤ n := by omega
    have hn2 : n ≤ 2 ^ 30 := by exact_mod_cast hv
    refine ⟨hv, Nat.clog 2 n, find_nearest_pot_value_small n hn2, ?_, ?_⟩
    · exact_mod_cast Nat.le_pow_clog (by decide) n
    · intro j hj
      have hle : n ≤ 2 ^ j := by exact_mod_cast hj
      exact pow_le_pow_right₀ (by norm_num) ((Nat.le_pow_iff_clog_le (by decide)).1 hle)
  · right
    exact ⟨by omega, find_nearest_pot_value_large v (by omega)⟩

/-- Claim C2 at `v = 5`, and the evaluations `5 -> 8`, `8 -> 8`. -/
theorem find_nearest_pot_value_spec_witness :
    (((5 : Int) ≤ 2 ^ 30 ∧ ∃ k : Nat, find_nearest_pot_value 5 = 2 ^ k ∧ (5 : Int) ≤ 2 ^ k ∧
        ∀ j : Nat, (5 : Int) ≤ 2 ^ j → (2 : Int) ^ k ≤ 2 ^ j) ∨
      (2 ^ 30 < (5 : Int) ∧ find_nearest_pot_value 5 = 0)) ∧
    find_nearest_pot_value 5 = 8 ∧ find_nearest_pot_value 8 = 8 :=
  ⟨find_nearest_pot_value_spec 5 (by decide) (by decide), by decide, by decide⟩

/-- Claim C2 fails as stated: `v = 2^30 + 1` lies in `[1, 2^31 - 1]`, the
function returns `0`, which is neither `≥ v` nor a power of two. -/
theorem find_nearest_pot_value_counterexample :
    (1 : Int) ≤ 1073741825 ∧ (1073741825 : Int) ≤ 2 ^ 31 - 1 ∧
    find_nearest_pot_value 1073741825 = 0 ∧
    ¬ ((1073741825 : Int) ≤ find_nearest_pot_value 1073741825) ∧
    ¬ ∃ k : Nat, find_nearest_pot_value 1073741825 = 2 ^ k := by
  have h0 : find_nearest_pot_value 1073741825 = 0 :=
    find_nearest_pot_value_large 1073741825 (by norm_num)
  refine ⟨by norm_num, by norm_num, h0, ?_, ?_⟩
  · rw [h0]; norm_num
  · rw [h0]
    rintro ⟨k, hk⟩
    have : (0 : Int) < 2 ^ k := by positivity
    omega

/-- Claim C3. For `1 ≤ v ≤ 2^31 - 1`, `is_pot_value v` holds exactly when `v` is
a power of two, that is when the smallest power of two `≥ v`, `2 ^ clog2 v`,
is `v` itself. -/
theorem is_pot_value_iff (v : Int) (h1 : 1 ≤ v) (h2 : v ≤ 2 ^ 31 - 1) :
    (is_pot_value v = true ↔ ∃ k : Nat, v = 2 ^ k) ∧
    (is_pot_value v = true ↔ (2 : Int) ^ Nat.clog 2 v.toNat = v) := by
  obtain ⟨n, rfl⟩ : ∃ n : Nat, v = (n : Int) := ⟨v.toNat, (Int.toNat_of_nonneg (by omega)).symm⟩
  have hn1 : 1 ≤ n := by omega
  have hpow : (∃ k : Nat, (n : Int) = 2 ^ k) ↔ (2 : Int) ^ Nat.clog 2 n = (n : Int) := by
    constructor
    · rintro ⟨k, hk⟩
      have hk2 : n = 2 ^ k := by exact_mod_cast hk
      rw [hk2, Nat.clog_pow 2 k (by decide)]
      push_cast
      rfl
    · intro h
      exact ⟨Nat.clog 2 n, h.symm⟩
  have hmain : is_pot_value (n : Int) = true ↔ (2 : Int) ^ Nat.clog 2 n = (n : Int) := by
    unfold is_pot_value
    simp only [beq_iff_eq]
    by_cases hv : n ≤ 2 ^ 30
    · rw [find_nearest_pot_value_small n hv]
    · have hv2 : (2 : Int) ^ 30 < (n : Int) := by
        have : 2 ^ 30 < n := by omega
        exact_mod_cast this
      rw [find_nearest_pot_value_large (n : Int) hv2]
      constructor
      · intro h
        omega
      · intro h
        exfalso
        have hc : 2 ^ Nat.clog 2 n = n := by exact_mod_cast h
        have hlt : 2 ^ Nat.clog 2 n < 2 ^ 31 := by
          have : (n : Int) < 2 ^ 31 := by omega
          have hn : n < 2 ^ 31 := by exact_mod_cast this
          omega
        have hgt : 2 ^ 30 < 2 ^ Nat.clog 2 n := by omega
        have a1 := (Nat.pow_lt_pow_iff_right (a := 2) (by decide)).1 hlt
        have a2 := (Nat.pow_lt_pow_iff_right (a := 2) (by decide)).1 hgt
        omega
  simp only [Int.toNat_ofNat]
  exact ⟨hmain.trans hpow.symm, hmain⟩

/-- Claim C3 at `v = 8`, and the evaluations: `5` is not a power of two, `8`
is. -/
theorem is_pot_value_iff_witness :
    ((is_pot_value 8 = true ↔ ∃ k : Nat, (8 : Int) = 2 ^ k) ∧
      (is_pot_value 8 = true ↔ (2 : Int) ^ Nat.clog 2 (8 : Int).toNat = 8)) ∧
    is_pot_value 5 = false ∧ is_pot_value 8 = true :=
  ⟨is_pot_value_iff 8 (by decide) (by decide), by decide, by decide⟩

/-! ### Writing loops -/

theorem DstCursor.put_offset (c : DstCursor) (v : Rgba8) : (c.put v).offset = c.offset + 1 := rfl

theorem DstCursor.put_length (c : DstCursor) (v : Rgba8) :
    (c.put v).buffer.length = c.buffer.length := by
  simp [DstCursor.put]

theorem DstCursor.put_getElem? (c : DstCursor) (v : Rgba8) (i : Nat) :
    (c.put v).buffer[i]? =
      if i = c.offset ∧ i < c.buffer.length then some v else c.buffer[i]? := by
  simp only [DstCursor.put, List.getElem?_set]
  by_cases h1 : c.offset = i
  · subst h1
    by_cases h2 : c.offset < c.buffer.length
    · simp [h2]
    · simp [h2]
      omega
  · have h3 : ¬ i = c.offset := fun h => h1 h.symm
    simp [h1, h3]

theorem DstCursor.put_reset_eq (c : DstCursor) : c.put_reset = c.put ⟨0, 0, 0, 0⟩ := rfl

/-- A loop that writes `f 0, f 1, ..., f (n - 1)` through the cursor. -/
theorem for_loop_put_spec (f : Nat → Rgba8) (c0 : DstCursor) (n : Nat) :
    (for_loop n (fun i (c : DstCursor) => c.put (f i)) c0).offset = c0.offset + n ∧
    (for_loop n (fun i (c : DstCursor) => c.put (f i)) c0).buffer.length = c0.buffer.length ∧
    ∀ i : Nat, (for_loop n (fun i (c : DstCursor) => c.put (f i)) c0).buffer[i]? =
      if c0.offset ≤ i ∧ i < c0.offset + n ∧ i < c0.buffer.length
      then some (f (i - c0.offset)) else c0.buffer[i]? := by
  induction n with
  | zero =>
    refine ⟨rfl, rfl, fun i => ?_⟩
    have : ¬ (c0.offset ≤ i ∧ i < c0.offset + 0 ∧ i < c0.buffer.length) := by omega
    simp only [for_loop]
    rw [if_neg this]
  | succ n ih =>
    obtain ⟨h1, h2, h3⟩ := ih
    simp only [for_loop]
    refine ⟨?_, ?_, fun i => ?_⟩
    · rw [DstCursor.put_offset, h1]; omega
    · rw [DstCursor.put_length, h2]
    · rw [DstCursor.put_getElem?, h1, h2, h3 i]
      by_cases hi : i = c0.offset + n ∧ i < c0.buffer.length
      · rw [if_pos hi, if_pos (by omega)]
        congr 2
        omega
      · rw [if_neg hi]
        by_cases hj : c0.offset ≤ i ∧ i < c0.offset + n ∧ i < c0.buffer.length
        · rw [if_pos hj, if_pos (by omega)]
        · rw [if_neg hj, if_neg (by omega)]

/-- A loop that carries its own state next to the cursor writes the values
computed from the successive states. -/
theorem for_loop_aux_put {α : Type} (g : Nat → α → α) (v : Nat → α → Rgba8) (a0 : α)
    (c0 : DstCursor) (n : Nat) :
    for_loop n (fun i (st : α × DstCursor) => (g i st.1, st.2.put (v i st.1))) (a0, c0) =
      (for_loop n g a0,
        for_loop n (fun i (c : DstCursor) => c.put (v i (for_loop i g a0))) c0) := by
  induction n with
  | zero => rfl
  | succ n ih => simp only [for_loop, ih]

theorem for_loop_add_step (step s0 : Int) (n : Nat) :
    for_loop n (fun _ (s : Int) => s + step) s0 = s0 + n * step := by
  induction n with
  | zero => simp [for_loop]
  | succ n ih =>
    simp only [for_loop, ih]
    push_cast
    ring

/-- Rows of `w` writes each: the value `f y x` lands at offset `y * w + x`. -/
theorem for_loop_rows_spec (f : Nat → Nat → Rgba8) (w : Nat) (c0 : DstCursor) (h : Nat) :
    (for_loop h (fun y (c : DstCursor) =>
        for_loop w (fun x (c : DstCursor) => c.put (f y x)) c) c0).offset
      = c0.offset + h * w ∧
    (for_loop h (fun y (c : DstCursor) =>
        for_loop w (fun x (c : DstCursor) => c.put (f y x)) c) c0).buffer.length
      = c0.buffer.length ∧
    (∀ y x : Nat, y < h → x < w → c0.offset + y * w + x < c0.buffer.length →
      (for_loop h (fun y (c : DstCursor) =>
        for_loop w (fun x (c : DstCursor) => c.put (f y x)) c) c0).buffer[c0.offset + y * w + x]?
        = some (f y x)) ∧
    (∀ i : Nat, i < c0.offset ∨ c0.offset + h * w ≤ i →
      (for_loop h (fun y (c : DstCursor) =>
        for_loop w (fun x (c : DstCursor) => c.put (f y x)) c) c0).buffer[i]?
        = c0.buffer[i]?) := by
  induction h with
  | zero =>
    refine ⟨by simp [for_loop], rfl, ?_, fun i _ => rfl⟩
    intro y x hy
    omega
  | succ h ih =>
    obtain ⟨h1, h2, h3, h4⟩ := ih
    simp only [for_loop]
    obtain ⟨k1, k2, k3⟩ := for_loop_put_spec (f h)
      (for_loop h (fun y (c : DstCursor) =>
        for_loop w (fun x (c : DstCursor) => c.put (f y x)) c) c0) w
    have hsucc : (h + 1) * w = h * w + w := Nat.succ_mul h w
    refine ⟨?_, ?_, ?_, ?_⟩
    · rw [k1, h1, hsucc]; omega
    · rw [k2, h2]
    · intro y x hy hx hlen
      rw [k3, h1, h2]
      by_cases hyh : y = h
      · subst hyh
        rw [if_pos (by omega)]
        congr 2
        omega
      · have hlt : y < h := by omega
        have hmul : (y + 1) * w ≤ h * w := Nat.mul_le_mul_right w hlt
        have hsucc2 : (y + 1) * w = y * w + w := Nat.succ_mul y w
        rw [if_neg (by omega)]
        exact h3 y x hlt hx hlen
    · intro i hi
      rw [k3, h1, h2]
      rw [if_neg (by omega)]
      exact h4 i (by omega)

theorem for_loop_aux_put_of {α : Type} (body : Nat → α × DstCursor → α × DstCursor)
    (g : Nat → α → α) (v : Nat → α → Rgba8)
    (hbody : ∀ i st, body i st = (g i st.1, st.2.put (v i st.1)))
    (a0 : α) (c0 : DstCursor) (n : Nat) :
    for_loop n body (a0, c0) =
      (for_loop n g a0,
        for_loop n (fun i (c : DstCursor) => c.put (v i (for_loop i g a0))) c0) := by
  have hfun : body = fun i st => (g i st.1, st.2.put (v i st.1)) := by
    funext i st
    exact hbody i st
  rw [hfun]
  exact for_loop_aux_put g v a0 c0 n

/-- The buffer after `n` writes from offset zero. -/
theorem for_loop_put_buffer_spec (f : Nat → Rgba8) (buffer : Rgba8Buffer) (n : Nat)
    (hn : n ≤ buffer.length) :
    (for_loop n (fun i (c : DstCursor) => c.put (f i)) ⟨0, buffer⟩).buffer.length
      = buffer.length ∧
    (∀ i : Nat, i < n →
      (for_loop n (fun i (c : DstCursor) => c.put (f i)) ⟨0, buffer⟩).buffer[i]?
        = some (f i)) ∧
    (∀ i : Nat, n ≤ i →
      (for_loop n (fun i (c : DstCursor) => c.put (f i)) ⟨0, buffer⟩).buffer[i]?
        = buffer[i]?) := by
  obtain ⟨_, k2, k3⟩ := for_loop_put_spec f ⟨0, buffer⟩ n
  dsimp only at k2 k3
  refine ⟨k2, fun i hi => ?_, fun i hi => ?_⟩
  · rw [k3 i, if_pos ⟨Nat.zero_le _, by omega, by omega⟩]
    simp
  · rw [k3 i, if_neg (by omega)]

/-- The buffer after `h` rows of `w` writes from offset zero. -/
theorem for_loop_rows_buffer_spec (body : Nat → DstCursor → DstCursor)
    (f : Nat → Nat → Rgba8) (w : Nat)
    (hbody : ∀ y c, body y c = for_loop w (fun x (c : DstCursor) => c.put (f y x)) c)
    (buffer : Rgba8Buffer) (h : Nat) (hlen : h * w ≤ buffer.length) :
    (for_loop h body ⟨0, buffer⟩).buffer.length = buffer.length ∧
    (∀ y x : Nat, y < h → x < w →
      (for_loop h body ⟨0, buffer⟩).buffer[y * w + x]? = some (f y x)) ∧
    (∀ i : Nat, h * w ≤ i → (for_loop h body ⟨0, buffer⟩).buffer[i]? = buffer[i]?) := by
  have hfun : body = fun y c => for_loop w (fun x (c : DstCursor) => c.put (f y x)) c := by
    funext y c
    exact hbody y c
  rw [hfun]
  obtain ⟨_, k2, k3, k4⟩ := for_loop_rows_spec f w ⟨0, buffer⟩ h
  dsimp only at k2 k3 k4
  refine ⟨k2, fun y x hy hx => ?_, fun i hi => ?_⟩
  · have hmul : (y + 1) * w ≤ h * w := Nat.mul_le_mul_right w hy
    have hsucc : (y + 1) * w = y * w + w := Nat.succ_mul y w
    have := k3 y x hy hx (by omega)
    simpa using this
  · exact k4 i (Or.inr (by omega))

/-! ### Indexed to RGBA -/

/-- An `int` computation whose exact result is in the range of an `int` gives
this result. -/
theorem wrap_int32_eq (x : Int) (h0 : -2 ^ 31 ≤ x) (h1 : x ≤ 2 ^ 31 - 1) : wrap_int32 x = x := by
  unfold wrap_int32
  rw [Int.emod_eq_of_lt (by omega) (by omega)]
  omega

/-- A non-negative `int` keeps its value as a `std::size_t`. -/
theorem to_size_t_eq (x : Int) (h0 : 0 ≤ x) (h1 : x ≤ 2 ^ 31 - 1) : (to_size_t x : Int) = x := by
  unfold to_size_t
  rw [Int.emod_eq_of_lt h0 (by omega), Int.toNat_of_nonneg h0]

/-- The size check against a pixel count that is in the range of an `int`. -/
theorem size_check_iff (n : Nat) (x : Int) (h0 : 0 ≤ x) (h1 : x ≤ 2 ^ 31 - 1) :
    n < to_size_t (wrap_int32 x) ↔ (n : Int) < x := by
  rw [wrap_int32_eq x (by omega) h1]
  have h := to_size_t_eq x h0 h1
  omega

/-- The pixel count of a bitmap with positive dimensions is positive. -/
theorem one_le_mul_dims (a b : Int) (ha : 1 ≤ a) (hb : 1 ≤ b) : 1 ≤ a * b := by
  have h := mul_le_mul ha hb (by norm_num) (by omega : (0 : Int) ≤ a)
  omega

/-- The running `src_index += step` while the sums stay in the range of an
`int`. -/
theorem for_loop_wrap_add_step (step s0 : Int) (hstep : 0 ≤ step) (h0 : -2 ^ 31 ≤ s0) (n : Nat)
    (h1 : s0 + n * step ≤ 2 ^ 31 - 1) :
    for_loop n (fun _ (s : Int) => wrap_int32 (s + step)) s0 = s0 + n * step := by
  induction n with
  | zero => simp [for_loop]
  | succ n ih =>
    have hmul : (0 : Int) ≤ n * step := mul_nonneg (Int.natCast_nonneg n) hstep
    have hsucc : ((n + 1 : Nat) : Int) * step = n * step + step := by
      push_cast
      ring
    rw [hsucc] at h1 ⊢
    simp only [for_loop]
    rw [ih (by omega), wrap_int32_eq _ (by omega) (by omega)]
    ring

/-- Two loops whose bodies agree below the bound compute the same. -/
theorem for_loop_congr {σ : Type} (f g : Nat → σ → σ) (n : Nat)
    (h : ∀ i, i < n → ∀ s, f i s = g i s) (s : σ) :
    for_loop n f s = for_loop n g s := by
  induction n with
  | zero => rfl
  | succ n ih =>
    simp only [for_loop]
    rw [ih (fun i hi => h i (by omega)), h n (by omega)]

/-- With valid dimensions, a pixel count in the range of an `int`, a non-null
source and a large enough buffer, `indexed_to_rgba_8` throws nothing and runs
the loop selected by the layout and by the presence of alphas. -/
theorem indexed_to_rgba_8_ok (param : IndexedToRgba8Param) (buffer : Rgba8Buffer)
    (hw : 1 ≤ param.width_) (hh : 1 ≤ param.height_)
    (hsize : param.width_ * param.height_ ≤ 2 ^ 31 - 1)
    (hsrc : param.indexed_pixels_.isSome = true)
    (hlen : param.width_ * param.height_ ≤ (buffer.length : Int)) :
    indexed_to_rgba_8 param buffer =
      (Except.ok (),
        if param.indexed_is_column_major_ = false then
          if param.indexed_alphas_.isSome = false then indexed_to_rgba_8_rm_na param buffer
          else indexed_to_rgba_8_rm_ha param buffer
        else
          if param.indexed_alphas_.isSome = false then indexed_to_rgba_8_cm_na param buffer
          else indexed_to_rgba_8_cm_ha param buffer) := by
  have hnone : param.indexed_pixels_.isNone = false := by
    cases hp : param.indexed_pixels_ with
    | none => rw [hp] at hsrc; cases hsrc
    | some m => rfl
  have hpos := one_le_mul_dims param.width_ param.height_ hw hh
  have hcheck : ¬ buffer.length < to_size_t (wrap_int32 (param.width_ * param.height_)) := by
    rw [size_check_iff _ _ (by omega) hsize]
    omega
  unfold indexed_to_rgba_8
  rw [if_neg (by omega), if_neg (by omega), hnone, if_neg (by simp), if_neg hcheck]
  cases param.indexed_is_column_major_ <;> cases param.indexed_alphas_.isSome <;> rfl

/-- When the size check passes with an `area` of zero, the row-major loops do
not run: the call returns and the buffer is as it was. -/
theorem indexed_to_rgba_8_area_zero (param : IndexedToRgba8Param) (buffer : Rgba8Buffer)
    (hw : 1 ≤ param.width_) (hh : 1 ≤ param.height_)
    (hsrc : param.indexed_pixels_.isSome = true)
    (hrm : param.indexed_is_column_major_ = false)
    (harea : wrap_int32 (param.width_ * param.height_) = 0) :
    indexed_to_rgba_8 param buffer = (Except.ok (), buffer) := by
  have hnone : param.indexed_pixels_.isNone = false := by
    cases hp : param.indexed_pixels_ with
    | none => rw [hp] at hsrc; cases hsrc
    | some m => rfl
  have hcheck : ¬ buffer.length < to_size_t (wrap_int32 (param.width_ * param.height_)) := by
    rw [harea]
    exact Nat.not_lt_zero _
  have hna : indexed_to_rgba_8_rm_na param buffer = buffer := by
    unfold indexed_to_rgba_8_rm_na
    dsimp only
    rw [harea]
    rfl
  have hha : indexed_to_rgba_8_rm_ha param buffer = buffer := by
    unfold indexed_to_rgba_8_rm_ha
    dsimp only
    rw [harea]
    rfl
  unfold indexed_to_rgba_8
  rw [if_neg (by omega), if_neg (by omega), hnone, if_neg (by simp), if_neg hcheck, hrm, hna,
    hha]
  cases param.indexed_alphas_.isSome <;> rfl

/-- When the size check fails, the call throws and the buffer is as it
was. -/
theorem indexed_to_rgba_8_too_small (param : IndexedToRgba8Param) (buffer : Rgba8Buffer)
    (hw : 1 ≤ param.width_) (hh : 1 ≤ param.height_)
    (hsrc : param.indexed_pixels_.isSome = true)
    (hcheck : buffer.length < to_size_t (wrap_int32 (param.width_ * param.height_))) :
    indexed_to_rgba_8 param buffer =
      throw_in "indexed_to_rgba_8" "Bitmap buffer too small." buffer := by
  have hnone : param.indexed_pixels_.isNone = false := by
    cases hp : param.indexed_pixels_ with
    | none => rw [hp] at hsrc; cases hsrc
    | some m => rfl
  unfold indexed_to_rgba_8
  rw [if_neg (by omega), if_neg (by omega), hnone, if_neg (by simp), if_pos hcheck]

theorem sample_buffer_of_length (n : Nat) : (sample_buffer_of n).length = n := by
  unfold sample_buffer_of
  exact List.length_replicate n _

theorem sample_buffer_of_getElem? (n i : Nat) (h : i < n) :
    (sample_buffer_of n)[i]? = some ⟨9, 9, 9, 9⟩ := by
  unfold sample_buffer_of
  rw [List.getElem?_replicate, if_pos h]

theorem indexed_to_rgba_8_rm_na_eq (param : IndexedToRgba8Param) (buffer : Rgba8Buffer)
    (src : Int → uint8_t) (hw : 1 ≤ param.width_) (hh : 1 ≤ param.height_)
    (hsize : param.width_ * param.height_ ≤ 2 ^ 31 - 1)
    (hsrc : param.indexed_pixels_ = some src) :
    indexed_to_rgba_8_rm_na param buffer =
      (for_loop (param.width_ * param.height_).toNat
        (fun i (c : DstCursor) => c.put (param.indexed_palette_ (src (i : Int))))
        ⟨0, buffer⟩).buffer := by
  have hpos := one_le_mul_dims param.width_ param.height_ hw hh
  unfold indexed_to_rgba_8_rm_na
  dsimp only
  rw [wrap_int32_eq _ (by omega) hsize,
    for_loop_aux_put_of _ (fun _ (s : Int) => s + 1)
      (fun _ (s : Int) => param.indexed_palette_ (src s)) ?_]
  · dsimp only
    congr 2
    funext i c
    rw [for_loop_add_step]
    simp
  · intro i st
    rw [hsrc]
    rfl

theorem indexed_to_rgba_8_rm_ha_eq (param : IndexedToRgba8Param) (buffer : Rgba8Buffer)
    (src : Int → uint8_t) (alphas : Int → Bool)
    (hw : 1 ≤ param.width_) (hh : 1 ≤ param.height_)
    (hsize : param.width_ * param.height_ ≤ 2 ^ 31 - 1)
    (hsrc : param.indexed_pixels_ = some src) (halpha : param.indexed_alphas_ = some alphas) :
    indexed_to_rgba_8_rm_ha param buffer =
      (for_loop (param.width_ * param.height_).toNat
        (fun i (c : DstCursor) =>
          c.put (if alphas (i : Int) then param.indexed_palette_ (src (i : Int))
            else ⟨0, 0, 0, 0⟩))
        ⟨0, buffer⟩).buffer := by
  have hpos := one_le_mul_dims param.width_ param.height_ hw hh
  unfold indexed_to_rgba_8_rm_ha
  dsimp only
  rw [wrap_int32_eq _ (by omega) hsize,
    for_loop_aux_put_of _ (fun _ (s : Int) => s + 1)
      (fun i (s : Int) => if alphas (i : Int) then param.indexed_palette_ (src s)
        else ⟨0, 0, 0, 0⟩) ?_]
  · dsimp only
    congr 2
    funext i c
    rw [for_loop_add_step]
    simp
  · intro i st
    rw [hsrc, halpha]
    simp only [ptr_read]
    split <;> rfl

/-- Conversions between the `int` coordinates of a bitmap and offsets. -/
theorem bitmap_coordinates (width height : Int) (hw : 1 ≤ width) (hh : 1 ≤ height)
    (x y : Nat) (hx : (x : Int) < width) (hy : (y : Int) < height) :
    x < width.toNat ∧ y < height.toNat ∧
    ((y : Int) * width + x).toNat = y * width.toNat + x ∧
    ((x : Int) * height + y).toNat = x * height.toNat + y ∧
    ((x : Int) * height + y) < width * height ∧
    ((y : Int) * width + x) < width * height ∧
    (width * height).toNat = height.toNat * width.toNat := by
  obtain ⟨W, rfl⟩ := Int.eq_ofNat_of_zero_le (show 0 ≤ width by omega)
  obtain ⟨H, rfl⟩ := Int.eq_ofNat_of_zero_le (show 0 ≤ height by omega)
  have hxW : x < W := by exact_mod_cast hx
  have hyH : y < H := by exact_mod_cast hy
  have h1 : (x + 1) * H ≤ W * H := Nat.mul_le_mul_right H hxW
  have h2 : (y + 1) * W ≤ H * W := Nat.mul_le_mul_right W hyH
  have h3 : (x + 1) * H = x * H + H := Nat.succ_mul x H
  have h4 : (y + 1) * W = y * W + W := Nat.succ_mul y W
  have h5 : H * W = W * H := Nat.mul_comm H W
  refine ⟨by simpa using hxW, by simpa using hyH, ?_, ?_, ?_, ?_, ?_⟩
  · have : ((y : Int) * (W : Int) + (x : Int)) = ((y * W + x : Nat) : Int) := by push_cast; ring
    rw [this, Int.toNat_natCast, Int.toNat_natCast]
  · have : ((x : Int) * (H : Int) + (y : Int)) = ((x * H + y : Nat) : Int) := by push_cast; ring
    rw [this, Int.toNat_natCast, Int.toNat_natCast]
  · have : x * H + y < W * H := by omega
    exact_mod_cast this
  · have : y * W + x < W * H := by omega
    exact_mod_cast this
  · have : ((W : Int) * (H : Int)) = ((H * W : Nat) : Int) := by push_cast; ring
    rw [this, Int.toNat_natCast, Int.toNat_natCast, Int.toNat_natCast]

/-- The running `src_index` of a column-major row at the column `x`. -/
theorem column_major_index (param : IndexedToRgba8Param)
    (hw : 1 ≤ param.width_) (hh : 1 ≤ param.height_)
    (hsize : param.width_ * param.height_ ≤ 2 ^ 31 - 1)
    (y x : Nat) (hy : y < param.height_.toNat) (hx : x < param.width_.toNat) :
    for_loop x (fun _ (s : Int) => wrap_int32 (s + param.height_)) (y : Int) =
      (y : Int) + (x : Int) * param.height_ := by
  have h := (bitmap_coordinates param.width_ param.height_ hw hh x y (by omega) (by omega)).2.2.2.2.1
  exact for_loop_wrap_add_step param.height_ (y : Int) (by omega) (by omega) x (by omega)

theorem indexed_to_rgba_8_cm_na_row_eq (param : IndexedToRgba8Param)
    (src : Int → uint8_t) (hw : 1 ≤ param.width_) (hh : 1 ≤ param.height_)
    (hsize : param.width_ * param.height_ ≤ 2 ^ 31 - 1)
    (hsrc : param.indexed_pixels_ = some src)
    (y : Nat) (hy : y < param.height_.toNat) (c : DstCursor) :
    indexed_to_rgba_8_cm_na_row param y c =
      for_loop param.width_.toNat
        (fun x (c : DstCursor) =>
          c.put (param.indexed_palette_ (src ((y : Int) + (x : Int) * param.height_)))) c := by
  unfold indexed_to_rgba_8_cm_na_row
  rw [for_loop_aux_put_of _ (fun _ (s : Int) => wrap_int32 (s + param.height_))
    (fun _ (s : Int) => param.indexed_palette_ (src s)) ?_]
  · dsimp only
    exact for_loop_congr _ _ _ (fun x hx c => by
      rw [column_major_index param hw hh hsize y x hy hx]) c
  · intro i st
    rw [hsrc]
    rfl

theorem indexed_to_rgba_8_cm_ha_row_eq (param : IndexedToRgba8Param)
    (src : Int → uint8_t) (alphas : Int → Bool)
    (hw : 1 ≤ param.width_) (hh : 1 ≤ param.height_)
    (hsize : param.width_ * param.height_ ≤ 2 ^ 31 - 1)
    (hsrc : param.indexed_pixels_ = some src) (halpha : param.indexed_alphas_ = some alphas)
    (y : Nat) (hy : y < param.height_.toNat) (c : DstCursor) :
    indexed_to_rgba_8_cm_ha_row param y c =
      for_loop param.width_.toNat
        (fun x (c : DstCursor) =>
          c.put (if alphas ((y : Int) + (x : Int) * param.height_)
            then param.indexed_palette_ (src ((y : Int) + (x : Int) * param.height_))
            else ⟨0, 0, 0, 0⟩)) c := by
  unfold indexed_to_rgba_8_cm_ha_row
  rw [for_loop_aux_put_of _ (fun _ (s : Int) => wrap_int32 (s + param.height_))
    (fun _ (s : Int) => if alphas s then param.indexed_palette_ (src s) else ⟨0, 0, 0, 0⟩) ?_]
  · dsimp only
    exact for_loop_congr _ _ _ (fun x hx c => by
      rw [column_major_index param hw hh hsize y x hy hx]) c
  · intro i st
    rw [hsrc, halpha]
    simp only [ptr_read]
    split <;> rfl

/-- The buffer after `h` rows of `w` writes from offset zero, for a row
function that is known on the rows below `h`. -/
theorem for_loop_rows_buffer_spec_lt (body : Nat → DstCursor → DstCursor)
    (f : Nat → Nat → Rgba8) (w h : Nat)
    (hbody : ∀ y, y < h → ∀ c, body y c = for_loop w (fun x (c : DstCursor) => c.put (f y x)) c)
    (buffer : Rgba8Buffer) (hlen : h * w ≤ buffer.length) :
    (for_loop h body ⟨0, buffer⟩).buffer.length = buffer.length ∧
    (∀ y x : Nat, y < h → x < w →
      (for_loop h body ⟨0, buffer⟩).buffer[y * w + x]? = some (f y x)) ∧
    (∀ i : Nat, h * w ≤ i → (for_loop h body ⟨0, buffer⟩).buffer[i]? = buffer[i]?) := by
  rw [for_loop_congr body
    (fun y c => for_loop w (fun x (c : DstCursor) => c.put (f y x)) c) h hbody]
  exact for_loop_rows_buffer_spec _ f w (fun _ _ => rfl) buffer h hlen

/-- Claim C4, as amended. For a pixel count `width * height` in the range of an
`int`, row major without alphas: `indexed_to_rgba_8` succeeds and sets entry
`i` of the destination to `palette[indexed_pixels[i]]` for every
`i < width * height`, in scan order, leaving the rest of the buffer as it
was. -/
theorem indexed_to_rgba_8_row_major (param : IndexedToRgba8Param) (buffer : Rgba8Buffer)
    (src : Int → uint8_t)
    (hw : 1 ≤ param.width_) (hh : 1 ≤ param.height_)
    (hsize : param.width_ * param.height_ ≤ 2 ^ 31 - 1)
    (hrm : param.indexed_is_column_major_ = false)
    (hna : param.indexed_alphas_ = none)
    (hsrc : param.indexed_pixels_ = some src)
    (hlen : param.width_ * param.height_ ≤ (buffer.length : Int)) :
    (indexed_to_rgba_8 param buffer).1 = Except.ok () ∧
    (indexed_to_rgba_8 param buffer).2.length = buffer.length ∧
    (∀ i : Nat, (i : Int) < param.width_ * param.height_ →
      (indexed_to_rgba_8 param buffer).2[i]? = some (param.indexed_palette_ (src i))) ∧
    (∀ i : Nat, param.width_ * param.height_ ≤ (i : Int) →
      (indexed_to_rgba_8 param buffer).2[i]? = buffer[i]?) := by
  rw [indexed_to_rgba_8_ok param buffer hw hh hsize (by rw [hsrc]; rfl) hlen, if_pos hrm,
    if_pos (by rw [hna]; rfl), indexed_to_rgba_8_rm_na_eq param buffer src hw hh hsize hsrc]
  obtain ⟨k1, k2, k3⟩ := for_loop_put_buffer_spec
    (fun i => param.indexed_palette_ (src (i : Int))) buffer
    (param.width_ * param.height_).toNat (by omega)
  refine ⟨rfl, k1, fun i hi => ?_, fun i hi => ?_⟩
  · exact k2 i (Int.lt_toNat.2 hi)
  · exact k3 i (by omega)

/-- Claim C4 on the 2x2 bitmap with palette `[red, green, blue, white]` and
pixels `0, 1, 2, 3`: the destination becomes `[red, green, blue, white]`. -/
theorem indexed_to_rgba_8_row_major_witness :
    ((indexed_to_rgba_8 (sample_param false none) sample_buffer).1 = Except.ok () ∧
      (indexed_to_rgba_8 (sample_param false none) sample_buffer).2.length
        = sample_buffer.length ∧
      (∀ i : Nat, (i : Int) < (sample_param false none).width_ * (sample_param false none).height_ →
        (indexed_to_rgba_8 (sample_param false none) sample_buffer).2[i]?
          = some ((sample_param false none).indexed_palette_ (sample_pixels i))) ∧
      (∀ i : Nat, (sample_param false none).width_ * (sample_param false none).height_ ≤ (i : Int) →
        (indexed_to_rgba_8 (sample_param false none) sample_buffer).2[i]? = sample_buffer[i]?)) ∧
    (indexed_to_rgba_8 (sample_param false none) sample_buffer).2 = [red, green, blue, white] :=
  ⟨indexed_to_rgba_8_row_major (sample_param false none) sample_buffer sample_pixels
    (by decide) (by decide) (by decide) rfl rfl rfl (by decide), by decide⟩

/-- Claim C4 fails as stated on the row-major 65536x65536 bitmap without
alphas and a destination of `2^32` entries: the pixel count is `0` as an
`int`, the size check passes, `area` is `0` and no entry is written, so that
entry `0` is not `palette[indexed_pixels[0]]`. -/
theorem indexed_to_rgba_8_row_major_counterexample :
    (1 ≤ (sample_param_65536 false none).width_ ∧
      1 ≤ (sample_param_65536 false none).height_ ∧
      (sample_param_65536 false none).indexed_is_column_major_ = false ∧
      (sample_param_65536 false none).indexed_alphas_ = none ∧
      (sample_param_65536 false none).indexed_pixels_ = some sample_pixels ∧
      (sample_param_65536 false none).width_ * (sample_param_65536 false none).height_ ≤
        ((sample_buffer_of (2 ^ 32)).length : Int)) ∧
    indexed_to_rgba_8 (sample_param_65536 false none) (sample_buffer_of (2 ^ 32)) =
      (Except.ok (), sample_buffer_of (2 ^ 32)) ∧
    (indexed_to_rgba_8 (sample_param_65536 false none) (sample_buffer_of (2 ^ 32))).2[0]? ≠
      some ((sample_param_65536 false none).indexed_palette_ (sample_pixels 0)) := by
  have h := indexed_to_rgba_8_area_zero (sample_param_65536 false none)
    (sample_buffer_of (2 ^ 32)) (by decide) (by decide) rfl rfl (by decide)
  refine ⟨⟨by decide, by decide, rfl, rfl, rfl, ?_⟩, h, ?_⟩
  · rw [sample_buffer_of_length]
    decide
  · rw [h]
    show (sample_buffer_of (2 ^ 32))[0]? ≠ _
    rw [sample_buffer_of_getElem? _ 0 (by norm_num)]
    decide

/-- Column major without alphas, in natural-number coordinates. -/
theorem indexed_to_rgba_8_cm_na_spec (param : IndexedToRgba8Param) (buffer : Rgba8Buffer)
    (src : Int → uint8_t) (hw : 1 ≤ param.width_) (hh : 1 ≤ param.height_)
    (hsize : param.width_ * param.height_ ≤ 2 ^ 31 - 1)
    (hsrc : param.indexed_pixels_ = some src)
    (hlen : param.height_.toNat * param.width_.toNat ≤ buffer.length) :
    (indexed_to_rgba_8_cm_na param buffer).length = buffer.length ∧
    (∀ y x : Nat, y < param.height_.toNat → x < param.width_.toNat →
      (indexed_to_rgba_8_cm_na param buffer)[y * param.width_.toNat + x]? =
        some (param.indexed_palette_ (src ((y : Int) + (x : Int) * param.height_)))) ∧
    (∀ i : Nat, param.height_.toNat * param.width_.toNat ≤ i →
      (indexed_to_rgba_8_cm_na param buffer)[i]? = buffer[i]?) :=
  for_loop_rows_buffer_spec_lt (indexed_to_rgba_8_cm_na_row param)
    (fun y x => param.indexed_palette_ (src ((y : Int) + (x : Int) * param.height_)))
    param.width_.toNat param.height_.toNat
    (fun y hy c => indexed_to_rgba_8_cm_na_row_eq param src hw hh hsize hsrc y hy c) buffer hlen

/-- Column major with alphas, in natural-number coordinates. -/
theorem indexed_to_rgba_8_cm_ha_spec (param : IndexedToRgba8Param) (buffer : Rgba8Buffer)
    (src : Int → uint8_t) (alphas : Int → Bool)
    (hw : 1 ≤ param.width_) (hh : 1 ≤ param.height_)
    (hsize : param.width_ * param.height_ ≤ 2 ^ 31 - 1)
    (hsrc : param.indexed_pixels_ = some src) (halpha : param.indexed_alphas_ = some alphas)
    (hlen : param.height_.toNat * param.width_.toNat ≤ buffer.length) :
    (indexed_to_rgba_8_cm_ha param buffer).length = buffer.length ∧
    (∀ y x : Nat, y < param.height_.toNat → x < param.width_.toNat →
      (indexed_to_rgba_8_cm_ha param buffer)[y * param.width_.toNat + x]? =
        some (if alphas ((y : Int) + (x : Int) * param.height_)
          then param.indexed_palette_ (src ((y : Int) + (x : Int) * param.height_))
          else ⟨0, 0, 0, 0⟩)) ∧
    (∀ i : Nat, param.height_.toNat * param.width_.toNat ≤ i →
      (indexed_to_rgba_8_cm_ha param buffer)[i]? = buffer[i]?) :=
  for_loop_rows_buffer_spec_lt (indexed_to_rgba_8_cm_ha_row param)
    (fun y x => if alphas ((y : Int) + (x : Int) * param.height_)
      then param.indexed_palette_ (src ((y : Int) + (x : Int) * param.height_))
      else ⟨0, 0, 0, 0⟩)
    param.width_.toNat param.height_.toNat
    (fun y hy c =>
      indexed_to_rgba_8_cm_ha_row_eq param src alphas hw hh hsize hsrc halpha y hy c)
    buffer hlen

/-- Claim C5, as amended. For a pixel count `width * height` in the range of an
`int`, column major without alphas: `indexed_to_rgba_8` succeeds and sets
entry `y * width + x` of the destination to
`palette[indexed_pixels[x * height + y]]`; this is the entry `x * height + y`
of what the row-major path writes from the same source. -/
theorem indexed_to_rgba_8_column_major (param : IndexedToRgba8Param) (buffer : Rgba8Buffer)
    (src : Int → uint8_t)
    (hw : 1 ≤ param.width_) (hh : 1 ≤ param.height_)
    (hsize : param.width_ * param.height_ ≤ 2 ^ 31 - 1)
    (hcm : param.indexed_is_column_major_ = true)
    (hna : param.indexed_alphas_ = none)
    (hsrc : param.indexed_pixels_ = some src)
    (hlen : param.width_ * param.height_ ≤ (buffer.length : Int)) :
    (indexed_to_rgba_8 param buffer).1 = Except.ok () ∧
    (indexed_to_rgba_8 param buffer).2.length = buffer.length ∧
    (∀ x y : Nat, (x : Int) < param.width_ → (y : Int) < param.height_ →
      (indexed_to_rgba_8 param buffer).2[((y : Int) * param.width_ + x).toNat]? =
        some (param.indexed_palette_ (src ((x : Int) * param.height_ + y)))) ∧
    (∀ x y : Nat, (x : Int) < param.width_ → (y : Int) < param.height_ →
      (indexed_to_rgba_8 param buffer).2[((y : Int) * param.width_ + x).toNat]? =
        (indexed_to_rgba_8 { param with indexed_is_column_major_ := false }
          buffer).2[((x : Int) * param.height_ + y).toNat]?) := by
  have hlenN : param.height_.toNat * param.width_.toNat ≤ buffer.length := by
    have := (bitmap_coordinates param.width_ param.height_ hw hh 0 0 (by omega) (by omega)).2.2.2.2.2.2
    omega
  obtain ⟨k1, k2, _⟩ := indexed_to_rgba_8_cm_na_spec param buffer src hw hh hsize hsrc hlenN
  have hcell : ∀ x y : Nat, (x : Int) < param.width_ → (y : Int) < param.height_ →
      (indexed_to_rgba_8_cm_na param buffer)[((y : Int) * param.width_ + x).toNat]? =
        some (param.indexed_palette_ (src ((x : Int) * param.height_ + y))) := by
    intro x y hx hy
    obtain ⟨c1, c2, c3, _⟩ := bitmap_coordinates param.width_ param.height_ hw hh x y hx hy
    rw [c3, k2 y x c2 c1, add_comm]
  rw [indexed_to_rgba_8_ok param buffer hw hh hsize (by rw [hsrc]; rfl) hlen,
    if_neg (by rw [hcm]; decide), if_pos (by rw [hna]; rfl)]
  refine ⟨rfl, k1, hcell, fun x y hx hy => ?_⟩
  obtain ⟨_, _, _, c4, c5, _⟩ := bitmap_coordinates param.width_ param.height_ hw hh x y hx hy
  rw [indexed_to_rgba_8_ok { param with indexed_is_column_major_ := false } buffer hw hh hsize
    (by rw [hsrc]; rfl) hlen]
  dsimp only
  rw [if_pos rfl, if_pos (by rw [hna]; rfl),
    indexed_to_rgba_8_rm_na_eq { param with indexed_is_column_major_ := false } buffer src
      hw hh hsize hsrc]
  obtain ⟨_, r2, _⟩ := for_loop_put_buffer_spec
    (fun i => param.indexed_palette_ (src (i : Int))) buffer
    (param.width_ * param.height_).toNat (by omega)
  dsimp only
  have hnn : 0 ≤ (x : Int) * param.height_ + y :=
    add_nonneg (mul_nonneg (Int.natCast_nonneg x) (by omega)) (Int.natCast_nonneg y)
  have hidx : ((x : Int) * param.height_ + y).toNat < (param.width_ * param.height_).toNat := by
    omega
  rw [hcell x y hx hy, r2 _ hidx, Int.toNat_of_nonneg hnn]

/-- Claim C5 on the 2x2 bitmap with pixels `0, 1, 2, 3`: the destination
becomes `palette[0], palette[2], palette[1], palette[3]`. -/
theorem indexed_to_rgba_8_column_major_witness :
    ((indexed_to_rgba_8 (sample_param true none) sample_buffer).1 = Except.ok () ∧
      (indexed_to_rgba_8 (sample_param true none) sample_buffer).2.length
        = sample_buffer.length ∧
      (∀ x y : Nat, (x : Int) < (sample_param true none).width_ →
        (y : Int) < (sample_param true none).height_ →
        (indexed_to_rgba_8 (sample_param true none) sample_buffer).2[
            ((y : Int) * (sample_param true none).width_ + x).toNat]? =
          some ((sample_param true none).indexed_palette_
            (sample_pixels ((x : Int) * (sample_param true none).height_ + y)))) ∧
      (∀ x y : Nat, (x : Int) < (sample_param true none).width_ →
        (y : Int) < (sample_param true none).height_ →
        (indexed_to_rgba_8 (sample_param true none) sample_buffer).2[
            ((y : Int) * (sample_param true none).width_ + x).toNat]? =
          (indexed_to_rgba_8 { sample_param true none with indexed_is_column_major_ := false }
            sample_buffer).2[((x : Int) * (sample_param true none).height_ + y).toNat]?)) ∧
    (indexed_to_rgba_8 (sample_param true none) sample_buffer).2 =
      [sample_palette 0, sample_palette 2, sample_palette 1, sample_palette 3] :=
  ⟨indexed_to_rgba_8_column_major (sample_param true none) sample_buffer sample_pixels
    (by decide) (by decide) (by decide) rfl rfl rfl (by decide), by decide⟩

/-- Claim C5 fails as stated on the column-major 46341x46341 bitmap without
alphas and a destination of `46341 * 46341 = 2147488281` entries: the pixel
count is `-2147479015` as an `int`, a size above every vector as a
`std::size_t`, so the call throws and writes nothing: entry `0` is not
`palette[indexed_pixels[0]]`. -/
theorem indexed_to_rgba_8_column_major_counterexample :
    (1 ≤ sample_param_46341.width_ ∧ 1 ≤ sample_param_46341.height_ ∧
      sample_param_46341.indexed_is_column_major_ = true ∧
      sample_param_46341.indexed_alphas_ = none ∧
      sample_param_46341.indexed_pixels_ = some sample_pixels ∧
      sample_param_46341.width_ * sample_param_46341.height_ ≤
        ((sample_buffer_of 2147488281).length : Int)) ∧
    indexed_to_rgba_8 sample_param_46341 (sample_buffer_of 2147488281) =
      (Except.error ["indexed_to_rgba_8", "Bitmap buffer too small."],
        sample_buffer_of 2147488281) ∧
    (indexed_to_rgba_8 sample_param_46341 (sample_buffer_of 2147488281)).2[0]? ≠
      some (sample_param_46341.indexed_palette_
        (sample_pixels ((0 : Nat) * sample_param_46341.height_ + (0 : Nat)))) := by
  have h := indexed_to_rgba_8_too_small sample_param_46341 (sample_buffer_of 2147488281)
    (by decide) (by decide) rfl (by rw [sample_buffer_of_length]; decide)
  refine ⟨⟨by decide, by decide, rfl, rfl, rfl, ?_⟩, h, ?_⟩
  · rw [sample_buffer_of_length]
    decide
  · rw [h]
    show (sample_buffer_of 2147488281)[0]? ≠ _
    rw [sample_buffer_of_getElem? _ 0 (by norm_num)]
    decide

/-- Claim C6, as amended. For a pixel count `width * height` in the range of an
`int`, with an alpha array, row major or column major, a destination pixel
whose source alpha flag is false becomes fully transparent,
`r = g = b = a = 0`, whatever the palette and the previous content of the
buffer, and a destination pixel whose source alpha flag is true becomes the
palette entry of its source index. -/
theorem indexed_to_rgba_8_alpha (param : IndexedToRgba8Param) (buffer : Rgba8Buffer)
    (src : Int → uint8_t) (alphas : Int → Bool)
    (hw : 1 ≤ param.width_) (hh : 1 ≤ param.height_)
    (hsize : param.width_ * param.height_ ≤ 2 ^ 31 - 1)
    (hsrc : param.indexed_pixels_ = some src)
    (halpha : param.indexed_alphas_ = some alphas)
    (hlen : param.width_ * param.height_ ≤ (buffer.length : Int)) :
    (indexed_to_rgba_8 param buffer).1 = Except.ok () ∧
    (param.indexed_is_column_major_ = false →
      ∀ i : Nat, (i : Int) < param.width_ * param.height_ →
        (alphas i = false →
          (indexed_to_rgba_8 param buffer).2[i]? = some ⟨0, 0, 0, 0⟩) ∧
        (alphas i = true →
          (indexed_to_rgba_8 param buffer).2[i]? = some (param.indexed_palette_ (src i)))) ∧
    (param.indexed_is_column_major_ = true →
      ∀ x y : Nat, (x : Int) < param.width_ → (y : Int) < param.height_ →
        (alphas ((x : Int) * param.height_ + y) = false →
          (indexed_to_rgba_8 param buffer).2[((y : Int) * param.width_ + x).toNat]? =
            some ⟨0, 0, 0, 0⟩) ∧
        (alphas ((x : Int) * param.height_ + y) = true →
          (indexed_to_rgba_8 param buffer).2[((y : Int) * param.width_ + x).toNat]? =
            some (param.indexed_palette_ (src ((x : Int) * param.height_ + y))))) := by
  have hok := indexed_to_rgba_8_ok param buffer hw hh hsize (by rw [hsrc]; rfl) hlen
  have hsome : ¬ (param.indexed_alphas_.isSome = false) := by rw [halpha]; simp
  refine ⟨by rw [hok], fun hrm i hi => ?_, fun hcm x y hx hy => ?_⟩
  · rw [hok, if_pos hrm, if_neg hsome,
      indexed_to_rgba_8_rm_ha_eq param buffer src alphas hw hh hsize hsrc halpha]
    obtain ⟨_, r2, _⟩ := for_loop_put_buffer_spec
      (fun i => if alphas (i : Int) then param.indexed_palette_ (src (i : Int))
        else ⟨0, 0, 0, 0⟩) buffer (param.width_ * param.height_).toNat (by omega)
    dsimp only
    rw [r2 i (Int.lt_toNat.2 hi)]
    constructor
    · intro ha
      rw [ha]
      rfl
    · intro ha
      rw [ha]
      rfl
  · have hlenN : param.height_.toNat * param.width_.toNat ≤ buffer.length := by
      have :=
        (bitmap_coordinates param.width_ param.height_ hw hh 0 0 (by omega) (by omega)).2.2.2.2.2.2
      omega
    obtain ⟨_, k2, _⟩ :=
      indexed_to_rgba_8_cm_ha_spec param buffer src alphas hw hh hsize hsrc halpha hlenN
    obtain ⟨c1, c2, c3, _⟩ := bitmap_coordinates param.width_ param.height_ hw hh x y hx hy
    rw [hok, if_neg (by rw [hcm]; decide), if_neg hsome]
    dsimp only
    rw [c3, k2 y x c2 c1, add_comm (y : Int)]
    constructor
    · intro ha
      rw [ha]
      rfl
    · intro ha
      rw [ha]
      rfl

/-- Claim C6 on the 2x2 row-major bitmap with alpha flags
`true, false, true, false`: the destination becomes
`[palette[0], transparent, palette[2], transparent]`. -/
theorem indexed_to_rgba_8_alpha_witness :
    ((indexed_to_rgba_8 (sample_param false (some sample_alphas)) sample_buffer).1
        = Except.ok ()) ∧
    (indexed_to_rgba_8 (sample_param false (some sample_alphas)) sample_buffer).2 =
      [red, ⟨0, 0, 0, 0⟩, blue, ⟨0, 0, 0, 0⟩] ∧
    (indexed_to_rgba_8 (sample_param true (some sample_alphas)) sample_buffer).2 =
      [red, blue, ⟨0, 0, 0, 0⟩, ⟨0, 0, 0, 0⟩] :=
  ⟨(indexed_to_rgba_8_alpha (sample_param false (some sample_alphas)) sample_buffer
    sample_pixels sample_alphas (by decide) (by decide) (by decide) rfl rfl (by decide)).1,
    by decide, by decide⟩

/-- Claim C6 fails as stated on the row-major 65536x65536 bitmap with the
alpha flags `true, false, ...` and a destination of `2^32` entries: the pixel
count is `0` as an `int`, the size check passes, the call returns and no entry
is written, so that entry `1`, whose alpha flag is false, is not
transparent. -/
theorem indexed_to_rgba_8_alpha_counterexample :
    (1 ≤ (sample_param_65536 false (some sample_alphas)).width_ ∧
      1 ≤ (sample_param_65536 false (some sample_alphas)).height_ ∧
      (sample_param_65536 false (some sample_alphas)).indexed_pixels_ = some sample_pixels ∧
      (sample_param_65536 false (some sample_alphas)).indexed_alphas_ = some sample_alphas ∧
      (sample_param_65536 false (some sample_alphas)).width_ *
          (sample_param_65536 false (some sample_alphas)).height_ ≤
        ((sample_buffer_of (2 ^ 32)).length : Int)) ∧
    (sample_param_65536 false (some sample_alphas)).indexed_is_column_major_ = false ∧
    sample_alphas ((1 : Nat) : Int) = false ∧
    indexed_to_rgba_8 (sample_param_65536 false (some sample_alphas))
        (sample_buffer_of (2 ^ 32)) =
      (Except.ok (), sample_buffer_of (2 ^ 32)) ∧
    (indexed_to_rgba_8 (sample_param_65536 false (some sample_alphas))
        (sample_buffer_of (2 ^ 32))).2[1]? ≠ some ⟨0, 0, 0, 0⟩ := by
  have h := indexed_to_rgba_8_area_zero (sample_param_65536 false (some sample_alphas))
    (sample_buffer_of (2 ^ 32)) (by decide) (by decide) rfl rfl (by decide)
  refine ⟨⟨by decide, by decide, rfl, rfl, ?_⟩, rfl, by decide, h, ?_⟩
  · rw [sample_buffer_of_length]
    decide
  · rw [h]
    show (sample_buffer_of (2 ^ 32))[1]? ≠ _
    rw [sample_buffer_of_getElem? _ 1 (by norm_num)]
    decide

/-! ### Mipmaps -/

theorem for_loop_aux_of {α γ : Type} (body : Nat → α × γ → α × γ)
    (g : Nat → α → α) (k : Nat → α → γ → γ)
    (hbody : ∀ i st, body i st = (g i st.1, k i st.1 st.2))
    (a0 : α) (c0 : γ) (n : Nat) :
    for_loop n body (a0, c0) =
      (for_loop n g a0, for_loop n (fun i c => k i (for_loop i g a0) c) c0) := by
  have hfun : body = fun i st => (g i st.1, k i st.1 st.2) := by
    funext i st
    exact hbody i st
  rw [hfun]
  induction n with
  | zero => rfl
  | succ n ih => simp only [for_loop, ih]

theorem MemCursor.mem_put_offset (c : MemCursor) (v : Rgba8) :
    (c.put v).offset = c.offset + 1 := rfl

theorem MemCursor.mem_put_read (c : MemCursor) (v : Rgba8) (j : Int) :
    (c.put v).mem j = if j = c.offset then v else c.mem j := rfl

/-- A loop that writes `f 0, ..., f (n - 1)` through a cursor into raw memory. -/
theorem for_loop_mem_put_spec (f : Nat → Rgba8) (c0 : MemCursor) (n : Nat) :
    (for_loop n (fun i (c : MemCursor) => c.put (f i)) c0).offset = c0.offset + n ∧
    (∀ i : Nat, i < n →
      (for_loop n (fun i (c : MemCursor) => c.put (f i)) c0).mem (c0.offset + i) = f i) ∧
    (∀ j : Int, j < c0.offset ∨ c0.offset + n ≤ j →
      (for_loop n (fun i (c : MemCursor) => c.put (f i)) c0).mem j = c0.mem j) := by
  induction n with
  | zero =>
    refine ⟨by simp [for_loop], fun i hi => by omega, fun j _ => rfl⟩
  | succ n ih =>
    obtain ⟨h1, h2, h3⟩ := ih
    simp only [for_loop]
    refine ⟨?_, fun i hi => ?_, fun j hj => ?_⟩
    · rw [MemCursor.mem_put_offset, h1]
      push_cast
      ring
    · rw [MemCursor.mem_put_read, h1]
      by_cases hin : i = n
      · subst hin
        rw [if_pos rfl]
      · rw [if_neg (by omega)]
        exact h2 i (by omega)
    · rw [MemCursor.mem_put_read, h1, if_neg (by omega)]
      exact h3 j (by omega)

/-- Rows of `w` writes each into raw memory. -/
theorem for_loop_mem_rows_spec (f : Nat → Nat → Rgba8) (w : Nat) (c0 : MemCursor) (h : Nat) :
    (for_loop h (fun y (c : MemCursor) =>
        for_loop w (fun x (c : MemCursor) => c.put (f y x)) c) c0).offset
      = c0.offset + h * w ∧
    (∀ y x : Nat, y < h → x < w →
      (for_loop h (fun y (c : MemCursor) =>
        for_loop w (fun x (c : MemCursor) => c.put (f y x)) c) c0).mem
          (c0.offset + y * w + x) = f y x) ∧
    (∀ j : Int, j < c0.offset ∨ c0.offset + h * w ≤ j →
      (for_loop h (fun y (c : MemCursor) =>
        for_loop w (fun x (c : MemCursor) => c.put (f y x)) c) c0).mem j = c0.mem j) := by
  induction h with
  | zero =>
    refine ⟨by simp [for_loop], fun y x hy => by omega, fun j _ => rfl⟩
  | succ h ih =>
    obtain ⟨h1, h2, h3⟩ := ih
    simp only [for_loop]
    obtain ⟨k1, k2, k3⟩ := for_loop_mem_put_spec (f h)
      (for_loop h (fun y (c : MemCursor) =>
        for_loop w (fun x (c : MemCursor) => c.put (f y x)) c) c0) w
    have hsucc : ((h + 1 : Nat) : Int) * (w : Int) = (h : Int) * w + w := by
      push_cast
      ring
    refine ⟨?_, fun y x hy hx => ?_, fun j hj => ?_⟩
    · rw [k1, h1, hsucc]
      ring
    · by_cases hyh : y = h
      · subst hyh
        have := k2 x hx
        rw [h1] at this
        exact this
      · have hlt : y < h := by omega
        have hmul : ((y : Int) + 1) * (w : Int) ≤ (h : Int) * w :=
          mul_le_mul_of_nonneg_right (by omega) (Int.natCast_nonneg w)
        have hexp : ((y : Int) + 1) * (w : Int) = (y : Int) * w + w := by ring
        rw [k3 _ (Or.inl (by rw [h1]; omega))]
        exact h2 y x hlt hx
    · have hnn : (0 : Int) ≤ (h : Int) * w :=
        mul_nonneg (Int.natCast_nonneg h) (Int.natCast_nonneg w)
      rw [k3 j (by rw [h1]; omega)]
      exact h3 j (by omega)

theorem for_loop_add_step_pair (step : Int) (s0 : Int × Int) (n : Nat) :
    for_loop n (fun _ (s : Int × Int) => (s.1 + step, s.2 + step)) s0 =
      (s0.1 + n * step, s0.2 + n * step) := by
  induction n with
  | zero => simp [for_loop]
  | succ n ih =>
    simp only [for_loop, ih]
    push_cast
    congr 1 <;> ring

/-- What `build_mipmap_1` writes: texel `i` is the average of the source
texels `2 i` and `2 i + 1`. -/
theorem build_mipmap_1_spec (previous_dimension : Int) (src dst : Int → Rgba8) :
    (∀ i : Nat, i < (Int.tdiv previous_dimension 2).toNat →
      build_mipmap_1 previous_dimension src dst i =
        average_pa_2 (src (2 * (i : Int))) (src (2 * (i : Int) + 1))) ∧
    (∀ j : Int, j < 0 ∨ ((Int.tdiv previous_dimension 2).toNat : Int) ≤ j →
      build_mipmap_1 previous_dimension src dst j = dst j) := by
  unfold build_mipmap_1
  rw [for_loop_aux_of _ (fun _ (s : Int) => s + 2)
    (fun _ (s : Int) (c : MemCursor) => c.put (average_pa_2 (src s) (src (s + 1)))) ?_]
  · dsimp only
    obtain ⟨_, k2, k3⟩ := for_loop_mem_put_spec
      (fun i => average_pa_2 (src (for_loop i (fun _ (s : Int) => s + 2) 0))
        (src (for_loop i (fun _ (s : Int) => s + 2) 0 + 1)))
      ⟨0, dst⟩ (Int.tdiv previous_dimension 2).toNat
    dsimp only at k2 k3
    refine ⟨fun i hi => ?_, fun j hj => ?_⟩
    · have := k2 i hi
      rw [zero_add, for_loop_add_step, zero_add, mul_comm] at this
      exact this
    · exact k3 j (by omega)
  · intro i st
    rfl

/-- One row of `build_mipmap`: both source offsets advance by
`2 * width + previous_width`, and the texel `x` of the row is the average of
the four source texels at `src_colors_0 + 2 x` and `src_colors_1 + 2 x`. -/
theorem build_mipmap_row_eq (previous_width : Int) (src : Int → Rgba8) (width : Int)
    (st : (Int × Int) × MemCursor) :
    build_mipmap_row previous_width src width st =
      ((st.1.1 + (2 * width.toNat + previous_width),
          st.1.2 + (2 * width.toNat + previous_width)),
        for_loop width.toNat
          (fun x (c : MemCursor) =>
            c.put (average_pa_4 (src (st.1.1 + 2 * x)) (src (st.1.1 + 2 * x + 1))
              (src (st.1.2 + 2 * x)) (src (st.1.2 + 2 * x + 1))))
          st.2) := by
  unfold build_mipmap_row
  obtain ⟨⟨a, b⟩, c⟩ := st
  dsimp only
  rw [for_loop_aux_of _ (fun _ (s : Int × Int) => (s.1 + 2, s.2 + 2))
    (fun _ (s : Int × Int) (c : MemCursor) =>
      c.put (average_pa_4 (src s.1) (src (s.1 + 1)) (src s.2) (src (s.2 + 1)))) ?_]
  · dsimp only
    rw [for_loop_add_step_pair]
    dsimp only
    refine Prod.ext (Prod.ext ?_ ?_) ?_
    · dsimp only
      ring
    · dsimp only
      ring
    · dsimp only
      congr 1
      funext x c
      rw [for_loop_add_step_pair]
      dsimp only
      rw [mul_comm (x : Int) 2]
  · intro i st
    rfl

/-- What the main loop of `build_mipmap` does, for any `previous_width ≥ 2`
and `previous_height ≥ 2`.  With `W = previous_width / 2`, texel `y * W + x`
is the average of the source texels at offsets `s`, `s + 1`,
`s + previous_width`, `s + previous_width + 1`, where
`s = y * (2 W + previous_width) + 2 x`. -/
theorem build_mipmap_main_spec (previous_width previous_height : Int)
    (hw : 2 ≤ previous_width) (hh : 2 ≤ previous_height) (src dst : Int → Rgba8) :
    (build_mipmap previous_width previous_height (some src) (some dst)).1 = Except.ok () ∧
    (∀ y x : Nat, y < (Int.tdiv previous_height 2).toNat →
      x < (Int.tdiv previous_width 2).toNat →
      mem_at (build_mipmap previous_width previous_height (some src) (some dst)).2
          ((y : Int) * ((Int.tdiv previous_width 2).toNat : Int) + x) =
        some (average_pa_4
          (src ((y : Int) * (2 * ((Int.tdiv previous_width 2).toNat : Int) + previous_width)
            + 2 * x))
          (src ((y : Int) * (2 * ((Int.tdiv previous_width 2).toNat : Int) + previous_width)
            + 2 * x + 1))
          (src (previous_width
            + (y : Int) * (2 * ((Int.tdiv previous_width 2).toNat : Int) + previous_width)
            + 2 * x))
          (src (previous_width
            + (y : Int) * (2 * ((Int.tdiv previous_width 2).toNat : Int) + previous_width)
            + 2 * x + 1)))) ∧
    (∀ j : Int, j < 0 ∨
        (((Int.tdiv previous_height 2).toNat * (Int.tdiv previous_width 2).toNat : Nat) : Int)
          ≤ j →
      mem_at (build_mipmap previous_width previous_height (some src) (some dst)).2 j
        = some (dst j)) := by
  have hloop := for_loop_aux_of
    (fun (_ : Nat) (st : (Int × Int) × MemCursor) =>
      build_mipmap_row previous_width src (Int.tdiv previous_width 2) st)
    (fun _ (s : Int × Int) =>
      (s.1 + (2 * ((Int.tdiv previous_width 2).toNat : Int) + previous_width),
        s.2 + (2 * ((Int.tdiv previous_width 2).toNat : Int) + previous_width)))
    (fun _ (s : Int × Int) (c : MemCursor) =>
      for_loop (Int.tdiv previous_width 2).toNat
        (fun x (c : MemCursor) =>
          c.put (average_pa_4 (src (s.1 + 2 * x)) (src (s.1 + 2 * x + 1))
            (src (s.2 + 2 * x)) (src (s.2 + 2 * x + 1))))
        c)
    (fun _ st => build_mipmap_row_eq previous_width src (Int.tdiv previous_width 2) st)
    (0, previous_width) ⟨0, dst⟩ (Int.tdiv previous_height 2).toNat
  obtain ⟨_, k2, k3⟩ := for_loop_mem_rows_spec
    (fun y x =>
      average_pa_4
        (src ((y : Int) * (2 * ((Int.tdiv previous_width 2).toNat : Int) + previous_width)
          + 2 * x))
        (src ((y : Int) * (2 * ((Int.tdiv previous_width 2).toNat : Int) + previous_width)
          + 2 * x + 1))
        (src (previous_width
          + (y : Int) * (2 * ((Int.tdiv previous_width 2).toNat : Int) + previous_width)
          + 2 * x))
        (src (previous_width
          + (y : Int) * (2 * ((Int.tdiv previous_width 2).toNat : Int) + previous_width)
          + 2 * x + 1)))
    (Int.tdiv previous_width 2).toNat ⟨0, dst⟩ (Int.tdiv previous_height 2).toNat
  have hbody : (fun (i : Nat) (c : MemCursor) =>
      for_loop (Int.tdiv previous_width 2).toNat
        (fun x (c : MemCursor) =>
          c.put (average_pa_4
            (src ((for_loop i (fun _ (s : Int × Int) =>
              (s.1 + (2 * ((Int.tdiv previous_width 2).toNat : Int) + previous_width),
                s.2 + (2 * ((Int.tdiv previous_width 2).toNat : Int) + previous_width)))
              (0, previous_width)).1 + 2 * x))
            (src ((for_loop i (fun _ (s : Int × Int) =>
              (s.1 + (2 * ((Int.tdiv previous_width 2).toNat : Int) + previous_width),
                s.2 + (2 * ((Int.tdiv previous_width 2).toNat : Int) + previous_width)))
              (0, previous_width)).1 + 2 * x + 1))
            (src ((for_loop i (fun _ (s : Int × Int) =>
              (s.1 + (2 * ((Int.tdiv previous_width 2).toNat : Int) + previous_width),
                s.2 + (2 * ((Int.tdiv previous_width 2).toNat : Int) + previous_width)))
              (0, previous_width)).2 + 2 * x))
            (src ((for_loop i (fun _ (s : Int × Int) =>
              (s.1 + (2 * ((Int.tdiv previous_width 2).toNat : Int) + previous_width),
                s.2 + (2 * ((Int.tdiv previous_width 2).toNat : Int) + previous_width)))
              (0, previous_width)).2 + 2 * x + 1))))
        c) =
      (fun (y : Nat) (c : MemCursor) =>
        for_loop (Int.tdiv previous_width 2).toNat
          (fun x (c : MemCursor) =>
            c.put (average_pa_4
              (src ((y : Int) * (2 * ((Int.tdiv previous_width 2).toNat : Int) + previous_width)
                + 2 * x))
              (src ((y : Int) * (2 * ((Int.tdiv previous_width 2).toNat : Int) + previous_width)
                + 2 * x + 1))
              (src (previous_width
                + (y : Int) * (2 * ((Int.tdiv previous_width 2).toNat : Int) + previous_width)
                + 2 * x))
              (src (previous_width
                + (y : Int) * (2 * ((Int.tdiv previous_width 2).toNat : Int) + previous_width)
                + 2 * x + 1))))
          c) := by
    funext i c
    rw [for_loop_add_step_pair]
    dsimp only
    rw [zero_add]
  dsimp only at hloop k2 k3
  rw [hbody] at hloop
  unfold build_mipmap
  rw [if_neg (by omega), if_neg (by omega), if_neg (by omega)]
  dsimp only
  rw [if_neg (by omega), if_neg (by omega), hloop]
  refine ⟨rfl, fun y x hy hx => ?_, fun j hj => ?_⟩
  · have := k2 y x hy hx
    rw [zero_add] at this
    simp only [mem_at, Option.map_some']
    rw [this]
  · simp only [mem_at, Option.map_some']
    rw [k3 j (by
      rcases hj with hj | hj
      · exact Or.inl hj
      · right
        push_cast at hj ⊢
        omega)]

/-- For an even `previous_width` the main loop of `build_mipmap` averages the
2x2 blocks: texel `(x, y)` comes from the source texels `(2x, 2y)`,
`(2x + 1, 2y)`, `(2x, 2y + 1)`, `(2x + 1, 2y + 1)`, and
`(previous_width / 2) * (previous_height / 2)` texels are written. -/
theorem build_mipmap_even_width (previous_width previous_height : Int)
    (hw : 2 ≤ previous_width) (hh : 2 ≤ previous_height) (heven : previous_width % 2 = 0)
    (src dst : Int → Rgba8) :
    (build_mipmap previous_width previous_height (some src) (some dst)).1 = Except.ok () ∧
    (∀ x y : Nat, (x : Int) < previous_width / 2 → (y : Int) < previous_height / 2 →
      mem_at (build_mipmap previous_width previous_height (some src) (some dst)).2
          ((y : Int) * (previous_width / 2) + x) =
        some (average_pa_4
          (src ((2 * (y : Int)) * previous_width + 2 * x))
          (src ((2 * (y : Int)) * previous_width + (2 * x + 1)))
          (src ((2 * (y : Int) + 1) * previous_width + 2 * x))
          (src ((2 * (y : Int) + 1) * previous_width + (2 * x + 1))))) ∧
    (∀ j : Int, j < 0 ∨ (previous_width / 2) * (previous_height / 2) ≤ j →
      mem_at (build_mipmap previous_width previous_height (some src) (some dst)).2 j
        = some (dst j)) := by
  obtain ⟨k1, k2, k3⟩ := build_mipmap_main_spec previous_width previous_height hw hh src dst
  have hW : Int.tdiv previous_width 2 = previous_width / 2 :=
    Int.tdiv_eq_ediv (by omega) (by omega)
  have hH : Int.tdiv previous_height 2 = previous_height / 2 :=
    Int.tdiv_eq_ediv (by omega) (by omega)
  have hWn : (((Int.tdiv previous_width 2).toNat : Nat) : Int) = previous_width / 2 := by
    rw [hW]
    exact Int.toNat_of_nonneg (by omega)
  have hHn : (((Int.tdiv previous_height 2).toNat : Nat) : Int) = previous_height / 2 := by
    rw [hH]
    exact Int.toNat_of_nonneg (by omega)
  have h2W : 2 * (previous_width / 2) = previous_width := by omega
  refine ⟨k1, fun x y hx hy => ?_, fun j hj => ?_⟩
  · have := k2 y x (by omega) (by omega)
    rw [hWn, h2W] at this
    rw [this]
    congr 2
    · congr 1; ring
    · congr 1; ring
    · congr 1; ring
    · congr 1; ring
  · apply k3 j
    rcases hj with hj | hj
    · exact Or.inl hj
    · right
      push_cast
      rw [hWn, hHn, mul_comm]
      exact hj

/-- Claim C7 at `previous_width = 3`, `previous_height = 4`, on the source
whose texel `i` has red `i`: the destination texel `(0, 1)`, at offset `1`, is
the average of the source texels at offsets `5, 6, 8, 9`, and not of the 2x2
block `(0, 2), (1, 2), (0, 3), (1, 3)` at offsets `6, 7, 9, 10`. -/
theorem build_mipmap_odd_width_block :
    (build_mipmap 3 4 (some sample_texels) (some sample_memory)).1 = Except.ok () ∧
    mem_at (build_mipmap 3 4 (some sample_texels) (some sample_memory)).2 1 =
      some (average_pa_4 (sample_texels 5) (sample_texels 6) (sample_texels 8)
        (sample_texels 9)) ∧
    mem_at (build_mipmap 3 4 (some sample_texels) (some sample_memory)).2 1 =
      some ⟨7, 0, 0, 255⟩ ∧
    average_pa_4 (sample_texels 6) (sample_texels 7) (sample_texels 9) (sample_texels 10) =
      ⟨8, 0, 0, 255⟩ := by
  refine ⟨rfl, ?_, ?_, ?_⟩ <;> decide

theorem average_pa_4_uniform (C : Rgba8) (hC : C.a_ = 255) : average_pa_4 C C C C = C := by
  obtain ⟨r, g, b, a⟩ := C
  simp only at hC
  subst hC
  have hr := r.isLt
  have hg := g.isLt
  have hb := b.isLt
  simp only [average_pa_4, to_uint8, Rgba8.mk.injEq]
  refine ⟨Fin.ext ?_, Fin.ext ?_, Fin.ext ?_, Fin.ext ?_⟩
  · show (r.val + r.val + r.val + r.val) * (255 + 255 + 255 + 255) / (255 * 4 * 4) % 256 = r.val
    omega
  · show (g.val + g.val + g.val + g.val) * (255 + 255 + 255 + 255) / (255 * 4 * 4) % 256 = g.val
    omega
  · show (b.val + b.val + b.val + b.val) * (255 + 255 + 255 + 255) / (255 * 4 * 4) % 256 = b.val
    omega
  · rfl

theorem average_pa_2_uniform (C : Rgba8) (hC : C.a_ = 255) : average_pa_2 C C = C := by
  obtain ⟨r, g, b, a⟩ := C
  simp only at hC
  subst hC
  have hr := r.isLt
  have hg := g.isLt
  have hb := b.isLt
  simp only [average_pa_2, to_uint8, Rgba8.mk.injEq]
  refine ⟨Fin.ext ?_, Fin.ext ?_, Fin.ext ?_, Fin.ext ?_⟩
  · show (r.val + r.val) * (255 + 255) / (255 * 2 * 2) % 256 = r.val
    omega
  · show (g.val + g.val) * (255 + 255) / (255 * 2 * 2) % 256 = g.val
    omega
  · show (b.val + b.val) * (255 + 255) / (255 * 2 * 2) % 256 = b.val
    omega
  · rfl

theorem build_mipmap_width_one (previous_height : Int) (hh : 2 ≤ previous_height)
    (src dst : Int → Rgba8) :
    build_mipmap 1 previous_height (some src) (some dst) =
      (Except.ok (), some (build_mipmap_1 previous_height src dst)) := by
  unfold build_mipmap
  rw [if_neg (by omega), if_neg (by omega), if_neg (by omega)]
  dsimp only
  rw [if_pos rfl]

theorem build_mipmap_height_one (previous_width : Int) (hw : 2 ≤ previous_width)
    (src dst : Int → Rgba8) :
    build_mipmap previous_width 1 (some src) (some dst) =
      (Except.ok (), some (build_mipmap_1 previous_width src dst)) := by
  unfold build_mipmap
  rw [if_neg (by omega), if_neg (by omega), if_neg (by omega)]
  dsimp only
  rw [if_neg (by omega), if_pos rfl]

/-- A uniform opaque row of `previous_dimension` texels is halved to a uniform
row of the same colour. -/
theorem build_mipmap_1_uniform (C : Rgba8) (hC : C.a_ = 255) (previous_dimension : Int)
    (hd : 1 ≤ previous_dimension) (src dst : Int → Rgba8)
    (hsrc : ∀ i : Int, 0 ≤ i → i < previous_dimension → src i = C) :
    (∀ j : Int, 0 ≤ j → j < previous_dimension / 2 →
      build_mipmap_1 previous_dimension src dst j = C) ∧
    (∀ j : Int, j < 0 ∨ previous_dimension / 2 ≤ j →
      build_mipmap_1 previous_dimension src dst j = dst j) := by
  obtain ⟨k1, k2⟩ := build_mipmap_1_spec previous_dimension src dst
  have hD : Int.tdiv previous_dimension 2 = previous_dimension / 2 :=
    Int.tdiv_eq_ediv (by omega) (by omega)
  rw [hD] at k1 k2
  refine ⟨fun j hj0 hj => ?_, fun j hj => ?_⟩
  · have := k1 j.toNat (by omega)
    rw [Int.toNat_of_nonneg hj0] at this
    rw [this, hsrc (2 * j) (by omega) (by omega), hsrc (2 * j + 1) (by omega) (by omega)]
    exact average_pa_2_uniform C hC
  · exact k2 j (by omega)

/-- Claim C8. On a previous level whose texels all are the opaque colour `C`
(`1 x N` and `N x 1` included), `build_mipmap` succeeds and every texel it
writes is `C`; the texels written are those at the offsets below
`previous_height / 2`, `previous_width / 2` or
`(previous_width / 2) * (previous_height / 2)`. -/
theorem build_mipmap_uniform (C : Rgba8) (hC : C.a_ = 255)
    (previous_width previous_height : Int)
    (hw : 1 ≤ previous_width) (hh : 1 ≤ previous_height)
    (hne : ¬ (previous_width = 1 ∧ previous_height = 1))
    (src dst : Int → Rgba8)
    (hsrc : ∀ i : Int, 0 ≤ i → i < previous_width * previous_height → src i = C) :
    (build_mipmap previous_width previous_height (some src) (some dst)).1 = Except.ok () ∧
    (∀ j : Int, 0 ≤ j →
      j < (if previous_width = 1 then previous_height / 2
        else if previous_height = 1 then previous_width / 2
        else (previous_width / 2) * (previous_height / 2)) →
      mem_at (build_mipmap previous_width previous_height (some src) (some dst)).2 j
        = some C) ∧
    (∀ j : Int, j < 0 ∨
      (if previous_width = 1 then previous_height / 2
        else if previous_height = 1 then previous_width / 2
        else (previous_width / 2) * (previous_height / 2)) ≤ j →
      mem_at (build_mipmap previous_width previous_height (some src) (some dst)).2 j
        = some (dst j)) := by
  by_cases hw1 : previous_width = 1
  · subst hw1
    have hh2 : 2 ≤ previous_height := by omega
    obtain ⟨u1, u2⟩ := build_mipmap_1_uniform C hC previous_height hh src dst
      (fun i h0 h1 => hsrc i h0 (by omega))
    rw [build_mipmap_width_one previous_height hh2 src dst, if_pos rfl]
    refine ⟨rfl, fun j h0 h1 => ?_, fun j hj => ?_⟩
    · simp only [mem_at, Option.map_some']
      rw [u1 j h0 h1]
    · simp only [mem_at, Option.map_some']
      rw [u2 j hj]
  · by_cases hh1 : previous_height = 1
    · subst hh1
      have hw2 : 2 ≤ previous_width := by omega
      obtain ⟨u1, u2⟩ := build_mipmap_1_uniform C hC previous_width hw src dst
        (fun i h0 h1 => hsrc i h0 (by omega))
      rw [build_mipmap_height_one previous_width hw2 src dst, if_neg hw1, if_pos rfl]
      refine ⟨rfl, fun j h0 h1 => ?_, fun j hj => ?_⟩
      · simp only [mem_at, Option.map_some']
        rw [u1 j h0 h1]
      · simp only [mem_at, Option.map_some']
        rw [u2 j hj]
    · have hw2 : 2 ≤ previous_width := by omega
      have hh2 : 2 ≤ previous_height := by omega
      obtain ⟨k1, k2, k3⟩ :=
        build_mipmap_main_spec previous_width previous_height hw2 hh2 src dst
      rw [if_neg hw1, if_neg hh1]
      have hW : Int.tdiv previous_width 2 = previous_width / 2 :=
        Int.tdiv_eq_ediv (by omega) (by omega)
      have hH : Int.tdiv previous_height 2 = previous_height / 2 :=
        Int.tdiv_eq_ediv (by omega) (by omega)
      obtain ⟨W, hWn⟩ := Int.eq_ofNat_of_zero_le (show 0 ≤ previous_width / 2 by omega)
      obtain ⟨H, hHn⟩ := Int.eq_ofNat_of_zero_le (show 0 ≤ previous_height / 2 by omega)
      rw [hW, hH, hWn, hHn] at k2 k3
      simp only [Int.toNat_natCast] at k2 k3
      rw [hWn, hHn]
      have h2W : 2 * (W : Int) ≤ previous_width := by omega
      have h2H : 2 * (H : Int) ≤ previous_height := by omega
      refine ⟨k1, fun j h0 h1 => ?_, fun j hj => ?_⟩
      · obtain ⟨n, rfl⟩ := Int.eq_ofNat_of_zero_le h0
        have hn : n < W * H := by exact_mod_cast h1
        have hWpos : 0 < W := by
          rcases Nat.eq_zero_or_pos W with h | h
          · subst h
            simp at hn
          · exact h
        have hy : n / W < H := Nat.div_lt_of_lt_mul hn
        have hx : n % W < W := Nat.mod_lt n hWpos
        have hsplit : ((n / W : Nat) : Int) * (W : Int) + ((n % W : Nat) : Int) = (n : Int) := by
          have := Nat.div_add_mod n W
          have hc : ((W * (n / W) + n % W : Nat) : Int) = (n : Int) := by rw [this]
          push_cast at hc ⊢
          linarith
        have hcell := k2 (n / W) (n % W) hy hx
        rw [hsplit] at hcell
        rw [hcell]
        have hyI : ((n / W : Nat) : Int) + 1 ≤ (H : Int) := by exact_mod_cast hy
        have hxI : ((n % W : Nat) : Int) + 1 ≤ (W : Int) := by exact_mod_cast hx
        have hy0 : (0 : Int) ≤ ((n / W : Nat) : Int) := Int.natCast_nonneg _
        have hx0 : (0 : Int) ≤ ((n % W : Nat) : Int) := Int.natCast_nonneg _
        have hW0 : (0 : Int) ≤ (W : Int) := Int.natCast_nonneg _
        have hs0 : (0 : Int) ≤
            ((n / W : Nat) : Int) * (2 * (W : Int) + previous_width) :=
          mul_nonneg hy0 (by omega)
        have hs1 : ((n / W : Nat) : Int) * (2 * (W : Int) + previous_width)
            ≤ ((H : Int) - 1) * (2 * previous_width) :=
          mul_le_mul (by omega) (by omega) (by omega) (by omega)
        have hs2 : (2 * (H : Int)) * previous_width ≤ previous_height * previous_width :=
          mul_le_mul_of_nonneg_right h2H (by omega)
        have hs3 : ((H : Int) - 1) * (2 * previous_width)
            = (2 * (H : Int)) * previous_width - 2 * previous_width := by ring
        have hs4 : previous_height * previous_width = previous_width * previous_height :=
          mul_comm _ _
        rw [hsrc _ (by omega) (by omega), hsrc _ (by omega) (by omega),
          hsrc _ (by omega) (by omega), hsrc _ (by omega) (by omega),
          average_pa_4_uniform C hC]
      · apply k3 j
        rcases hj with hj | hj
        · exact Or.inl hj
        · right
          push_cast
          rw [mul_comm]
          exact hj

/-- Claim C8 on a 2x2 uniform opaque input: the 1x1 output is the colour. -/
theorem build_mipmap_uniform_witness :
    ((build_mipmap 2 2 (some (fun _ => red)) (some sample_memory)).1 = Except.ok () ∧
      (∀ j : Int, 0 ≤ j →
        j < (if (2 : Int) = 1 then (2 : Int) / 2
          else if (2 : Int) = 1 then (2 : Int) / 2
          else ((2 : Int) / 2) * ((2 : Int) / 2)) →
        mem_at (build_mipmap 2 2 (some (fun _ => red)) (some sample_memory)).2 j
          = some red) ∧
      (∀ j : Int, j < 0 ∨
        (if (2 : Int) = 1 then (2 : Int) / 2
          else if (2 : Int) = 1 then (2 : Int) / 2
          else ((2 : Int) / 2) * ((2 : Int) / 2)) ≤ j →
        mem_at (build_mipmap 2 2 (some (fun _ => red)) (some sample_memory)).2 j
          = some (sample_memory j))) ∧
    mem_at (build_mipmap 2 2 (some (fun _ => red)) (some sample_memory)).2 0 = some red ∧
    mem_at (build_mipmap 2 2 (some (fun _ => red)) (some sample_memory)).2 1
      = some (sample_memory 1) :=
  ⟨build_mipmap_uniform red rfl 2 2 (by decide) (by decide) (by decide)
    (fun _ => red) sample_memory (fun _ _ _ => rfl), by decide, by decide⟩

/-- Claim C9. With non-null pointers `build_mipmap` fails exactly when
`previous_width ≤ 0`, `previous_height ≤ 0` or both are `1`, and when it fails
the destination is as it was. -/
theorem build_mipmap_fails_iff (previous_width previous_height : Int)
    (src dst : Int → Rgba8) :
    ((∃ e, (build_mipmap previous_width previous_height (some src) (some dst)).1
        = Except.error e) ↔
      (previous_width ≤ 0 ∨ previous_height ≤ 0 ∨
        (previous_width = 1 ∧ previous_height = 1))) ∧
    ((∃ e, (build_mipmap previous_width previous_height (some src) (some dst)).1
        = Except.error e) →
      (build_mipmap previous_width previous_height (some src) (some dst)).2 = some dst) := by
  by_cases h1 : previous_width ≤ 0
  · have hb : build_mipmap previous_width previous_height (some src) (some dst) =
        throw_in "build_mipmap" "Previous width out of range." (some dst) := by
      unfold build_mipmap
      rw [if_pos h1]
    rw [hb]
    exact ⟨⟨fun _ => Or.inl h1, fun _ => ⟨_, rfl⟩⟩, fun _ => rfl⟩
  · by_cases h2 : previous_height ≤ 0
    · have hb : build_mipmap previous_width previous_height (some src) (some dst) =
          throw_in "build_mipmap" "Previous height out of range." (some dst) := by
        unfold build_mipmap
        rw [if_neg h1, if_pos h2]
      rw [hb]
      exact ⟨⟨fun _ => Or.inr (Or.inl h2), fun _ => ⟨_, rfl⟩⟩, fun _ => rfl⟩
    · by_cases h3 : previous_width = 1 ∧ previous_height = 1
      · have hb : build_mipmap previous_width previous_height (some src) (some dst) =
            throw_in "build_mipmap" "No more mipmap to build." (some dst) := by
          unfold build_mipmap
          rw [if_neg h1, if_neg h2, if_pos h3]
        rw [hb]
        exact ⟨⟨fun _ => Or.inr (Or.inr h3), fun _ => ⟨_, rfl⟩⟩, fun _ => rfl⟩
      · have hok : (build_mipmap previous_width previous_height (some src) (some dst)).1
            = Except.ok () := by
          unfold build_mipmap
          rw [if_neg h1, if_neg h2, if_neg h3]
          dsimp only
          split_ifs <;> rfl
        have hno : ¬ ∃ e, (build_mipmap previous_width previous_height (some src)
            (some dst)).1 = Except.error e := by
          rintro ⟨e, he⟩
          rw [hok] at he
          cases he
        refine ⟨⟨fun h => absurd h hno, fun h => ?_⟩, fun h => absurd h hno⟩
        rcases h with h | h | h
        · exact absurd h h1
        · exact absurd h h2
        · exact absurd h h3

/-- Claim C9 at `1 x 1`: the call fails and the destination is untouched. -/
theorem build_mipmap_fails_iff_witness :
    (∃ e, (build_mipmap 1 1 (some sample_texels) (some sample_memory)).1 = Except.error e) ∧
    (build_mipmap 1 1 (some sample_texels) (some sample_memory)).2 = some sample_memory :=
  ⟨(build_mipmap_fails_iff 1 1 sample_texels sample_memory).1.2 (Or.inr (Or.inr ⟨rfl, rfl⟩)),
    (build_mipmap_fails_iff 1 1 sample_texels sample_memory).2
      ((build_mipmap_fails_iff 1 1 sample_texels sample_memory).1.2
        (Or.inr (Or.inr ⟨rfl, rfl⟩)))⟩

/-! ### Failure of the power-of-two conversion -/

theorem isNone_iff_eq_none {α : Type} (o : Option α) : o.isNone = true ↔ o = none := by
  cases o <;> simp

theorem indexed_to_rgba_8_error (param : IndexedToRgba8Param) (buffer : Rgba8Buffer)
    (h : param.width_ ≤ 0 ∨ param.height_ ≤ 0 ∨ param.indexed_pixels_ = none ∨
      buffer.length < to_size_t (wrap_int32 (param.width_ * param.height_))) :
    ∃ e, indexed_to_rgba_8 param buffer = (Except.error e, buffer) := by
  unfold indexed_to_rgba_8
  by_cases h1 : param.width_ ≤ 0
  · rw [if_pos h1]; exact ⟨_, rfl⟩
  · rw [if_neg h1]
    by_cases h2 : param.height_ ≤ 0
    · rw [if_pos h2]; exact ⟨_, rfl⟩
    · rw [if_neg h2]
      by_cases h3 : param.indexed_pixels_.isNone = true
      · rw [if_pos h3]; exact ⟨_, rfl⟩
      · rw [if_neg h3]
        by_cases h4 : buffer.length < to_size_t (wrap_int32 (param.width_ * param.height_))
        · rw [if_pos h4]; exact ⟨_, rfl⟩
        · exfalso
          rcases h with h | h | h | h
          · exact h1 h
          · exact h2 h
          · exact h3 ((isNone_iff_eq_none _).2 h)
          · exact h4 h

theorem indexed_npot_to_rgba_8_pot_error (param : IndexedToRgba8Param) (buffer : Rgba8Buffer)
    (h : param.width_ ≤ 0 ∨ param.height_ ≤ 0 ∨ param.actual_width_ ≤ 0 ∨
      param.actual_height_ ≤ 0 ∨ param.indexed_pixels_ = none ∨
      buffer.length < to_size_t (wrap_int32 (param.actual_width_ * param.actual_height_))) :
    ∃ e, indexed_npot_to_rgba_8_pot param buffer = (Except.error e, buffer) := by
  unfold indexed_npot_to_rgba_8_pot
  by_cases h1 : param.width_ ≤ 0
  · rw [if_pos h1]; exact ⟨_, rfl⟩
  · rw [if_neg h1]
    by_cases h2 : param.height_ ≤ 0
    · rw [if_pos h2]; exact ⟨_, rfl⟩
    · rw [if_neg h2]
      by_cases h3 : param.actual_width_ ≤ 0
      · rw [if_pos h3]; exact ⟨_, rfl⟩
      · rw [if_neg h3]
        by_cases h4 : param.actual_height_ ≤ 0
        · rw [if_pos h4]; exact ⟨_, rfl⟩
        · rw [if_neg h4]
          by_cases h5 : param.indexed_pixels_.isNone = true
          · rw [if_pos h5]; exact ⟨_, rfl⟩
          · rw [if_neg h5]
            by_cases h6 : buffer.length <
                to_size_t (wrap_int32 (param.actual_width_ * param.actual_height_))
            · rw [if_pos h6]; exact ⟨_, rfl⟩
            · exfalso
              rcases h with h | h | h | h | h | h
              · exact h1 h
              · exact h2 h
              · exact h3 h
              · exact h4 h
              · exact h5 ((isNone_iff_eq_none _).2 h)
              · exact h6 h

theorem indexed_npot_to_rgba_8_pot_ok (param : IndexedToRgba8Param) (buffer : Rgba8Buffer)
    (h1 : ¬ param.width_ ≤ 0) (h2 : ¬ param.height_ ≤ 0) (h3 : ¬ param.actual_width_ ≤ 0)
    (h4 : ¬ param.actual_height_ ≤ 0) (h5 : ¬ param.indexed_pixels_ = none)
    (h6 : ¬ buffer.length <
      to_size_t (wrap_int32 (param.actual_width_ * param.actual_height_))) :
    (indexed_npot_to_rgba_8_pot param buffer).1 = Except.ok () := by
  have h5b : ¬ param.indexed_pixels_.isNone = true :=
    fun h => h5 ((isNone_iff_eq_none _).1 h)
  unfold indexed_npot_to_rgba_8_pot
  rw [if_neg h1, if_neg h2, if_neg h3, if_neg h4, if_neg h5b, if_neg h6]
  cases param.indexed_is_column_major_ <;> cases param.indexed_alphas_.isSome <;> rfl

theorem indexed_to_rgba_8_pot_eq (param : IndexedToRgba8Param) (buffer : Rgba8Buffer) :
    indexed_to_rgba_8_pot param buffer =
      rethrow_in "indexed_to_rgba_8_pot"
        (if param.width_ = param.actual_width_ ∧ param.height_ = param.actual_height_
          then indexed_to_rgba_8 param buffer
          else indexed_npot_to_rgba_8_pot param buffer) := by
  unfold indexed_to_rgba_8_pot
  by_cases hw : param.width_ = param.actual_width_
  · by_cases hh : param.height_ = param.actual_height_
    · simp [hw, hh]
    · simp [hw, hh]
  · simp [hw]

/-- The failures of `indexed_to_rgba_8_pot` that do not depend on the size
check, and the outcome of the size check itself. -/
theorem indexed_to_rgba_8_pot_checks (param : IndexedToRgba8Param) (buffer : Rgba8Buffer) :
    ((param.width_ ≤ 0 ∨ param.height_ ≤ 0 ∨ param.actual_width_ ≤ 0 ∨
        param.actual_height_ ≤ 0 ∨ param.indexed_pixels_ = none ∨
        buffer.length <
          to_size_t (wrap_int32 (param.actual_width_ * param.actual_height_))) →
      (∃ e, (indexed_to_rgba_8_pot param buffer).1 = Except.error e) ∧
      (indexed_to_rgba_8_pot param buffer).2 = buffer) ∧
    (¬ (param.width_ ≤ 0 ∨ param.height_ ≤ 0 ∨ param.actual_width_ ≤ 0 ∨
        param.actual_height_ ≤ 0 ∨ param.indexed_pixels_ = none ∨
        buffer.length <
          to_size_t (wrap_int32 (param.actual_width_ * param.actual_height_))) →
      indexed_to_rgba_8_pot param buffer =
        (Except.ok (), (indexed_to_rgba_8_pot param buffer).2)) := by
  rw [indexed_to_rgba_8_pot_eq]
  by_cases hsame : param.width_ = param.actual_width_ ∧ param.height_ = param.actual_height_
  · rw [if_pos hsame]
    obtain ⟨hw, hh⟩ := hsame
    constructor
    · intro h
      obtain ⟨e, he⟩ := indexed_to_rgba_8_error param buffer (by
        rw [hw, hh]
        rcases h with h | h | h | h | h | h
        · exact Or.inl (by omega)
        · exact Or.inr (Or.inl (by omega))
        · exact Or.inl h
        · exact Or.inr (Or.inl h)
        · exact Or.inr (Or.inr (Or.inl h))
        · exact Or.inr (Or.inr (Or.inr h)))
      rw [he]
      exact ⟨⟨_, rfl⟩, rfl⟩
    · intro h
      have h1 : ¬ param.width_ ≤ 0 := fun c => h (Or.inl c)
      have h2 : ¬ param.height_ ≤ 0 := fun c => h (Or.inr (Or.inl c))
      have h5 : ¬ param.indexed_pixels_.isNone = true := fun c =>
        h (Or.inr (Or.inr (Or.inr (Or.inr (Or.inl ((isNone_iff_eq_none _).1 c))))))
      have h6 : ¬ buffer.length < to_size_t (wrap_int32 (param.width_ * param.height_)) := by
        rw [hw, hh]
        exact fun c => h (Or.inr (Or.inr (Or.inr (Or.inr (Or.inr c)))))
      unfold indexed_to_rgba_8 rethrow_in
      rw [if_neg h1, if_neg h2, if_neg h5, if_neg h6]
      cases param.indexed_is_column_major_ <;> cases param.indexed_alphas_.isSome <;> rfl
  · rw [if_neg hsame]
    constructor
    · intro h
      obtain ⟨e, he⟩ := indexed_npot_to_rgba_8_pot_error param buffer h
      rw [he]
      exact ⟨⟨_, rfl⟩, rfl⟩
    · intro h
      have hok := indexed_npot_to_rgba_8_pot_ok param buffer
        (fun c => h (Or.inl c))
        (fun c => h (Or.inr (Or.inl c)))
        (fun c => h (Or.inr (Or.inr (Or.inl c))))
        (fun c => h (Or.inr (Or.inr (Or.inr (Or.inl c)))))
        (fun c => h (Or.inr (Or.inr (Or.inr (Or.inr (Or.inl c))))))
        (fun c => h (Or.inr (Or.inr (Or.inr (Or.inr (Or.inr c))))))
      unfold rethrow_in
      rw [hok]
      rfl

/-- Claim C10, as amended. `indexed_to_rgba_8_pot` fails, leaving the destination
buffer as it was, when a dimension is `≤ 0` or `indexed_pixels_` is null; for
a pixel count `actual_width * actual_height` in the range of an `int`, it also
fails, leaving the buffer as it was, when the buffer holds fewer than
`actual_width * actual_height` entries, and it succeeds when none of these
conditions holds. -/
theorem indexed_to_rgba_8_pot_fails (param : IndexedToRgba8Param) (buffer : Rgba8Buffer) :
    ((param.width_ ≤ 0 ∨ param.height_ ≤ 0 ∨ param.actual_width_ ≤ 0 ∨
        param.actual_height_ ≤ 0 ∨ param.indexed_pixels_ = none) →
      (∃ e, (indexed_to_rgba_8_pot param buffer).1 = Except.error e) ∧
      (indexed_to_rgba_8_pot param buffer).2 = buffer) ∧
    (param.actual_width_ * param.actual_height_ ≤ 2 ^ 31 - 1 →
      ((buffer.length : Int) < param.actual_width_ * param.actual_height_ →
        (∃ e, (indexed_to_rgba_8_pot param buffer).1 = Except.error e) ∧
        (indexed_to_rgba_8_pot param buffer).2 = buffer) ∧
      (¬ (param.width_ ≤ 0 ∨ param.height_ ≤ 0 ∨ param.actual_width_ ≤ 0 ∨
          param.actual_height_ ≤ 0 ∨ param.indexed_pixels_ = none ∨
          (buffer.length : Int) < param.actual_width_ * param.actual_height_) →
        (indexed_to_rgba_8_pot param buffer).1 = Except.ok ())) := by
  obtain ⟨herr, hok⟩ := indexed_to_rgba_8_pot_checks param buffer
  have hfive : (param.width_ ≤ 0 ∨ param.height_ ≤ 0 ∨ param.actual_width_ ≤ 0 ∨
      param.actual_height_ ≤ 0 ∨ param.indexed_pixels_ = none) →
      (∃ e, (indexed_to_rgba_8_pot param buffer).1 = Except.error e) ∧
      (indexed_to_rgba_8_pot param buffer).2 = buffer := by
    intro h
    apply herr
    tauto
  refine ⟨hfive, fun hprod => ⟨fun hlen => ?_, fun h => ?_⟩⟩
  · by_cases haw : param.actual_width_ ≤ 0
    · exact hfive (Or.inr (Or.inr (Or.inl haw)))
    · by_cases hah : param.actual_height_ ≤ 0
      · exact hfive (Or.inr (Or.inr (Or.inr (Or.inl hah))))
      · have hpos := one_le_mul_dims param.actual_width_ param.actual_height_
          (by omega) (by omega)
        exact herr (Or.inr (Or.inr (Or.inr (Or.inr (Or.inr
          ((size_check_iff _ _ (by omega) hprod).2 hlen))))))
  · have haw : ¬ param.actual_width_ ≤ 0 := fun c => h (Or.inr (Or.inr (Or.inl c)))
    have hah : ¬ param.actual_height_ ≤ 0 := fun c => h (Or.inr (Or.inr (Or.inr (Or.inl c))))
    have hpos := one_le_mul_dims param.actual_width_ param.actual_height_
      (by omega) (by omega)
    rw [hok (by
      rintro (c | c | c | c | c | c)
      · exact h (Or.inl c)
      · exact h (Or.inr (Or.inl c))
      · exact h (Or.inr (Or.inr (Or.inl c)))
      · exact h (Or.inr (Or.inr (Or.inr (Or.inl c))))
      · exact h (Or.inr (Or.inr (Or.inr (Or.inr (Or.inl c)))))
      · exact h (Or.inr (Or.inr (Or.inr (Or.inr (Or.inr
          ((size_check_iff _ _ (by omega) hprod).1 c)))))))]

/-- Claim C10 on the 2x2 sample bitmap: without a source the call fails; with
the target 4x4 and a buffer of four entries it fails and the buffer is
untouched; with the target 2x2 and the same buffer it succeeds. -/
theorem indexed_to_rgba_8_pot_fails_witness :
    ((∃ e, (indexed_to_rgba_8_pot { sample_param_pot with indexed_pixels_ := none }
        sample_buffer).1 = Except.error e) ∧
      (indexed_to_rgba_8_pot { sample_param_pot with indexed_pixels_ := none }
        sample_buffer).2 = sample_buffer) ∧
    ((∃ e, (indexed_to_rgba_8_pot sample_param_pot sample_buffer).1 = Except.error e) ∧
      (indexed_to_rgba_8_pot sample_param_pot sample_buffer).2 = sample_buffer) ∧
    (indexed_to_rgba_8_pot (sample_param false none) sample_buffer).1 = Except.ok () :=
  ⟨(indexed_to_rgba_8_pot_fails { sample_param_pot with indexed_pixels_ := none }
      sample_buffer).1 (Or.inr (Or.inr (Or.inr (Or.inr rfl)))),
    ((indexed_to_rgba_8_pot_fails sample_param_pot sample_buffer).2 (by decide)).1 (by decide),
    ((indexed_to_rgba_8_pot_fails (sample_param false none) sample_buffer).2 (by decide)).2 (by
      rintro (h | h | h | h | h | h)
      · exact absurd h (by decide)
      · exact absurd h (by decide)
      · exact absurd h (by decide)
      · exact absurd h (by decide)
      · cases h
      · exact absurd h (by decide))⟩

/-- Claim C10 fails as stated on the 65536x65536 bitmap, each side being
`absolute_max_texture_dimension`, with the same target dimensions and a
destination of four entries: the buffer holds fewer than
`actual_width * actual_height = 2^32` entries, but the pixel count is `0` as
an `int`, the size check passes and the call succeeds. -/
theorem indexed_to_rgba_8_pot_fails_counterexample :
    (sample_buffer.length : Int) <
        (sample_param_65536 false none).actual_width_ *
          (sample_param_65536 false none).actual_height_ ∧
    indexed_to_rgba_8_pot (sample_param_65536 false none) sample_buffer =
      (Except.ok (), sample_buffer) ∧
    ¬ ∃ e, (indexed_to_rgba_8_pot (sample_param_65536 false none) sample_buffer).1 =
      Except.error e := by
  have h : indexed_to_rgba_8_pot (sample_param_65536 false none) sample_buffer =
      (Except.ok (), sample_buffer) := by
    rw [indexed_to_rgba_8_pot_eq, if_pos ⟨rfl, rfl⟩,
      indexed_to_rgba_8_area_zero (sample_param_65536 false none) sample_buffer
        (by decide) (by decide) rfl rfl (by decide)]
    rfl
  refine ⟨by decide, h, ?_⟩
  rw [h]
  rintro ⟨e, he⟩
  cases he

/-! ### Nearest-neighbour resampling -/

/-- A description that passes is default, and then leaves the used locations
as they are, or its location is new and is added to them. -/
theorem vertex_input_validate_descr_ok (max_locations : Int) (d : Ren3dVertexAttribDescr)
    (used used2 : List Int)
    (h : vertex_input_validate_descr max_locations d used = Except.ok used2) :
    (d.is_default_ = true ∧ used2 = used) ∨
    (d.is_default_ = false ∧ d.location_ ∉ used ∧ used2 = d.location_ :: used) := by
  unfold vertex_input_validate_descr at h
  by_cases hd : d.is_default_ = true
  · rw [if_pos hd] at h
    left
    exact ⟨hd, by injection h with h; exact h.symm⟩
  · rw [if_neg hd] at h
    right
    dsimp only at h
    by_cases h1 : d.location_ < 0 ∨ d.location_ ≥ max_locations
    · rw [if_pos h1] at h
      cases h
    · rw [if_neg h1] at h
      by_cases h2 : used.contains d.location_ = true
      · rw [if_pos h2] at h
        cases h
      · rw [if_neg h2] at h
        cases hf : vertex_input_validate_format d.format_ with
        | error e =>
          rw [hf] at h
          cases h
        | ok u =>
          rw [hf] at h
          cases hb : d.vertex_buffer_ with
          | none =>
            rw [hb] at h
            cases h
          | some kind =>
            rw [hb] at h
            dsimp only at h
            by_cases k1 : kind ≠ Ren3dBufferKind.vertex
            · rw [if_pos k1] at h
              cases h
            · rw [if_neg k1] at h
              by_cases k2 : d.offset_ < 0
              · rw [if_pos k2] at h
                cases h
              · rw [if_neg k2] at h
                by_cases k3 : d.stride_ < 0
                · rw [if_pos k3] at h
                  cases h
                · rw [if_neg k3] at h
                  refine ⟨by simpa using hd, ?_, by injection h with h; exact h.symm⟩
                  simpa using h2

/-- A non-default description with a location in range that is not used yet, a
supported format, a vertex buffer and non-negative offset and stride passes. -/
theorem vertex_input_validate_descr_pass (max_locations : Int) (d : Ren3dVertexAttribDescr)
    (used : List Int)
    (hloc : 0 ≤ d.location_ ∧ d.location_ < max_locations) (hnew : d.location_ ∉ used)
    (hfmt : d.format_ ≠ Ren3dVertexAttribFormat.none)
    (hbuf : d.vertex_buffer_ = some Ren3dBufferKind.vertex)
    (hoff : 0 ≤ d.offset_) (hstr : 0 ≤ d.stride_) :
    vertex_input_validate_descr max_locations d used =
      Except.ok (if d.is_default_ then used else d.location_ :: used) := by
  unfold vertex_input_validate_descr
  by_cases hd : d.is_default_ = true
  · rw [if_pos hd, if_pos hd]
  · rw [if_neg hd, if_neg hd]
    dsimp only
    rw [if_neg (by omega), if_neg (by simpa using hnew)]
    have hf : vertex_input_validate_format d.format_ = Except.ok () := by
      cases hfm : d.format_ with
      | none => exact absurd hfm hfmt
      | rgba_8_unorm => rfl
      | rg_32_sfloat => rfl
      | rgb_32_sfloat => rfl
    rw [hf, hbuf]
    dsimp only
    rw [if_neg (by simp), if_neg (by omega), if_neg (by omega)]

/-- When the loop passes, two non-default descriptions never share a
location, and no non-default description has a location used before. -/
theorem vertex_input_validate_descrs_ok (max_locations : Int) :
    ∀ (ds : List Ren3dVertexAttribDescr) (used : List Int),
      vertex_input_validate_descrs max_locations ds used = Except.ok () →
      ds.Pairwise (fun a b =>
        a.is_default_ = true ∨ b.is_default_ = true ∨ a.location_ ≠ b.location_) ∧
      ∀ d ∈ ds, d.is_default_ = false → d.location_ ∉ used := by
  intro ds
  induction ds with
  | nil =>
    intro used _
    exact ⟨List.Pairwise.nil, fun d hd => absurd hd (List.not_mem_nil d)⟩
  | cons d ds ih =>
    intro used h
    unfold vertex_input_validate_descrs at h
    split at h
    · cases h
    · rename_i used2 hd
      obtain ⟨hp, hu⟩ := ih used2 h
      rcases vertex_input_validate_descr_ok max_locations d used used2 hd with
        ⟨hdef, hused⟩ | ⟨hdef, hnew, hused⟩
      · subst hused
        refine ⟨List.Pairwise.cons (fun b _ => Or.inl hdef) hp, fun x hx hxd => ?_⟩
        rcases List.mem_cons.1 hx with hx | hx
        · subst hx
          rw [hdef] at hxd
          cases hxd
        · exact hu x hx hxd
      · subst hused
        refine ⟨List.Pairwise.cons (fun b hb => ?_) hp, fun x hx hxd => ?_⟩
        · by_cases hbd : b.is_default_ = true
          · exact Or.inr (Or.inl hbd)
          · right
            right
            intro heq
            have := hu b hb (by simpa using hbd)
            exact this (by rw [← heq]; exact List.mem_cons_self _ _)
        · rcases List.mem_cons.1 hx with hx | hx
          · subst hx
            exact hnew
          · intro hmem
            exact hu x hx hxd (List.mem_cons_of_mem _ hmem)

/-- Claim C13, as amended. `vertex_input_validate_param` fails for every
parameter whose list of attribute descriptions contains two non-default
descriptions with the same `location_`. -/
theorem vertex_input_validate_param_duplicate (max_locations : Int)
    (param : Ren3dCreateVertexInputParam) (a b : Ren3dVertexAttribDescr)
    (hab : List.Sublist [a, b] param.attrib_descrs_)
    (ha : a.is_default_ = false) (hb : b.is_default_ = false)
    (hloc : a.location_ = b.location_) :
    ∃ e, vertex_input_validate_param max_locations param = Except.error e := by
  cases hres : vertex_input_validate_param max_locations param with
  | error e => exact ⟨e, rfl⟩
  | ok u =>
    exfalso
    unfold vertex_input_validate_param at hres
    split_ifs at hres with h1 h2
    · cases hres
    · cases hres
    · have hloop : vertex_input_validate_descrs max_locations param.attrib_descrs_ []
          = Except.ok () := by
        cases hl : vertex_input_validate_descrs max_locations param.attrib_descrs_ [] with
        | error e => rw [hl] at hres; cases hres
        | ok v => rfl
      obtain ⟨hp, _⟩ := vertex_input_validate_descrs_ok max_locations _ _ hloop
      rcases List.pairwise_iff_forall_sublist.1 hp hab with h | h | h
      · rw [ha] at h; cases h
      · rw [hb] at h; cases h
      · exact h hloc

/-- Claim C13, as amended, on two non-default descriptions at location 1. -/
theorem vertex_input_validate_param_duplicate_witness :
    ∃ e, vertex_input_validate_param 8 ⟨none, [sample_descr 1, sample_descr 0, sample_descr 1]⟩
      = Except.error e :=
  vertex_input_validate_param_duplicate 8 ⟨none, [sample_descr 1, sample_descr 0, sample_descr 1]⟩
    (sample_descr 1) (sample_descr 1)
    (List.Sublist.cons₂ _ (List.Sublist.cons _ (List.Sublist.refl _))) rfl rfl rfl

/-- Claim C13 fails as stated: two default descriptions share location 0 and
the parameter passes. -/
theorem vertex_input_validate_param_duplicate_default :
    List.Sublist [sample_default_descr, sample_default_descr]
      (Ren3dCreateVertexInputParam.mk none
        [sample_default_descr, sample_default_descr]).attrib_descrs_ ∧
    sample_default_descr.location_ = sample_default_descr.location_ ∧
    vertex_input_validate_param 8 ⟨none, [sample_default_descr, sample_default_descr]⟩
      = Except.ok () :=
  ⟨List.Sublist.refl _, rfl, rfl⟩

theorem vertex_input_validate_descrs_pass (max_locations : Int) :
    ∀ (ds : List Ren3dVertexAttribDescr) (used : List Int),
      ds.Pairwise (fun a b => a.location_ ≠ b.location_) →
      (∀ d ∈ ds, 0 ≤ d.location_ ∧ d.location_ < max_locations) →
      (∀ d ∈ ds, d.is_default_ = false →
        (d.format_ = Ren3dVertexAttribFormat.rgba_8_unorm ∨
          d.format_ = Ren3dVertexAttribFormat.rg_32_sfloat ∨
          d.format_ = Ren3dVertexAttribFormat.rgb_32_sfloat) ∧
        d.vertex_buffer_ = some Ren3dBufferKind.vertex ∧ 0 ≤ d.offset_ ∧ 0 ≤ d.stride_) →
      (∀ d ∈ ds, d.location_ ∉ used) →
      vertex_input_validate_descrs max_locations ds used = Except.ok () := by
  intro ds
  induction ds with
  | nil =>
    intro used _ _ _ _
    rfl
  | cons d ds ih =>
    intro used hp hr hwf hu
    obtain ⟨hd1, hd2⟩ := List.pairwise_cons.1 hp
    unfold vertex_input_validate_descrs
    by_cases hdef : d.is_default_ = true
    · have hstep : vertex_input_validate_descr max_locations d used = Except.ok used := by
        unfold vertex_input_validate_descr
        rw [if_pos hdef]
      rw [hstep]
      exact ih used hd2 (fun x hx => hr x (List.mem_cons_of_mem _ hx))
        (fun x hx => hwf x (List.mem_cons_of_mem _ hx))
        (fun x hx => hu x (List.mem_cons_of_mem _ hx))
    · obtain ⟨f1, f2, f3, f4⟩ := hwf d (List.mem_cons_self _ _) (by simpa using hdef)
      have hfmt : d.format_ ≠ Ren3dVertexAttribFormat.none := by
        rcases f1 with h | h | h <;> rw [h] <;> decide
      have hstep := vertex_input_validate_descr_pass max_locations d used
        (hr d (List.mem_cons_self _ _)) (hu d (List.mem_cons_self _ _)) hfmt f2 f3 f4
      rw [if_neg hdef] at hstep
      rw [hstep]
      refine ih (d.location_ :: used) hd2 (fun x hx => hr x (List.mem_cons_of_mem _ hx))
        (fun x hx => hwf x (List.mem_cons_of_mem _ hx)) (fun x hx hmem => ?_)
      rcases List.mem_cons.1 hmem with h | h
      · exact hd1 x hx h.symm
      · exact hu x (List.mem_cons_of_mem _ hx) h

/-- Claim C14, as amended. `vertex_input_validate_param` succeeds for every
`max_locations ≥ 0` and every parameter whose index buffer, if any, is an index
buffer, whose attribute descriptions have pairwise distinct locations inside
`[0, max_locations)` and whose non-default descriptions have a supported
format, a vertex buffer and non-negative offset and stride. -/
theorem vertex_input_validate_param_pass (max_locations : Int)
    (param : Ren3dCreateVertexInputParam) (hmax : 0 ≤ max_locations)
    (hidx : param.index_buffer_ = none ∨ param.index_buffer_ = some Ren3dBufferKind.index)
    (hdistinct : param.attrib_descrs_.Pairwise (fun a b => a.location_ ≠ b.location_))
    (hrange : ∀ d ∈ param.attrib_descrs_, 0 ≤ d.location_ ∧ d.location_ < max_locations)
    (hwf : ∀ d ∈ param.attrib_descrs_, d.is_default_ = false →
      (d.format_ = Ren3dVertexAttribFormat.rgba_8_unorm ∨
        d.format_ = Ren3dVertexAttribFormat.rg_32_sfloat ∨
        d.format_ = Ren3dVertexAttribFormat.rgb_32_sfloat) ∧
      d.vertex_buffer_ = some Ren3dBufferKind.vertex ∧ 0 ≤ d.offset_ ∧ 0 ≤ d.stride_) :
    vertex_input_validate_param max_locations param = Except.ok () := by
  unfold vertex_input_validate_param
  rw [if_neg (by omega), if_neg (by
    rintro ⟨h1, h2⟩
    rcases hidx with h | h
    · rw [h] at h1
      cases h1
    · exact h2 h),
    vertex_input_validate_descrs_pass max_locations param.attrib_descrs_ [] hdistinct hrange hwf
      (fun d _ => List.not_mem_nil _)]
  rfl

/-- Claim C14, as amended, on two attributes at the locations 0 and 1. -/
theorem vertex_input_validate_param_pass_witness :
    vertex_input_validate_param 8
      ⟨some Ren3dBufferKind.index, [sample_descr 0, sample_descr 1]⟩ = Except.ok () :=
  vertex_input_validate_param_pass 8
    ⟨some Ren3dBufferKind.index, [sample_descr 0, sample_descr 1]⟩ (by decide)
    (Or.inr rfl) (by decide) (by decide) (by decide)

/-- Claim C14 fails as stated: a single description at location 0, inside
`[0, 8)`, with a null vertex buffer is rejected. -/
theorem vertex_input_validate_param_null_buffer :
    (0 : Int) ≤ 8 ∧
    (Ren3dCreateVertexInputParam.mk none [sample_descr_null_buffer]).attrib_descrs_.Pairwise
      (fun a b => a.location_ ≠ b.location_) ∧
    (∀ d ∈ (Ren3dCreateVertexInputParam.mk none [sample_descr_null_buffer]).attrib_descrs_,
      0 ≤ d.location_ ∧ d.location_ < 8) ∧
    vertex_input_validate_param 8 ⟨none, [sample_descr_null_buffer]⟩ =
      Except.error ["vertex_input_validate_param", "Null vertex buffer."] :=
  ⟨by decide, by decide, by decide, rfl⟩

end Ren3dUtils

namespace Ren3dGl

/-! ### Indexed draws -/

/-- Claim C17. With a supported topology and `vertex_count_ = 0`,
`submit_draw_indexed` returns without error and invokes nothing, whatever the
other fields and the current vertex input are. -/
theorem submit_draw_indexed_zero (param : Ren3dDrawIndexedParam) (s : SubmitState)
    (htop : param.primitive_topology_ ≠ Ren3dPrimitiveTopology.none)
    (hcount : param.vertex_count_ = 0) :
    submit_draw_indexed param s = (Except.ok (), s) := by
  unfold submit_draw_indexed
  rw [if_neg htop, if_neg (by omega), if_pos hcount]

/-- Claim C17 on a draw of no vertex with an unsupported index byte depth,
negative offsets and no current vertex input. -/
theorem submit_draw_indexed_zero_witness :
    submit_draw_indexed ⟨Ren3dPrimitiveTopology.line_strip, 0, 3, -1, -1⟩ ⟨none, []⟩ =
      (Except.ok (), ⟨none, []⟩) :=
  submit_draw_indexed_zero ⟨Ren3dPrimitiveTopology.line_strip, 0, 3, -1, -1⟩ ⟨none, []⟩
    (by decide) rfl

/-- What `submit_draw_indexed` invokes: nothing, the four bindings, or the
four bindings, the index buffer binding and the draw. -/
theorem submit_draw_indexed_calls (param : Ren3dDrawIndexedParam) (s : SubmitState) :
    (submit_draw_indexed param s).2.vertex_input_ = s.vertex_input_ ∧
    (((∃ e, (submit_draw_indexed param s).1 = Except.error e) ∨
          param.vertex_count_ = 0) ∧
        ((submit_draw_indexed param s).2.calls = s.calls ∨
          (submit_draw_indexed param s).2.calls = s.calls ++
            [GlCall.vertex_input_set, GlCall.shader_stage_set, GlCall.sampler_set,
              GlCall.texture_set]) ∨
      ((submit_draw_indexed param s).1 = Except.ok () ∧
        (submit_draw_indexed param s).2.calls = s.calls ++
          [GlCall.vertex_input_set, GlCall.shader_stage_set, GlCall.sampler_set,
            GlCall.texture_set, GlCall.index_buffer_set, GlCall.draw_elements param] ∧
        0 < param.vertex_count_ ∧
        param.primitive_topology_ ≠ Ren3dPrimitiveTopology.none ∧
        (param.index_byte_depth_ = 1 ∨ param.index_byte_depth_ = 2 ∨
          param.index_byte_depth_ = 4) ∧
        0 ≤ param.index_buffer_offset_ ∧ 0 ≤ param.index_offset_ ∧
        ∃ vertex_input, s.vertex_input_ = some vertex_input ∧
          vertex_input.index_buffer_.isSome = true)) := by
  unfold submit_draw_indexed
  by_cases h1 : param.primitive_topology_ = Ren3dPrimitiveTopology.none
  · rw [if_pos h1]
    exact ⟨rfl, Or.inl ⟨Or.inl ⟨_, rfl⟩, Or.inl rfl⟩⟩
  rw [if_neg h1]
  by_cases h2 : param.vertex_count_ < 0
  · rw [if_pos h2]
    exact ⟨rfl, Or.inl ⟨Or.inl ⟨_, rfl⟩, Or.inl rfl⟩⟩
  rw [if_neg h2]
  by_cases h3 : param.vertex_count_ = 0
  · rw [if_pos h3]
    exact ⟨rfl, Or.inl ⟨Or.inr h3, Or.inl rfl⟩⟩
  rw [if_neg h3]
  by_cases h4 : ¬ (param.index_byte_depth_ = 1 ∨ param.index_byte_depth_ = 2 ∨
      param.index_byte_depth_ = 4)
  · rw [if_pos h4]
    exact ⟨rfl, Or.inl ⟨Or.inl ⟨_, rfl⟩, Or.inl rfl⟩⟩
  rw [if_neg h4]
  by_cases h5 : param.index_buffer_offset_ < 0
  · rw [if_pos h5]
    exact ⟨rfl, Or.inl ⟨Or.inl ⟨_, rfl⟩, Or.inl rfl⟩⟩
  rw [if_neg h5]
  by_cases h6 : param.index_offset_ < 0
  · rw [if_pos h6]
    exact ⟨rfl, Or.inl ⟨Or.inl ⟨_, rfl⟩, Or.inl rfl⟩⟩
  rw [if_neg h6]
  cases hv : s.vertex_input_ with
  | none =>
    exact ⟨by simp [Ren3dUtils.throw_in, hv], Or.inl ⟨Or.inl ⟨_, rfl⟩, Or.inl rfl⟩⟩
  | some vertex_input =>
    cases hi : vertex_input.index_buffer_ with
    | none =>
      dsimp only
      rw [hi]
      refine ⟨by simp [Ren3dUtils.throw_in, SubmitState.invoke, hv],
        Or.inl ⟨Or.inl ⟨_, rfl⟩, Or.inr ?_⟩⟩
      simp [Ren3dUtils.throw_in, SubmitState.invoke]
    | some b =>
      dsimp only
      rw [hi]
      refine ⟨by simp [SubmitState.invoke, hv], Or.inr ⟨rfl, ?_, by omega, h1, not_not.1 h4,
        by omega, by omega, vertex_input, rfl, by rw [hi]; rfl⟩⟩
      simp [SubmitState.invoke]

/-- Claim C18. `submit_draw_indexed` invokes `glDrawElements` only if
`vertex_count_ > 0`, the topology is supported, `index_byte_depth_` is 1, 2 or
4, both offsets are non-negative, a vertex input is current and it has an
index buffer; when `vertex_count_ > 0` and one of these conditions is
violated, or `vertex_count_ < 0`, it fails and invokes no draw. -/
theorem submit_draw_indexed_draw (param : Ren3dDrawIndexedParam) (s : SubmitState) :
    ∃ invoked : List GlCall,
      (submit_draw_indexed param s).2.calls = s.calls ++ invoked ∧
      ((∃ c ∈ invoked, c.is_draw = true) →
        0 < param.vertex_count_ ∧
        param.primitive_topology_ ≠ Ren3dPrimitiveTopology.none ∧
        (param.index_byte_depth_ = 1 ∨ param.index_byte_depth_ = 2 ∨
          param.index_byte_depth_ = 4) ∧
        0 ≤ param.index_buffer_offset_ ∧ 0 ≤ param.index_offset_ ∧
        ∃ vertex_input, s.vertex_input_ = some vertex_input ∧
          vertex_input.index_buffer_.isSome = true) ∧
      ((0 < param.vertex_count_ ∧
          ¬ (param.primitive_topology_ ≠ Ren3dPrimitiveTopology.none ∧
            (param.index_byte_depth_ = 1 ∨ param.index_byte_depth_ = 2 ∨
              param.index_byte_depth_ = 4) ∧
            0 ≤ param.index_buffer_offset_ ∧ 0 ≤ param.index_offset_ ∧
            ∃ vertex_input, s.vertex_input_ = some vertex_input ∧
              vertex_input.index_buffer_.isSome = true)) ∨
          param.vertex_count_ < 0 →
        (∃ e, (submit_draw_indexed param s).1 = Except.error e) ∧
        ∀ c ∈ invoked, c.is_draw = false) := by
  obtain ⟨_, h | h⟩ := submit_draw_indexed_calls param s
  · obtain ⟨hfail, hcalls⟩ := h
    have hnodraw : ∃ invoked : List GlCall,
        (submit_draw_indexed param s).2.calls = s.calls ++ invoked ∧
        ∀ c ∈ invoked, c.is_draw = false := by
      rcases hcalls with hc | hc
      · exact ⟨[], by rw [hc]; simp, by simp⟩
      · refine ⟨_, hc, ?_⟩
        intro c hc2
        simp only [List.mem_cons, List.mem_singleton, List.not_mem_nil, or_false] at hc2
        rcases hc2 with rfl | rfl | rfl | rfl <;> rfl
    obtain ⟨invoked, hi1, hi2⟩ := hnodraw
    refine ⟨invoked, hi1, ?_, ?_⟩
    · rintro ⟨c, hc, hd⟩
      rw [hi2 c hc] at hd
      cases hd
    · intro hbad
      refine ⟨?_, hi2⟩
      rcases hfail with hf | hf
      · exact hf
      · rcases hbad with ⟨hpos, _⟩ | hneg
        · omega
        · omega
  · obtain ⟨hok, hcalls, hpos, hconds⟩ := h
    refine ⟨_, hcalls, fun _ => ⟨hpos, hconds⟩, ?_⟩
    intro hbad
    rcases hbad with ⟨_, hnot⟩ | hneg
    · exact absurd hconds hnot
    · omega

/-- Claim C18 on two draws in `sample_state`: `sample_draw` reaches the draw
call, the same draw with the index byte depth 3 fails and invokes nothing. -/
theorem submit_draw_indexed_draw_witness :
    submit_draw_indexed sample_draw sample_state =
      (Except.ok (), ⟨some ⟨some 7⟩,
        [GlCall.vertex_input_set, GlCall.shader_stage_set, GlCall.sampler_set,
          GlCall.texture_set, GlCall.index_buffer_set, GlCall.draw_elements sample_draw]⟩) ∧
    submit_draw_indexed { sample_draw with index_byte_depth_ := 3 } sample_state =
      (Except.error ["submit_draw_indexed", "Unsupported index value byte depth."],
        sample_state) ∧
    ∃ invoked : List GlCall,
      (submit_draw_indexed { sample_draw with index_byte_depth_ := 3 } sample_state).2.calls
        = sample_state.calls ++ invoked ∧
      ∀ c ∈ invoked, c.is_draw = false :=
  ⟨rfl, rfl,
    (submit_draw_indexed_draw { sample_draw with index_byte_depth_ := 3 } sample_state).elim
      (fun invoked h => ⟨invoked, h.1, (h.2.2 (Or.inl ⟨by decide, by decide⟩)).2⟩)⟩

/-! ### Loops that may throw -/

theorem for_loop_try_succ {σ : Type}
    (body : Nat → σ → Except Ren3dUtilsException Unit × σ) (s : σ) (n : Nat) :
    for_loop_try (n + 1) body s =
      match for_loop_try n body s with
      | (Except.ok (), s2) => body n s2
      | (Except.error e, s2) => (Except.error e, s2) := rfl

/-- Once the loop has thrown, further iterations do not run. -/
theorem for_loop_try_error_add {σ : Type}
    (body : Nat → σ → Except Ren3dUtilsException Unit × σ) (s : σ) (n : Nat)
    (h : ∃ e, (for_loop_try n body s).1 = Except.error e) (k : Nat) :
    for_loop_try (n + k) body s = for_loop_try n body s := by
  induction k with
  | zero => rfl
  | succ k ih =>
    obtain ⟨e, he⟩ := h
    rw [← Nat.add_assoc, for_loop_try_succ, ih]
    cases hr : for_loop_try n body s with
    | mk r s2 =>
      rw [hr] at he
      dsimp only at he
      subst he
      rfl

/-- An iteration that always throws ends the loop: the iterations after it do
not run. -/
theorem for_loop_try_stops {σ : Type}
    (body : Nat → σ → Except Ren3dUtilsException Unit × σ) (s : σ) (i n : Nat) (hn : i < n)
    (hfail : ∀ s2, ∃ e, (body i s2).1 = Except.error e) :
    (∃ e, (for_loop_try n body s).1 = Except.error e) ∧
    for_loop_try n body s = for_loop_try (i + 1) body s := by
  have hstep : ∃ e, (for_loop_try (i + 1) body s).1 = Except.error e := by
    rw [for_loop_try_succ]
    cases hr : for_loop_try i body s with
    | mk r s2 =>
      cases r with
      | error e => exact ⟨e, rfl⟩
      | ok u => exact hfail s2
  obtain ⟨k, rfl⟩ : ∃ k, n = i + 1 + k := ⟨n - (i + 1), by omega⟩
  rw [for_loop_try_error_add body s (i + 1) hstep k]
  exact ⟨hstep, rfl⟩

/-- The loop runs the bodies of the iterations below its bound only. -/
theorem for_loop_try_congr {σ : Type}
    (body1 body2 : Nat → σ → Except Ren3dUtilsException Unit × σ) (n : Nat)
    (h : ∀ i, i < n → ∀ s, body1 i s = body2 i s) (s : σ) :
    for_loop_try n body1 s = for_loop_try n body2 s := by
  induction n with
  | zero => rfl
  | succ n ih =>
    rw [for_loop_try_succ, for_loop_try_succ, ih (fun i hi => h i (by omega))]
    cases hr : for_loop_try n body2 s with
    | mk r s2 =>
      cases r with
      | error e => rfl
      | ok u => exact h n (by omega) s2

/-! ### Command submission -/

theorem submit_commands_eq (arr : Int → Option Ren3dCmdBuffer) (n : Nat) (s : SubmitState) :
    submit_commands (some arr) (n : Int) s =
      Ren3dUtils.rethrow_in "submit_commands"
        (for_loop_try n (fun i s => submit_buffer i (arr (i : Int)) s) s) := by
  unfold submit_commands
  rw [if_neg (by omega), if_neg (by simp)]
  simp [Ren3dUtils.ptr_read]

theorem rethrow_in_error {σ : Type} (func : String)
    (r : Except Ren3dUtilsException Unit × σ) :
    ((∃ e, (Ren3dUtils.rethrow_in func r).1 = Except.error e) ↔
      ∃ e, r.1 = Except.error e) ∧
    (Ren3dUtils.rethrow_in func r).2 = r.2 ∧
    (r.1 = Except.ok () → (Ren3dUtils.rethrow_in func r).1 = Except.ok ()) := by
  obtain ⟨r1, r2⟩ := r
  cases r1 with
  | error e =>
    refine ⟨⟨fun _ => ⟨e, rfl⟩, fun _ => ⟨_, rfl⟩⟩, rfl, fun h => ?_⟩
    cases h
  | ok u =>
    refine ⟨⟨?_, ?_⟩, rfl, fun _ => rfl⟩
    · rintro ⟨e, he⟩
      cases he
    · rintro ⟨e, he⟩
      cases he

/-- Buffers that are disabled or hold no command: the loop throws nothing,
keeps the current vertex input and invokes `begin_read` and `end_read` of the
enabled buffers only. -/
theorem submit_buffers_idle (arr : Int → Option Ren3dCmdBuffer) (s : SubmitState) (n : Nat)
    (h : ∀ i : Nat, i < n →
      ∃ b, arr (i : Int) = some b ∧ (b.is_enabled_ = false ∨ b.commands_ = [])) :
    ∃ invoked : List GlCall,
      for_loop_try n (fun i s => submit_buffer i (arr (i : Int)) s) s =
        (Except.ok (), ⟨s.vertex_input_, s.calls ++ invoked⟩) ∧
      ∀ c ∈ invoked, ∃ i : Nat, i < n ∧
        (∃ b, arr (i : Int) = some b ∧ b.is_enabled_ = true) ∧
        (c = GlCall.begin_read i ∨ c = GlCall.end_read i) := by
  induction n with
  | zero => exact ⟨[], by simp [for_loop_try], by simp⟩
  | succ n ih =>
    obtain ⟨invoked, heq, hinv⟩ := ih (fun i hi => h i (by omega))
    obtain ⟨b, hb, hidle⟩ := h n (by omega)
    rw [for_loop_try_succ, heq]
    dsimp only
    rw [hb]
    by_cases hen : b.is_enabled_ = true
    · have hcmds : b.commands_ = [] := by
        rcases hidle with h1 | h1
        · rw [hen] at h1
          cases h1
        · exact h1
      refine ⟨invoked ++ [GlCall.begin_read n, GlCall.end_read n], ?_, ?_⟩
      · simp [submit_buffer, hen, hcmds, submit_buffer_commands, SubmitState.invoke]
      · intro c hc
        rcases List.mem_append.1 hc with hc | hc
        · obtain ⟨i, hi, hrest⟩ := hinv c hc
          exact ⟨i, by omega, hrest⟩
        · simp only [List.mem_cons, List.mem_singleton, List.not_mem_nil, or_false] at hc
          exact ⟨n, by omega, ⟨b, hb, hen⟩, hc⟩
    · refine ⟨invoked, ?_, ?_⟩
      · simp [submit_buffer, hen]
      · intro c hc
        obtain ⟨i, hi, hrest⟩ := hinv c hc
        exact ⟨i, by omega, hrest⟩

/-- Claim C15. For a non-null array of non-null command buffers each of which
is disabled or holds no command, `submit_commands` completes without error and
invokes no operation of the context or of the backend; `begin_read` and
`read_command_id` of a disabled buffer are not invoked, whatever it holds. -/
theorem submit_commands_idle (arr : Int → Option Ren3dCmdBuffer) (n : Nat) (s : SubmitState)
    (h : ∀ i : Nat, i < n →
      ∃ b, arr (i : Int) = some b ∧ (b.is_enabled_ = false ∨ b.commands_ = [])) :
    (submit_commands (some arr) (n : Int) s).1 = Except.ok () ∧
    (submit_commands (some arr) (n : Int) s).2.vertex_input_ = s.vertex_input_ ∧
    ∃ invoked : List GlCall,
      (submit_commands (some arr) (n : Int) s).2.calls = s.calls ++ invoked ∧
      (∀ c ∈ invoked, c.is_backend = false) ∧
      (∀ (i : Nat) (b : Ren3dCmdBuffer), arr (i : Int) = some b → b.is_enabled_ = false →
        GlCall.begin_read i ∉ invoked ∧ GlCall.read_command_id i ∉ invoked) := by
  obtain ⟨invoked, heq, hinv⟩ := submit_buffers_idle arr s n h
  rw [submit_commands_eq, heq]
  refine ⟨rfl, rfl, invoked, rfl, fun c hc => ?_, fun i b hb hdis => ⟨fun hc => ?_, fun hc => ?_⟩⟩
  · obtain ⟨i, _, _, hc2⟩ := hinv c hc
    rcases hc2 with rfl | rfl <;> rfl
  · obtain ⟨j, _, ⟨b2, hb2, hen⟩, hc2⟩ := hinv _ hc
    rcases hc2 with hc2 | hc2
    · injection hc2 with hij
      subst hij
      rw [hb] at hb2
      injection hb2 with hbb
      subst hbb
      rw [hdis] at hen
      cases hen
    · cases hc2
  · obtain ⟨j, _, _, hc2⟩ := hinv _ hc
    rcases hc2 with hc2 | hc2 <;> cases hc2

/-- Claim C15 on `sample_idle_buffers`: only `begin_read` and `end_read` of
the enabled buffer at position 1 are invoked. -/
theorem submit_commands_idle_witness :
    ((submit_commands (some sample_idle_buffers) ((2 : Nat) : Int) sample_state).1
        = Except.ok () ∧
      (submit_commands (some sample_idle_buffers) ((2 : Nat) : Int) sample_state).2.vertex_input_
        = sample_state.vertex_input_ ∧
      ∃ invoked : List GlCall,
        (submit_commands (some sample_idle_buffers) ((2 : Nat) : Int) sample_state).2.calls
          = sample_state.calls ++ invoked ∧
        (∀ c ∈ invoked, c.is_backend = false) ∧
        (∀ (i : Nat) (b : Ren3dCmdBuffer), sample_idle_buffers (i : Int) = some b →
          b.is_enabled_ = false →
          GlCall.begin_read i ∉ invoked ∧ GlCall.read_command_id i ∉ invoked)) ∧
    submit_commands (some sample_idle_buffers) 2 sample_state =
      (Except.ok (), ⟨some ⟨some 7⟩, [GlCall.begin_read 1, GlCall.end_read 1]⟩) :=
  ⟨submit_commands_idle sample_idle_buffers 2 sample_state (by
      intro i hi
      have hcases : i = 0 ∨ i = 1 := by omega
      rcases hcases with rfl | rfl
      · exact ⟨_, rfl, Or.inl rfl⟩
      · exact ⟨_, rfl, Or.inr rfl⟩),
    rfl⟩

/-- A command with an unrecognised id ends the reading of its buffer: the
commands recorded after it play no part. -/
theorem submit_buffer_commands_unsupported (i : Nat) (command_id : Int)
    (post : List Ren3dCmd) :
    ∀ (pre : List Ren3dCmd) (s : SubmitState),
      submit_buffer_commands i (pre ++ Ren3dCmd.unsupported command_id :: post) s =
        submit_buffer_commands i (pre ++ [Ren3dCmd.unsupported command_id]) s ∧
      ∃ e, (submit_buffer_commands i (pre ++ [Ren3dCmd.unsupported command_id]) s).1
        = Except.error e := by
  intro pre
  induction pre with
  | nil =>
    intro s
    exact ⟨rfl, ⟨_, rfl⟩⟩
  | cons command pre ih =>
    intro s
    cases command <;>
      first
      | exact ⟨rfl, ⟨_, rfl⟩⟩
      | (simp only [List.cons_append, submit_buffer_commands]
         split
         · rename_i s2 _
           exact ih s2
         · exact ⟨rfl, ⟨_, rfl⟩⟩)

theorem submit_buffer_unsupported (i : Nat) (command_id : Int)
    (pre post : List Ren3dCmd) (s : SubmitState) :
    submit_buffer i (some ⟨true, pre ++ Ren3dCmd.unsupported command_id :: post⟩) s =
      submit_buffer i (some ⟨true, pre ++ [Ren3dCmd.unsupported command_id]⟩) s ∧
    ∃ e, (submit_buffer i (some ⟨true, pre ++ [Ren3dCmd.unsupported command_id]⟩) s).1
      = Except.error e := by
  obtain ⟨h1, e, h2⟩ := submit_buffer_commands_unsupported i command_id post pre
    (s.invoke (GlCall.begin_read i))
  unfold submit_buffer
  dsimp only
  rw [h1]
  refine ⟨rfl, ?_⟩
  cases hr : submit_buffer_commands i (pre ++ [Ren3dCmd.unsupported command_id])
      (s.invoke (GlCall.begin_read i)) with
  | mk r s2 =>
    rw [hr] at h2
    dsimp only at h2
    subst h2
    exact ⟨e, rfl⟩

/-- Claim C16. `submit_commands` fails when the count is positive and the
array pointer is null, when an entry within the count is null, and when an
enabled buffer within the count holds a command with an unrecognised id.  The
state it leaves then is the one of the submission cut at the failing point:
the entries before the null entry, or the buffer cut after the unrecognised
command with no entry behind it. -/
theorem submit_commands_fails :
    (∀ (n : Int) (s : SubmitState), 0 < n →
      submit_commands none n s =
        (Except.error ["submit_commands", "Null command buffers."], s)) ∧
    (∀ (arr : Int → Option Ren3dCmdBuffer) (i n : Nat) (s : SubmitState), i < n →
      arr (i : Int) = none →
      (∃ e, (submit_commands (some arr) (n : Int) s).1 = Except.error e) ∧
      (submit_commands (some arr) (n : Int) s).2 =
        (submit_commands (some arr) (i : Int) s).2) ∧
    (∀ (arr : Int → Option Ren3dCmdBuffer) (i n : Nat) (s : SubmitState)
      (pre post : List Ren3dCmd) (command_id : Int), i < n →
      arr (i : Int) = some ⟨true, pre ++ Ren3dCmd.unsupported command_id :: post⟩ →
      (∃ e, (submit_commands (some arr) (n : Int) s).1 = Except.error e) ∧
      (submit_commands (some arr) (n : Int) s).2 =
        (submit_commands
          (some (Ren3dUtils.mem_write arr (i : Int)
            (some ⟨true, pre ++ [Ren3dCmd.unsupported command_id]⟩)))
          ((i + 1 : Nat) : Int) s).2) := by
  refine ⟨fun n s hn => ?_, fun arr i n s hin hnull => ?_,
    fun arr i n s pre post command_id hin hbad => ?_⟩
  · unfold submit_commands
    rw [if_neg (by omega), if_pos ⟨by omega, rfl⟩]
    rfl
  · have hfail : ∀ s2 : SubmitState,
        ∃ e, ((fun (i : Nat) (s : SubmitState) => submit_buffer i (arr (i : Int)) s) i s2).1
          = Except.error e := by
      intro s2
      dsimp only
      rw [hnull]
      exact ⟨_, rfl⟩
    obtain ⟨herr, hstop⟩ := for_loop_try_stops
      (fun i s => submit_buffer i (arr (i : Int)) s) s i n hin hfail
    rw [submit_commands_eq, submit_commands_eq]
    refine ⟨(rethrow_in_error _ _).1.2 herr, ?_⟩
    rw [(rethrow_in_error _ _).2.1, (rethrow_in_error _ _).2.1, hstop, for_loop_try_succ]
    cases hr : for_loop_try i (fun i s => submit_buffer i (arr (i : Int)) s) s with
    | mk r s2 =>
      cases r with
      | error e => rfl
      | ok u =>
        dsimp only
        rw [hnull]
        rfl
  · have hfail : ∀ s2 : SubmitState,
        ∃ e, ((fun (i : Nat) (s : SubmitState) => submit_buffer i (arr (i : Int)) s) i s2).1
          = Except.error e := by
      intro s2
      dsimp only
      rw [hbad, (submit_buffer_unsupported i command_id pre post s2).1]
      exact (submit_buffer_unsupported i command_id pre post s2).2
    obtain ⟨herr, hstop⟩ := for_loop_try_stops
      (fun i s => submit_buffer i (arr (i : Int)) s) s i n hin hfail
    rw [submit_commands_eq, submit_commands_eq]
    refine ⟨(rethrow_in_error _ _).1.2 herr, ?_⟩
    rw [(rethrow_in_error _ _).2.1, (rethrow_in_error _ _).2.1, hstop]
    congr 1
    apply for_loop_try_congr
    intro j hj s2
    dsimp only
    by_cases hji : j = i
    · subst hji
      rw [hbad]
      simp only [Ren3dUtils.mem_write, if_true]
      exact (submit_buffer_unsupported j command_id pre post s2).1
    · have hne : ¬ ((j : Int) = (i : Int)) := by omega
      simp only [Ren3dUtils.mem_write, if_neg hne]

/-- Claim C16 on `sample_bad_buffers`: the submission fails at the
unrecognised command of the buffer at position 0, after its `clear`; neither
`set_viewport` nor anything of the later entries is invoked. -/
theorem submit_commands_fails_witness :
    ((∃ e, (submit_commands (some sample_bad_buffers) ((3 : Nat) : Int) sample_state).1
        = Except.error e) ∧
      (submit_commands (some sample_bad_buffers) ((3 : Nat) : Int) sample_state).2 =
        (submit_commands
          (some (Ren3dUtils.mem_write sample_bad_buffers ((0 : Nat) : Int)
            (some ⟨true, [Ren3dCmd.clear] ++ [Ren3dCmd.unsupported 99]⟩)))
          ((0 + 1 : Nat) : Int) sample_state).2) ∧
    ((∃ e, (submit_commands (some sample_bad_buffers) ((3 : Nat) : Int) sample_state).1
        = Except.error e) ∧
      (submit_commands (some sample_bad_buffers) ((3 : Nat) : Int) sample_state).2 =
        (submit_commands (some sample_bad_buffers) ((1 : Nat) : Int) sample_state).2) ∧
    submit_commands (some sample_bad_buffers) 3 sample_state =
      (Except.error ["submit_commands", "Unsupported command id."],
        ⟨some ⟨some 7⟩,
          [GlCall.begin_read 0, GlCall.read_command_id 0, GlCall.read_command 0,
            GlCall.context Ren3dCmd.clear, GlCall.read_command_id 0]⟩) :=
  ⟨submit_commands_fails.2.2 sample_bad_buffers 0 3 sample_state [Ren3dCmd.clear]
      [Ren3dCmd.set_viewport] 99 (by decide) rfl,
    submit_commands_fails.2.1 sample_bad_buffers 1 3 sample_state (by decide) rfl,
    rfl⟩

/-! ### The MSAA framebuffer -/

/-- When `create_msaa_framebuffer` succeeds the driver created the three
objects, they are owned by the three handles, and both renderbuffers got the
computed sample count at the screen size. -/
theorem create_msaa_framebuffer_ok (limits : Ren3dLimits) (driver : GlDriver)
    (dev : Ren3dGlDevice)
    (hok : (create_msaa_framebuffer limits driver dev).1 = Except.ok ()) :
    (create_msaa_framebuffer limits driver dev).2 =
      { dev with
        msaa_fbo_ := driver.fbo
        msaa_color_rb_ := driver.color_rb
        msaa_depth_rb_ := driver.depth_rb
        storage_calls := dev.storage_calls ++
          [⟨msaa_aa_degree limits dev, GlInternalFormat.rgba8, dev.screen_width,
              dev.screen_height⟩,
            ⟨msaa_aa_degree limits dev, GlInternalFormat.depth_component, dev.screen_width,
              dev.screen_height⟩] } ∧
    driver.fbo.isSome = true ∧ driver.color_rb.isSome = true ∧
    driver.depth_rb.isSome = true := by
  obtain ⟨wok, c, d, f, comp⟩ := driver
  cases hav : dev.is_framebuffer_available_ <;> cases c <;> cases d <;> cases f <;>
    cases comp <;>
    simp [create_msaa_framebuffer, create_msaa_color_rb, create_msaa_depth_rb,
      create_renderbuffer, create_framebuffer, Ren3dUtils.rethrow_in, Ren3dUtils.fail_nested,
      Ren3dUtils.fail, hav] at hok ⊢

/-- The handles after `create_msaa_framebuffer` on empty handles: a partial
triple needs a driver that creates the colour renderbuffer and then fails to
create the depth renderbuffer or the framebuffer object. -/
theorem create_msaa_framebuffer_triple (limits : Ren3dLimits) (driver : GlDriver)
    (dev : Ren3dGlDevice)
    (hempty : dev.msaa_fbo_ = none ∧ dev.msaa_color_rb_ = none ∧ dev.msaa_depth_rb_ = none)
    (hdriver : driver.color_rb.isSome = true →
      driver.depth_rb.isSome = true ∧ driver.fbo.isSome = true) :
    (create_msaa_framebuffer limits driver dev).2.triple_ok := by
  obtain ⟨wok, c, d, f, comp⟩ := driver
  obtain ⟨h1, h2, h3⟩ := hempty
  cases hav : dev.is_framebuffer_available_ <;> cases c <;> cases d <;> cases f <;>
    cases comp <;>
    simp [create_msaa_framebuffer, create_msaa_color_rb, create_msaa_depth_rb,
      create_renderbuffer, create_framebuffer, Ren3dUtils.rethrow_in, Ren3dUtils.fail_nested,
      Ren3dUtils.fail, Ren3dGlDevice.triple_ok, hav, h1, h2, h3] at hdriver ⊢

theorem msaa_aa_degree_le (limits : Ren3dLimits) (dev : Ren3dGlDevice) :
    msaa_aa_degree limits dev ≤ dev.max_msaa_degree_ := by
  unfold msaa_aa_degree
  dsimp only
  split_ifs <;> omega

/-- The sample count for the kind `ms` and the degree `clamp_aa_value v`. -/
theorem msaa_aa_degree_ms (limits : Ren3dLimits) (v : Int) (dev : Ren3dGlDevice)
    (hkind : dev.aa_kind_ = Ren3dAaKind.ms) (hvalue : dev.aa_value_ = clamp_aa_value limits v) :
    (limits.min_aa_on ≤ v → limits.min_aa_on ≤ limits.max_aa →
      limits.min_aa_on ≤ dev.max_msaa_degree_ →
      limits.min_aa_on ≤ msaa_aa_degree limits dev) ∧
    (v < limits.min_aa_on → limits.min_aa_off < limits.min_aa_on →
      msaa_aa_degree limits dev = min limits.min_aa_off dev.max_msaa_degree_) := by
  unfold msaa_aa_degree
  rw [hkind, hvalue]
  unfold clamp_aa_value
  dsimp only
  have hk : ¬ (Ren3dAaKind.ms = Ren3dAaKind.none) := by decide
  rw [if_neg hk]
  constructor
  · intro h1 h2 h3
    split_ifs <;> omega
  · intro h1 h2
    split_ifs <;> omega

theorem rethrow_in_ok {σ : Type} (func : String)
    (r : Except Ren3dUtilsException Unit × σ)
    (h : (Ren3dUtils.rethrow_in func r).1 = Except.ok ()) : r.1 = Except.ok () := by
  obtain ⟨r1, r2⟩ := r
  cases r1 with
  | error e => cases h
  | ok u => rfl

/-- Claim C19, as amended. When `set_anti_aliasing(ms, v)` succeeds and
rebuilds the MSAA framebuffer, the colour and the depth renderbuffer are
created at `screen_width x screen_height` with the same sample count, which is
at most `max_msaa_degree_`; it is at least `min_aa_on` when `v ≥ min_aa_on`
and `max_msaa_degree_ ≥ min_aa_on` (given `min_aa_on ≤ max_aa`), and it is
`min(min_aa_off, max_msaa_degree_)` when `v < min_aa_on` (given
`min_aa_off < min_aa_on`). -/
theorem set_anti_aliasing_sample_count (limits : Ren3dLimits) (driver : GlDriver) (v : Int)
    (dev : Ren3dGlDevice)
    (hok : (set_anti_aliasing limits driver Ren3dAaKind.ms v dev).1 = Except.ok ())
    (hrebuild : ¬ (dev.aa_kind_ = Ren3dAaKind.ms ∧ dev.aa_value_ = clamp_aa_value limits v)) :
    dev.is_framebuffer_available_ = true ∧ dev.is_msaa_requires_restart_ = false ∧
    ∃ sample_count : Int,
      (set_anti_aliasing limits driver Ren3dAaKind.ms v dev).2.storage_calls =
        dev.storage_calls ++
          [⟨sample_count, GlInternalFormat.rgba8, dev.screen_width, dev.screen_height⟩,
            ⟨sample_count, GlInternalFormat.depth_component, dev.screen_width,
              dev.screen_height⟩] ∧
      sample_count ≤ dev.max_msaa_degree_ ∧
      (limits.min_aa_on ≤ v → limits.min_aa_on ≤ limits.max_aa →
        limits.min_aa_on ≤ dev.max_msaa_degree_ → limits.min_aa_on ≤ sample_count) ∧
      (v < limits.min_aa_on → limits.min_aa_off < limits.min_aa_on →
        sample_count = min limits.min_aa_off dev.max_msaa_degree_) := by
  have hstate : (set_anti_aliasing limits driver Ren3dAaKind.ms v dev).2 =
      (set_msaa limits driver (clamp_aa_value limits v) dev).2 := rfl
  have h1 : (set_msaa limits driver (clamp_aa_value limits v) dev).1 = Except.ok () :=
    rethrow_in_ok "set_anti_aliasing" _ hok
  rw [hstate]
  unfold set_msaa at h1 ⊢
  have h2 := rethrow_in_ok "set_msaa" _ h1
  rw [(rethrow_in_error "set_msaa" _).2.1]
  by_cases hr : dev.is_msaa_requires_restart_ = true
  · rw [if_pos hr] at h2
    cases h2
  rw [if_neg hr] at h2 ⊢
  by_cases ha : (!dev.is_framebuffer_available_) = true
  · rw [if_pos ha] at h2
    cases h2
  rw [if_neg ha, if_neg hrebuild] at h2 ⊢
  dsimp only at h2 ⊢
  have hav : dev.is_framebuffer_available_ = true := by simpa using ha
  unfold create_framebuffers at h2 ⊢
  have h3 := rethrow_in_ok "create_framebuffers" _ h2
  rw [(rethrow_in_error "create_framebuffers" _).2.1]
  have hav2 : ¬ ((!(destroy_framebuffers
      { dev with aa_kind_ := Ren3dAaKind.ms,
                 aa_value_ := clamp_aa_value limits v }).is_framebuffer_available_) = true) := by
    simpa [destroy_framebuffers, destroy_msaa_framebuffer] using hav
  rw [if_neg hav2] at h3 ⊢
  obtain ⟨hres, _⟩ := create_msaa_framebuffer_ok limits driver _ h3
  obtain ⟨d1, d2⟩ := msaa_aa_degree_ms limits v
    (destroy_framebuffers
      { dev with aa_kind_ := Ren3dAaKind.ms, aa_value_ := clamp_aa_value limits v }) rfl rfl
  refine ⟨hav, by simpa using hr,
    msaa_aa_degree limits (destroy_framebuffers
      { dev with aa_kind_ := Ren3dAaKind.ms, aa_value_ := clamp_aa_value limits v }),
    ?_, msaa_aa_degree_le limits _, d1, d2⟩
  rw [hres]
  simp [destroy_framebuffers, destroy_msaa_framebuffer]

/-- Claim C19, as amended, on `sample_device` and the degree 4: four samples
for both renderbuffers at 640x480. -/
theorem set_anti_aliasing_sample_count_witness :
    (sample_device.is_framebuffer_available_ = true ∧
      sample_device.is_msaa_requires_restart_ = false ∧
      ∃ sample_count : Int,
        (set_anti_aliasing sample_limits sample_driver Ren3dAaKind.ms 4
            sample_device).2.storage_calls =
          sample_device.storage_calls ++
            [⟨sample_count, GlInternalFormat.rgba8, sample_device.screen_width,
                sample_device.screen_height⟩,
              ⟨sample_count, GlInternalFormat.depth_component, sample_device.screen_width,
                sample_device.screen_height⟩] ∧
        sample_count ≤ sample_device.max_msaa_degree_ ∧
        (sample_limits.min_aa_on ≤ 4 → sample_limits.min_aa_on ≤ sample_limits.max_aa →
          sample_limits.min_aa_on ≤ sample_device.max_msaa_degree_ →
          sample_limits.min_aa_on ≤ sample_count) ∧
        ((4 : Int) < sample_limits.min_aa_on →
          sample_limits.min_aa_off < sample_limits.min_aa_on →
          sample_count = min sample_limits.min_aa_off sample_device.max_msaa_degree_)) ∧
    (set_anti_aliasing sample_limits sample_driver Ren3dAaKind.ms 4
        sample_device).2.storage_calls =
      sample_device.storage_calls ++
        [⟨4, GlInternalFormat.rgba8, 640, 480⟩, ⟨4, GlInternalFormat.depth_component, 640, 480⟩] :=
  ⟨set_anti_aliasing_sample_count sample_limits sample_driver 4 sample_device rfl (by decide),
    by decide⟩

/-- Claim C19 fails as stated: with `min_aa_off = 1`, `min_aa_on = 2`, on a
device with up to 8 samples, `set_anti_aliasing(ms, 1)` succeeds, rebuilds the
framebuffer and passes the sample count 1, below `min_aa_on`, to both
renderbuffers. -/
theorem set_anti_aliasing_sample_count_below :
    (set_anti_aliasing sample_limits sample_driver Ren3dAaKind.ms 1 sample_device).1
      = Except.ok () ∧
    ¬ (sample_device.aa_kind_ = Ren3dAaKind.ms ∧
      sample_device.aa_value_ = clamp_aa_value sample_limits 1) ∧
    (set_anti_aliasing sample_limits sample_driver Ren3dAaKind.ms 1
        sample_device).2.storage_calls =
      sample_device.storage_calls ++
        [⟨1, GlInternalFormat.rgba8, 640, 480⟩, ⟨1, GlInternalFormat.depth_component, 640, 480⟩] ∧
    ¬ (sample_limits.min_aa_on ≤ 1) ∧ sample_limits.min_aa_on ≤ sample_device.max_msaa_degree_ :=
  ⟨rfl, by decide, by decide, by decide, by decide⟩

theorem triple_ok_of_handles (a b : Ren3dGlDevice)
    (h1 : a.msaa_fbo_ = b.msaa_fbo_) (h2 : a.msaa_color_rb_ = b.msaa_color_rb_)
    (h3 : a.msaa_depth_rb_ = b.msaa_depth_rb_) (h : b.triple_ok) : a.triple_ok := by
  unfold Ren3dGlDevice.triple_ok at h ⊢
  rw [h1, h2, h3]
  exact h

theorem create_framebuffers_triple (limits : Ren3dLimits) (driver : GlDriver)
    (dev : Ren3dGlDevice)
    (hempty : dev.msaa_fbo_ = none ∧ dev.msaa_color_rb_ = none ∧ dev.msaa_depth_rb_ = none)
    (hdriver : driver.color_rb.isSome = true →
      driver.depth_rb.isSome = true ∧ driver.fbo.isSome = true) :
    (create_framebuffers limits driver dev).2.triple_ok := by
  unfold create_framebuffers
  rw [(rethrow_in_error "create_framebuffers" _).2.1]
  by_cases ha : (!dev.is_framebuffer_available_) = true
  · rw [if_pos ha]
    exact Or.inr hempty
  · rw [if_neg ha]
    exact create_msaa_framebuffer_triple limits driver dev hempty hdriver

theorem create_framebuffers_ok_triple (limits : Ren3dLimits) (driver : GlDriver)
    (dev : Ren3dGlDevice)
    (hempty : dev.msaa_fbo_ = none ∧ dev.msaa_color_rb_ = none ∧ dev.msaa_depth_rb_ = none)
    (hok : (create_framebuffers limits driver dev).1 = Except.ok ()) :
    (create_framebuffers limits driver dev).2.triple_ok := by
  unfold create_framebuffers at hok ⊢
  have h1 := rethrow_in_ok "create_framebuffers" _ hok
  rw [(rethrow_in_error "create_framebuffers" _).2.1]
  by_cases ha : (!dev.is_framebuffer_available_) = true
  · rw [if_pos ha]
    exact Or.inr hempty
  · rw [if_neg ha] at h1 ⊢
    obtain ⟨hres, hf, hc, hd⟩ := create_msaa_framebuffer_ok limits driver dev h1
    rw [hres]
    exact Or.inl ⟨hf, hc, hd⟩

theorem disable_aa_triple (limits : Ren3dLimits) (driver : GlDriver) (dev : Ren3dGlDevice)
    (hdev : dev.triple_ok)
    (hdriver : driver.color_rb.isSome = true →
      driver.depth_rb.isSome = true ∧ driver.fbo.isSome = true) :
    (disable_aa limits driver dev).2.triple_ok := by
  unfold disable_aa
  dsimp only
  rw [(rethrow_in_error "disable_aa" _).2.1]
  by_cases hf : dev.msaa_fbo_.isNone = true
  · rw [if_pos hf]
    exact triple_ok_of_handles _ dev rfl rfl rfl hdev
  · rw [if_neg hf]
    exact create_msaa_framebuffer_triple limits driver _ ⟨rfl, rfl, rfl⟩ hdriver

theorem set_msaa_triple (limits : Ren3dLimits) (driver : GlDriver) (aa_value : Int)
    (dev : Ren3dGlDevice) (hdev : dev.triple_ok)
    (hdriver : driver.color_rb.isSome = true →
      driver.depth_rb.isSome = true ∧ driver.fbo.isSome = true) :
    (set_msaa limits driver aa_value dev).2.triple_ok := by
  unfold set_msaa
  rw [(rethrow_in_error "set_msaa" _).2.1]
  by_cases hr : dev.is_msaa_requires_restart_ = true
  · rw [if_pos hr]
    exact hdev
  rw [if_neg hr]
  by_cases ha : (!dev.is_framebuffer_available_) = true
  · rw [if_pos ha]
    exact hdev
  rw [if_neg ha]
  by_cases hs : dev.aa_kind_ = Ren3dAaKind.ms ∧ dev.aa_value_ = aa_value
  · rw [if_pos hs]
    exact hdev
  rw [if_neg hs]
  exact create_framebuffers_triple limits driver _ ⟨rfl, rfl, rfl⟩ hdriver

theorem set_anti_aliasing_triple (limits : Ren3dLimits) (driver : GlDriver)
    (aa_kind : Ren3dAaKind) (aa_value : Int) (dev : Ren3dGlDevice) (hdev : dev.triple_ok)
    (hdriver : driver.color_rb.isSome = true →
      driver.depth_rb.isSome = true ∧ driver.fbo.isSome = true) :
    (set_anti_aliasing limits driver aa_kind aa_value dev).2.triple_ok := by
  unfold set_anti_aliasing
  rw [(rethrow_in_error "set_anti_aliasing" _).2.1]
  cases aa_kind with
  | none => exact disable_aa_triple limits driver dev hdev hdriver
  | ms => exact set_msaa_triple limits driver _ dev hdev hdriver
  | invalid => exact hdev

theorem set_window_mode_triple (limits : Ren3dLimits) (driver : GlDriver)
    (width_ height_ : Int) (dev : Ren3dGlDevice) (hdev : dev.triple_ok)
    (hdriver : driver.color_rb.isSome = true →
      driver.depth_rb.isSome = true ∧ driver.fbo.isSome = true) :
    (set_window_mode limits driver width_ height_ dev).2.triple_ok := by
  unfold set_window_mode
  rw [(rethrow_in_error "set_window_mode" _).2.1]
  cases Ren3dUtils.set_window_mode driver.window_ok width_ height_ with
  | error e => exact hdev
  | ok u =>
    dsimp only
    split
    · exact create_msaa_framebuffer_triple limits driver _ ⟨rfl, rfl, rfl⟩ hdriver
    · exact triple_ok_of_handles _ dev rfl rfl rfl hdev

theorem run_calls_triple (limits : Ren3dLimits) (calls : List (DeviceCall × GlDriver)) :
    ∀ dev : Ren3dGlDevice, dev.triple_ok →
      (∀ cd ∈ calls, cd.2.color_rb.isSome = true →
        cd.2.depth_rb.isSome = true ∧ cd.2.fbo.isSome = true) →
      (run_calls limits calls dev).triple_ok := by
  induction calls with
  | nil => intro dev hdev _; exact hdev
  | cons cd rest ih =>
    intro dev hdev hdrivers
    obtain ⟨call, driver⟩ := cd
    have hd := hdrivers (call, driver) (List.mem_cons_self _ _)
    have hrest : ∀ cd ∈ rest, cd.2.color_rb.isSome = true →
        cd.2.depth_rb.isSome = true ∧ cd.2.fbo.isSome = true :=
      fun cd hcd => hdrivers cd (List.mem_cons_of_mem _ hcd)
    show (run_calls limits rest (call.run limits driver dev).2).triple_ok
    apply ih _ _ hrest
    cases call with
    | set_anti_aliasing aa_kind aa_value =>
      exact set_anti_aliasing_triple limits driver aa_kind aa_value dev hdev hd
    | set_window_mode width_ height_ =>
      exact set_window_mode_triple limits driver width_ height_ dev hdev hd

/-- Claim C20, as amended. Let the constructor have created the framebuffers
(from empty handles, without an exception). Then after any sequence of
`set_anti_aliasing` and `set_window_mode` calls in which the driver, whenever
it yields a colour renderbuffer, also yields a depth renderbuffer and a
framebuffer object during the same call, the three handles `msaa_fbo_`,
`msaa_color_rb_` and `msaa_depth_rb_` are all non-empty or all empty; the
calls may fail for any other reason. -/
theorem msaa_triple_invariant (limits : Ren3dLimits) (driver0 : GlDriver)
    (dev0 : Ren3dGlDevice) (calls : List (DeviceCall × GlDriver))
    (hempty : dev0.msaa_fbo_ = none ∧ dev0.msaa_color_rb_ = none ∧ dev0.msaa_depth_rb_ = none)
    (hcons : (create_framebuffers limits driver0 dev0).1 = Except.ok ())
    (hdrivers : ∀ cd ∈ calls, cd.2.color_rb.isSome = true →
      cd.2.depth_rb.isSome = true ∧ cd.2.fbo.isSome = true) :
    (run_calls limits calls (create_framebuffers limits driver0 dev0).2).triple_ok :=
  run_calls_triple limits calls _
    (create_framebuffers_ok_triple limits driver0 dev0 hempty hcons) hdrivers

/-- Claim C20, as amended, on `sample_device`: anti-aliasing is switched to
four samples, the window is resized, switching anti-aliasing off fails
because no renderbuffer can be created, and the window is resized again. -/
theorem msaa_triple_invariant_witness :
    (sample_device_init.msaa_fbo_ = none ∧ sample_device_init.msaa_color_rb_ = none ∧
      sample_device_init.msaa_depth_rb_ = none) ∧
    (create_framebuffers sample_limits sample_driver_init sample_device_init).1
      = Except.ok () ∧
    (run_calls sample_limits
      [(DeviceCall.set_anti_aliasing Ren3dAaKind.ms 4, sample_driver),
        (DeviceCall.set_window_mode 800 600, sample_driver),
        (DeviceCall.set_anti_aliasing Ren3dAaKind.none 0, sample_driver_no_rb),
        (DeviceCall.set_window_mode 640 480, sample_driver)]
      (create_framebuffers sample_limits sample_driver_init
        sample_device_init).2).triple_ok :=
  ⟨⟨rfl, rfl, rfl⟩, rfl,
    msaa_triple_invariant sample_limits sample_driver_init sample_device_init _
      ⟨rfl, rfl, rfl⟩ rfl (by decide)⟩

/-- Claim C20 fails as stated: on the constructed `sample_device`, a
`set_anti_aliasing(ms, 4)` call during which the colour renderbuffer is
created and the creation of the depth renderbuffer fails throws, and leaves
`msaa_color_rb_` non-empty with `msaa_depth_rb_` and `msaa_fbo_` empty. -/
theorem msaa_triple_partial :
    (sample_device_init.msaa_fbo_ = none ∧ sample_device_init.msaa_color_rb_ = none ∧
      sample_device_init.msaa_depth_rb_ = none) ∧
    (create_framebuffers sample_limits sample_driver_init sample_device_init).1
      = Except.ok () ∧
    sample_device.triple_ok ∧
    (DeviceCall.run sample_limits (DeviceCall.set_anti_aliasing Ren3dAaKind.ms 4)
        sample_driver_no_depth sample_device).1 =
      Except.error ["set_anti_aliasing", "set_msaa", "create_framebuffers",
        "create_msaa_framebuffer", "create_msaa_depth_rb", "create_renderbuffer",
        "create_renderbuffer", "Failed to create OpenGL renderbuffer object."] ∧
    (run_calls sample_limits
      [(DeviceCall.set_anti_aliasing Ren3dAaKind.ms 4, sample_driver_no_depth)]
      sample_device).msaa_color_rb_ = some 1 ∧
    (run_calls sample_limits
      [(DeviceCall.set_anti_aliasing Ren3dAaKind.ms 4, sample_driver_no_depth)]
      sample_device).msaa_depth_rb_ = none ∧
    (run_calls sample_limits
      [(DeviceCall.set_anti_aliasing Ren3dAaKind.ms 4, sample_driver_no_depth)]
      sample_device).msaa_fbo_ = none ∧
    ¬ (run_calls sample_limits
      [(DeviceCall.set_anti_aliasing Ren3dAaKind.ms 4, sample_driver_no_depth)]
      sample_device).triple_ok :=
  ⟨⟨rfl, rfl, rfl⟩, rfl, Or.inl ⟨rfl, rfl, rfl⟩, rfl, rfl, rfl, rfl, by
    intro h
    rcases h with ⟨h1, _, _⟩ | ⟨_, h2, _⟩
    · cases h1
    · cases h2⟩

end Ren3dGl

namespace Ren3dGl

/-! ### Anti-aliasing when a restart is required -/

/-- Claim C21, as amended. When the device features report
`is_msaa_requires_restart_`, `set_anti_aliasing` with a kind other than `none`
fails and leaves the device as it is, whatever the degree; for the kind `ms`
the failure is "Requires restart." of `set_msaa`. -/
theorem set_anti_aliasing_restart (limits : Ren3dLimits) (driver : GlDriver)
    (aa_kind : Ren3dAaKind) (aa_value : Int) (dev : Ren3dGlDevice)
    (hrestart : dev.is_msaa_requires_restart_ = true)
    (hkind : aa_kind ≠ Ren3dAaKind.none) :
    (∃ e, (set_anti_aliasing limits driver aa_kind aa_value dev).1 = Except.error e) ∧
    (set_anti_aliasing limits driver aa_kind aa_value dev).2 = dev ∧
    (aa_kind = Ren3dAaKind.ms →
      (set_anti_aliasing limits driver aa_kind aa_value dev).1 =
        Except.error ["set_anti_aliasing", "set_msaa", "Requires restart."]) := by
  cases aa_kind with
  | none => exact absurd rfl hkind
  | invalid => exact ⟨⟨_, rfl⟩, rfl, fun h => by cases h⟩
  | ms =>
    have h : set_anti_aliasing limits driver Ren3dAaKind.ms aa_value dev =
        (Except.error ["set_anti_aliasing", "set_msaa", "Requires restart."], dev) := by
      unfold set_anti_aliasing set_msaa
      dsimp only
      rw [if_pos hrestart]
      rfl
    rw [h]
    exact ⟨⟨_, rfl⟩, rfl, fun _ => rfl⟩

/-- Claim C21, as amended, on `sample_device_restart` and the request of
eight samples. -/
theorem set_anti_aliasing_restart_witness :
    (∃ e, (set_anti_aliasing sample_limits sample_driver Ren3dAaKind.ms 8
      sample_device_restart).1 = Except.error e) ∧
    (set_anti_aliasing sample_limits sample_driver Ren3dAaKind.ms 8 sample_device_restart).2
      = sample_device_restart ∧
    (Ren3dAaKind.ms = Ren3dAaKind.ms →
      (set_anti_aliasing sample_limits sample_driver Ren3dAaKind.ms 8
          sample_device_restart).1 =
        Except.error ["set_anti_aliasing", "set_msaa", "Requires restart."]) :=
  set_anti_aliasing_restart sample_limits sample_driver Ren3dAaKind.ms 8 sample_device_restart
    rfl (by decide)

/-- Claim C21 fails as stated: on `sample_device_restart`, whose features
report `is_msaa_requires_restart_`, `set_anti_aliasing(none, 0)` succeeds,
changes `aa_kind_` from `ms` to `none` and rebuilds the MSAA framebuffer with
one sample. -/
theorem set_anti_aliasing_none_restart :
    sample_device_restart.is_msaa_requires_restart_ = true ∧
    sample_device_restart.aa_kind_ = Ren3dAaKind.ms ∧
    (set_anti_aliasing sample_limits sample_driver Ren3dAaKind.none 0
      sample_device_restart).1 = Except.ok () ∧
    (set_anti_aliasing sample_limits sample_driver Ren3dAaKind.none 0
      sample_device_restart).2.aa_kind_ = Ren3dAaKind.none ∧
    (set_anti_aliasing sample_limits sample_driver Ren3dAaKind.none 0
      sample_device_restart).2.msaa_color_rb_ = some 1 ∧
    sample_device_restart.msaa_color_rb_ = some 10 ∧
    (set_anti_aliasing sample_limits sample_driver Ren3dAaKind.none 0
      sample_device_restart).2.storage_calls =
        sample_device_restart.storage_calls ++
          [⟨1, GlInternalFormat.rgba8, 640, 480⟩,
            ⟨1, GlInternalFormat.depth_component, 640, 480⟩] :=
  ⟨rfl, rfl, rfl, rfl, rfl, rfl, by decide⟩

end Ren3dGl

namespace Ren3dGl

/-! ### What a failing submission has invoked -/

theorem backend_calls_invoke (s : SubmitState) (c : GlCall) (h : c.is_backend = false) :
    (s.invoke c).calls.filter GlCall.is_backend = s.calls.filter GlCall.is_backend := by
  simp [SubmitState.invoke, List.filter_append, h]

theorem submit_draw_indexed_error (param : Ren3dDrawIndexedParam) (s : SubmitState)
    (e : Ren3dUtilsException) (h : (submit_draw_indexed param s).1 = Except.error e) :
    (submit_draw_indexed param s).2.calls = s.calls ++ bindings_before e := by
  unfold submit_draw_indexed at h ⊢
  by_cases h1 : param.primitive_topology_ = Ren3dPrimitiveTopology.none
  · rw [if_pos h1] at h ⊢
    cases h
    simp [Ren3dUtils.throw_in, bindings_before]
  rw [if_neg h1] at h ⊢
  by_cases h2 : param.vertex_count_ < 0
  · rw [if_pos h2] at h ⊢
    cases h
    simp [Ren3dUtils.throw_in, bindings_before]
  rw [if_neg h2] at h ⊢
  by_cases h3 : param.vertex_count_ = 0
  · rw [if_pos h3] at h
    cases h
  rw [if_neg h3] at h ⊢
  by_cases h4 : ¬ (param.index_byte_depth_ = 1 ∨ param.index_byte_depth_ = 2 ∨
      param.index_byte_depth_ = 4)
  · rw [if_pos h4] at h ⊢
    cases h
    simp [Ren3dUtils.throw_in, bindings_before]
  rw [if_neg h4] at h ⊢
  by_cases h5 : param.index_buffer_offset_ < 0
  · rw [if_pos h5] at h ⊢
    cases h
    simp [Ren3dUtils.throw_in, bindings_before]
  rw [if_neg h5] at h ⊢
  by_cases h6 : param.index_offset_ < 0
  · rw [if_pos h6] at h ⊢
    cases h
    simp [Ren3dUtils.throw_in, bindings_before]
  rw [if_neg h6] at h ⊢
  cases hv : s.vertex_input_ with
  | none =>
    rw [hv] at h
    cases h
    simp [Ren3dUtils.throw_in, bindings_before]
  | some vertex_input =>
    rw [hv] at h
    cases hi : vertex_input.index_buffer_ with
    | none =>
      dsimp only at h ⊢
      rw [hi] at h ⊢
      cases h
      simp [Ren3dUtils.throw_in, bindings_before, SubmitState.invoke, Ren3dUtils.fail_nested,
        Ren3dUtils.fail]
    | some b =>
      dsimp only at h
      rw [hi] at h
      cases h

theorem bindings_before_backend (e : Ren3dUtilsException) :
    (bindings_before e).filter GlCall.is_backend = bindings_before e := by
  unfold bindings_before
  split <;> rfl

theorem submit_set_uniform_error (func : String) (command : Ren3dCmd) (var_ : Option Nat)
    (s : SubmitState) (e : Ren3dUtilsException)
    (h : (submit_set_uniform func command var_ s).1 = Except.error e) :
    (submit_set_uniform func command var_ s).2 = s ∧ bindings_before e = [] := by
  cases var_ with
  | some v => cases h
  | none =>
    cases h
    refine ⟨rfl, ?_⟩
    simp [bindings_before]

theorem submit_command_error (command : Ren3dCmd) (s : SubmitState)
    (e : Ren3dUtilsException) (h : (submit_command command s).1 = Except.error e) :
    (submit_command command s).2.calls.filter GlCall.is_backend =
      s.calls.filter GlCall.is_backend ++ bindings_before e := by
  cases command with
  | draw_indexed param =>
    have hd := submit_draw_indexed_error param s e h
    show (submit_draw_indexed param s).2.calls.filter GlCall.is_backend = _
    rw [hd, List.filter_append, bindings_before_backend]
  | unsupported command_id =>
    cases h
    simp [submit_command, bindings_before, Ren3dUtils.fail]
  | set_int32_uniform var_ =>
    obtain ⟨h1, h2⟩ := submit_set_uniform_error _ _ var_ s e h
    show (submit_set_uniform _ _ var_ s).2.calls.filter GlCall.is_backend = _
    rw [h1, h2, List.append_nil]
  | set_float32_uniform var_ =>
    obtain ⟨h1, h2⟩ := submit_set_uniform_error _ _ var_ s e h
    show (submit_set_uniform _ _ var_ s).2.calls.filter GlCall.is_backend = _
    rw [h1, h2, List.append_nil]
  | set_vec2_uniform var_ =>
    obtain ⟨h1, h2⟩ := submit_set_uniform_error _ _ var_ s e h
    show (submit_set_uniform _ _ var_ s).2.calls.filter GlCall.is_backend = _
    rw [h1, h2, List.append_nil]
  | set_vec4_uniform var_ =>
    obtain ⟨h1, h2⟩ := submit_set_uniform_error _ _ var_ s e h
    show (submit_set_uniform _ _ var_ s).2.calls.filter GlCall.is_backend = _
    rw [h1, h2, List.append_nil]
  | set_mat4_uniform var_ =>
    obtain ⟨h1, h2⟩ := submit_set_uniform_error _ _ var_ s e h
    show (submit_set_uniform _ _ var_ s).2.calls.filter GlCall.is_backend = _
    rw [h1, h2, List.append_nil]
  | set_sampler_2d_uniform var_ =>
    obtain ⟨h1, h2⟩ := submit_set_uniform_error _ _ var_ s e h
    show (submit_set_uniform _ _ var_ s).2.calls.filter GlCall.is_backend = _
    rw [h1, h2, List.append_nil]
  | _ => cases h

theorem submit_buffer_commands_cons (i : Nat) (command : Ren3dCmd) (rest : List Ren3dCmd)
    (s : SubmitState) (h : ∀ command_id, command ≠ Ren3dCmd.unsupported command_id) :
    submit_buffer_commands i (command :: rest) s =
      match submit_command command
          ((s.invoke (GlCall.read_command_id i)).invoke (GlCall.read_command i)) with
      | (Except.ok (), s2) => submit_buffer_commands i rest s2
      | (Except.error e, s2) => (Except.error e, s2) := by
  cases command <;> first | rfl | exact absurd rfl (h _)

/-- A buffer whose reading throws: the commands ahead of the failing one were
carried out without an exception, and the failing command has invoked nothing
of the backend but the bindings of a draw without index buffer. -/
theorem submit_buffer_commands_error (i : Nat) :
    ∀ (commands : List Ren3dCmd) (s : SubmitState) (e : Ren3dUtilsException),
      (submit_buffer_commands i commands s).1 = Except.error e →
      ∃ (pre : List Ren3dCmd) (command : Ren3dCmd) (rest : List Ren3dCmd)
        (s_pre : SubmitState),
        commands = pre ++ command :: rest ∧
        submit_buffer_commands i pre s = (Except.ok (), s_pre) ∧
        (submit_buffer_commands i commands s).2.calls.filter GlCall.is_backend =
          s_pre.calls.filter GlCall.is_backend ++ bindings_before e := by
  intro commands
  induction commands with
  | nil =>
    intro s e h
    cases h
  | cons command rest ih =>
    intro s e h
    by_cases hu : ∃ command_id, command = Ren3dCmd.unsupported command_id
    · obtain ⟨command_id, rfl⟩ := hu
      cases h
      refine ⟨[], _, rest, s, rfl, rfl, ?_⟩
      show (s.invoke (GlCall.read_command_id i)).calls.filter GlCall.is_backend = _
      rw [backend_calls_invoke s (GlCall.read_command_id i) rfl]
      simp [bindings_before, Ren3dUtils.fail]
    · have hu2 : ∀ command_id, command ≠ Ren3dCmd.unsupported command_id :=
        fun command_id hc => hu ⟨command_id, hc⟩
      rw [submit_buffer_commands_cons i command rest s hu2] at h ⊢
      cases hr : submit_command command
          ((s.invoke (GlCall.read_command_id i)).invoke (GlCall.read_command i)) with
      | mk r s2 =>
        cases r with
        | ok u =>
          rw [hr] at h
          dsimp only at h ⊢
          obtain ⟨pre, c, rest2, s_pre, h1, h2, h3⟩ := ih s2 e h
          refine ⟨command :: pre, c, rest2, s_pre, by rw [h1]; rfl, ?_, h3⟩
          rw [submit_buffer_commands_cons i command pre s hu2, hr]
          exact h2
        | error e0 =>
          rw [hr] at h
          dsimp only at h ⊢
          cases h
          refine ⟨[], command, rest, s, rfl, rfl, ?_⟩
          have ha := submit_command_error command
            ((s.invoke (GlCall.read_command_id i)).invoke (GlCall.read_command i)) e
            (by rw [hr])
          rw [hr] at ha
          dsimp only at ha
          rw [ha, backend_calls_invoke _ (GlCall.read_command i) rfl,
            backend_calls_invoke _ (GlCall.read_command_id i) rfl]

/-- A loop that has thrown did so in an iteration `i` below its bound, after
the iterations before `i` had completed. -/
theorem for_loop_try_error {σ : Type}
    (body : Nat → σ → Except Ren3dUtilsException Unit × σ) (s : σ) (n : Nat)
    (e : Ren3dUtilsException) (h : (for_loop_try n body s).1 = Except.error e) :
    ∃ (i : Nat) (s_i : σ), i < n ∧ for_loop_try i body s = (Except.ok (), s_i) ∧
      body i s_i = for_loop_try n body s := by
  induction n with
  | zero => cases h
  | succ n ih =>
    rw [for_loop_try_succ] at h ⊢
    cases hr : for_loop_try n body s with
    | mk r s2 =>
      rw [hr] at h ih
      cases r with
      | ok u => exact ⟨n, s2, by omega, hr, rfl⟩
      | error e0 =>
        dsimp only at h ⊢
        obtain ⟨i, s_i, hi, h1, h2⟩ := ih h
        exact ⟨i, s_i, by omega, h1, h2⟩

theorem bindings_before_cons (e : Ren3dUtilsException) :
    bindings_before ("submit_commands" :: e) = bindings_before e := by
  cases e with
  | nil => simp [bindings_before]
  | cons a rest => simp [bindings_before, List.getLast?_cons_cons]

theorem submit_buffer_error (i : Nat) (command_buffer : Option Ren3dCmdBuffer)
    (s : SubmitState) (e : Ren3dUtilsException)
    (h : (submit_buffer i command_buffer s).1 = Except.error e) :
    ∃ pre : List Ren3dCmd,
      ((command_buffer = none ∧ pre = []) ∨
        ∃ command rest, command_buffer = some ⟨true, pre ++ command :: rest⟩) ∧
      (submit_buffer i (some ⟨true, pre⟩) s).1 = Except.ok () ∧
      (submit_buffer i command_buffer s).2.calls.filter GlCall.is_backend =
        (submit_buffer i (some ⟨true, pre⟩) s).2.calls.filter GlCall.is_backend ++
          bindings_before e := by
  cases command_buffer with
  | none =>
    cases h
    refine ⟨[], Or.inl ⟨rfl, rfl⟩, rfl, ?_⟩
    show s.calls.filter GlCall.is_backend =
      ((s.invoke (GlCall.begin_read i)).invoke (GlCall.end_read i)).calls.filter
        GlCall.is_backend ++ _
    rw [backend_calls_invoke _ (GlCall.end_read i) rfl,
      backend_calls_invoke _ (GlCall.begin_read i) rfl]
    simp [bindings_before, Ren3dUtils.fail]
  | some buffer =>
    obtain ⟨is_enabled_, commands_⟩ := buffer
    cases is_enabled_ with
    | false => cases h
    | true =>
      have hsb : ∀ commands : List Ren3dCmd,
          submit_buffer i (some ⟨true, commands⟩) s =
            match submit_buffer_commands i commands (s.invoke (GlCall.begin_read i)) with
            | (Except.ok (), s2) => (Except.ok (), s2.invoke (GlCall.end_read i))
            | (Except.error e, s2) => (Except.error e, s2) := fun _ => rfl
      rw [hsb] at h ⊢
      cases hr : submit_buffer_commands i commands_ (s.invoke (GlCall.begin_read i)) with
      | mk r s2 =>
        rw [hr] at h
        cases r with
        | ok u => cases h
        | error e0 =>
          dsimp only at h ⊢
          cases h
          obtain ⟨pre, command, rest, s_pre, h1, h2, h3⟩ :=
            submit_buffer_commands_error i commands_ (s.invoke (GlCall.begin_read i)) e
              (by rw [hr])
          rw [hr] at h3
          dsimp only at h3
          refine ⟨pre, Or.inr ⟨command, rest, by rw [h1]⟩, ?_, ?_⟩
          · rw [hsb, h2]
          · rw [hsb, h2, h3]
            dsimp only
            rw [backend_calls_invoke _ (GlCall.end_read i) rfl]

/-- Claim C22, as amended. When `submit_commands` fails, either nothing was
invoked, or the failure is at the entry `i` of the array, a null entry or
the command that follows the commands `pre` of an enabled buffer: then the
submission of the entries before `i` and of `pre` succeeds, and the context
and backend operations performed by the failing call are those of that
submission, followed, when the innermost message is "Null index buffer.", by
the bindings of the vertex input, the shader stage, the sampler and the
texture of the failing draw. -/
theorem submit_commands_error_calls
    (command_buffers : Option (Int → Option Ren3dCmdBuffer)) (command_buffer_count : Int)
    (s : SubmitState) (e : Ren3dUtilsException)
    (h : (submit_commands command_buffers command_buffer_count s).1 = Except.error e) :
    (submit_commands command_buffers command_buffer_count s).2 = s ∨
    ∃ (arr : Int → Option Ren3dCmdBuffer) (i : Nat) (pre : List Ren3dCmd),
      command_buffers = some arr ∧ (i : Int) < command_buffer_count ∧
      ((arr (i : Int) = none ∧ pre = []) ∨
        ∃ command rest, arr (i : Int) = some ⟨true, pre ++ command :: rest⟩) ∧
      (submit_commands (some (Ren3dUtils.mem_write arr (i : Int) (some ⟨true, pre⟩)))
        ((i + 1 : Nat) : Int) s).1 = Except.ok () ∧
      (submit_commands command_buffers command_buffer_count s).2.calls.filter
          GlCall.is_backend =
        (submit_commands (some (Ren3dUtils.mem_write arr (i : Int) (some ⟨true, pre⟩)))
          ((i + 1 : Nat) : Int) s).2.calls.filter GlCall.is_backend ++ bindings_before e := by
  by_cases hneg : command_buffer_count < 0
  · left
    unfold submit_commands
    rw [if_pos hneg]
    rfl
  cases command_buffers with
  | none =>
    left
    unfold submit_commands
    rw [if_neg hneg]
    by_cases hpos : command_buffer_count > 0
    · rw [if_pos ⟨hpos, rfl⟩]
      rfl
    · have h0 : command_buffer_count.toNat = 0 := by omega
      rw [if_neg (fun hc => hpos hc.1), h0]
      rfl
  | some arr =>
    right
    obtain ⟨n, rfl⟩ := Int.eq_ofNat_of_zero_le (not_lt.1 hneg)
    rw [submit_commands_eq] at h ⊢
    cases hr : for_loop_try n (fun i s => submit_buffer i (arr (i : Int)) s) s with
    | mk r s2 =>
      rw [hr] at h
      cases r with
      | ok u => cases h
      | error e0 =>
        cases h
        obtain ⟨i, s_i, hi, h1, h2⟩ := for_loop_try_error
          (fun i s => submit_buffer i (arr (i : Int)) s) s n e0 (by rw [hr])
        rw [hr] at h2
        obtain ⟨pre, hpre, hok, hcalls⟩ := submit_buffer_error i (arr (i : Int)) s_i e0
          (by rw [h2])
        rw [h2] at hcalls
        dsimp only at hcalls
        have hcut : for_loop_try (i + 1)
            (fun j s => submit_buffer j
              (Ren3dUtils.mem_write arr (i : Int) (some ⟨true, pre⟩) (j : Int)) s) s =
            submit_buffer i (some ⟨true, pre⟩) s_i := by
          rw [for_loop_try_succ]
          rw [for_loop_try_congr _ (fun i s => submit_buffer i (arr (i : Int)) s) i ?_ s, h1]
          · simp [Ren3dUtils.mem_write]
          · intro j hj s3
            have hne : ¬ ((j : Int) = (i : Int)) := by omega
            simp only [Ren3dUtils.mem_write, if_neg hne]
        refine ⟨arr, i, pre, rfl, by omega, hpre, ?_, ?_⟩
        · rw [submit_commands_eq, hcut]
          exact (rethrow_in_error _ _).2.2 hok
        · rw [submit_commands_eq, hcut, (rethrow_in_error _ _).2.1,
            (rethrow_in_error _ _).2.1]
          show s2.calls.filter GlCall.is_backend = _
          rw [hcalls]
          have hb : bindings_before (("submit_commands" : String) :: e0) = bindings_before e0 :=
            bindings_before_cons e0
          exact congrArg _ hb.symm

/-- Claim C22, as amended, on `sample_draw_buffers` with a current vertex
input without index buffer: the submission fails at the draw that follows
`clear`, and has performed `clear` and the four bindings of the draw. -/
theorem submit_commands_error_calls_witness :
    (submit_commands (some sample_draw_buffers) 1 sample_state_no_index).1 =
      Except.error ["submit_commands", "submit_draw_indexed", "Null index buffer."] ∧
    ((submit_commands (some sample_draw_buffers) 1 sample_state_no_index).2 =
        sample_state_no_index ∨
      ∃ (arr : Int → Option Ren3dCmdBuffer) (i : Nat) (pre : List Ren3dCmd),
        some sample_draw_buffers = some arr ∧ (i : Int) < 1 ∧
        ((arr (i : Int) = none ∧ pre = []) ∨
          ∃ command rest, arr (i : Int) = some ⟨true, pre ++ command :: rest⟩) ∧
        (submit_commands (some (Ren3dUtils.mem_write arr (i : Int) (some ⟨true, pre⟩)))
          ((i + 1 : Nat) : Int) sample_state_no_index).1 = Except.ok () ∧
        (submit_commands (some sample_draw_buffers) 1 sample_state_no_index).2.calls.filter
            GlCall.is_backend =
          (submit_commands (some (Ren3dUtils.mem_write arr (i : Int) (some ⟨true, pre⟩)))
            ((i + 1 : Nat) : Int) sample_state_no_index).2.calls.filter GlCall.is_backend ++
            bindings_before ["submit_commands", "submit_draw_indexed", "Null index buffer."]) :=
  ⟨rfl, submit_commands_error_calls (some sample_draw_buffers) 1 sample_state_no_index
    ["submit_commands", "submit_draw_indexed", "Null index buffer."] rfl⟩

/-- Claim C22 fails as stated: the submission of `sample_draw_buffers` with a
current vertex input without index buffer fails with "Null index buffer."
after it has performed `clear` and has set the vertex input, the shader stage,
the sampler and the texture for the failing draw. -/
theorem submit_commands_null_index_buffer :
    (submit_commands (some sample_draw_buffers) 1 sample_state_no_index).1 =
      Except.error ["submit_commands", "submit_draw_indexed", "Null index buffer."] ∧
    (submit_commands (some sample_draw_buffers) 1 sample_state_no_index).2.calls =
      [GlCall.begin_read 0, GlCall.read_command_id 0, GlCall.read_command 0,
        GlCall.context Ren3dCmd.clear, GlCall.read_command_id 0, GlCall.read_command 0,
        GlCall.vertex_input_set, GlCall.shader_stage_set, GlCall.sampler_set,
        GlCall.texture_set] ∧
    (submit_commands (some sample_draw_buffers) 1 sample_state_no_index).2.calls.filter
        GlCall.is_backend =
      [GlCall.context Ren3dCmd.clear, GlCall.vertex_input_set, GlCall.shader_stage_set,
        GlCall.sampler_set, GlCall.texture_set] :=
  ⟨rfl, rfl, rfl⟩

end Ren3dGl

namespace Ren3dUtils

/-! ### Averaging and transparency -/

theorem to_uint8_val (x : Nat) (h : x ≤ 255) : (to_uint8 x).val = x := by
  unfold to_uint8
  exact Nat.mod_eq_of_lt (by omega)

theorem uint8_le (c : uint8_t) : c.val ≤ 255 := by
  have := c.isLt
  omega

/-- The quotient `(sum * a_sum) / (255 * n * n)` of `n` channel values is at
most the averaged alpha `a_sum / n`. -/
theorem average_pa_quotient_le (sum a_sum n : Nat) (hn : 0 < n) (hsum : sum ≤ 255 * n) :
    (sum * a_sum) / (255 * n * n) ≤ a_sum / n := by
  have h1 : sum * a_sum ≤ (255 * n) * a_sum := Nat.mul_le_mul_right _ hsum
  have h2 : ((255 * n) * a_sum) / ((255 * n) * n) = a_sum / n :=
    Nat.mul_div_mul_left a_sum n (by omega)
  calc (sum * a_sum) / (255 * n * n) ≤ ((255 * n) * a_sum) / (255 * n * n) :=
        Nat.div_le_div_right h1
    _ = a_sum / n := h2

/-- The channels of `average_pa` for two colours are the quotients, which fit
eight bits. -/
theorem average_pa_2_val (color_0 color_1 : Rgba8) :
    ((average_pa_2 color_0 color_1).r_.val =
        ((color_0.r_.val + color_1.r_.val) * (color_0.a_.val + color_1.a_.val))
          / (255 * 2 * 2)) ∧
    ((average_pa_2 color_0 color_1).g_.val =
        ((color_0.g_.val + color_1.g_.val) * (color_0.a_.val + color_1.a_.val))
          / (255 * 2 * 2)) ∧
    ((average_pa_2 color_0 color_1).b_.val =
        ((color_0.b_.val + color_1.b_.val) * (color_0.a_.val + color_1.a_.val))
          / (255 * 2 * 2)) ∧
    ((average_pa_2 color_0 color_1).a_.val = (color_0.a_.val + color_1.a_.val) / 2) ∧
    (color_0.a_.val + color_1.a_.val) / 2 ≤ 255 := by
  have ha0 := uint8_le color_0.a_
  have ha1 := uint8_le color_1.a_
  have hr0 := uint8_le color_0.r_
  have hr1 := uint8_le color_1.r_
  have hg0 := uint8_le color_0.g_
  have hg1 := uint8_le color_1.g_
  have hb0 := uint8_le color_0.b_
  have hb1 := uint8_le color_1.b_
  have hA : (color_0.a_.val + color_1.a_.val) / 2 ≤ 255 := by omega
  have hR := average_pa_quotient_le (color_0.r_.val + color_1.r_.val)
    (color_0.a_.val + color_1.a_.val) 2 (by decide) (by omega)
  have hG := average_pa_quotient_le (color_0.g_.val + color_1.g_.val)
    (color_0.a_.val + color_1.a_.val) 2 (by decide) (by omega)
  have hB := average_pa_quotient_le (color_0.b_.val + color_1.b_.val)
    (color_0.a_.val + color_1.a_.val) 2 (by decide) (by omega)
  unfold average_pa_2
  dsimp only
  exact ⟨to_uint8_val _ (le_trans hR hA), to_uint8_val _ (le_trans hG hA),
    to_uint8_val _ (le_trans hB hA), to_uint8_val _ hA, hA⟩

/-- The channels of `average_pa` for four colours are the quotients, which fit
eight bits. -/
theorem average_pa_4_val (color_0 color_1 color_2 color_3 : Rgba8) :
    ((average_pa_4 color_0 color_1 color_2 color_3).r_.val =
        ((color_0.r_.val + color_1.r_.val + color_2.r_.val + color_3.r_.val) *
          (color_0.a_.val + color_1.a_.val + color_2.a_.val + color_3.a_.val))
          / (255 * 4 * 4)) ∧
    ((average_pa_4 color_0 color_1 color_2 color_3).g_.val =
        ((color_0.g_.val + color_1.g_.val + color_2.g_.val + color_3.g_.val) *
          (color_0.a_.val + color_1.a_.val + color_2.a_.val + color_3.a_.val))
          / (255 * 4 * 4)) ∧
    ((average_pa_4 color_0 color_1 color_2 color_3).b_.val =
        ((color_0.b_.val + color_1.b_.val + color_2.b_.val + color_3.b_.val) *
          (color_0.a_.val + color_1.a_.val + color_2.a_.val + color_3.a_.val))
          / (255 * 4 * 4)) ∧
    ((average_pa_4 color_0 color_1 color_2 color_3).a_.val =
        (color_0.a_.val + color_1.a_.val + color_2.a_.val + color_3.a_.val) / 4) ∧
    (color_0.a_.val + color_1.a_.val + color_2.a_.val + color_3.a_.val) / 4 ≤ 255 := by
  have ha0 := uint8_le color_0.a_
  have ha1 := uint8_le color_1.a_
  have ha2 := uint8_le color_2.a_
  have ha3 := uint8_le color_3.a_
  have hr0 := uint8_le color_0.r_
  have hr1 := uint8_le color_1.r_
  have hr2 := uint8_le color_2.r_
  have hr3 := uint8_le color_3.r_
  have hg0 := uint8_le color_0.g_
  have hg1 := uint8_le color_1.g_
  have hg2 := uint8_le color_2.g_
  have hg3 := uint8_le color_3.g_
  have hb0 := uint8_le color_0.b_
  have hb1 := uint8_le color_1.b_
  have hb2 := uint8_le color_2.b_
  have hb3 := uint8_le color_3.b_
  have hA : (color_0.a_.val + color_1.a_.val + color_2.a_.val + color_3.a_.val) / 4 ≤ 255 := by
    omega
  have hR := average_pa_quotient_le
    (color_0.r_.val + color_1.r_.val + color_2.r_.val + color_3.r_.val)
    (color_0.a_.val + color_1.a_.val + color_2.a_.val + color_3.a_.val) 4 (by decide) (by omega)
  have hG := average_pa_quotient_le
    (color_0.g_.val + color_1.g_.val + color_2.g_.val + color_3.g_.val)
    (color_0.a_.val + color_1.a_.val + color_2.a_.val + color_3.a_.val) 4 (by decide) (by omega)
  have hB := average_pa_quotient_le
    (color_0.b_.val + color_1.b_.val + color_2.b_.val + color_3.b_.val)
    (color_0.a_.val + color_1.a_.val + color_2.a_.val + color_3.a_.val) 4 (by decide) (by omega)
  unfold average_pa_4
  dsimp only
  exact ⟨to_uint8_val _ (le_trans hR hA), to_uint8_val _ (le_trans hG hA),
    to_uint8_val _ (le_trans hB hA), to_uint8_val _ hA, hA⟩

theorem average_pa_2_le (color_0 color_1 : Rgba8) :
    (average_pa_2 color_0 color_1).r_ ≤ (average_pa_2 color_0 color_1).a_ ∧
    (average_pa_2 color_0 color_1).g_ ≤ (average_pa_2 color_0 color_1).a_ ∧
    (average_pa_2 color_0 color_1).b_ ≤ (average_pa_2 color_0 color_1).a_ := by
  obtain ⟨hr, hg, hb, ha, _⟩ := average_pa_2_val color_0 color_1
  have hr0 := uint8_le color_0.r_
  have hr1 := uint8_le color_1.r_
  have hg0 := uint8_le color_0.g_
  have hg1 := uint8_le color_1.g_
  have hb0 := uint8_le color_0.b_
  have hb1 := uint8_le color_1.b_
  refine ⟨Fin.le_def.2 ?_, Fin.le_def.2 ?_, Fin.le_def.2 ?_⟩
  · rw [hr, ha]
    exact average_pa_quotient_le _ _ 2 (by decide) (by omega)
  · rw [hg, ha]
    exact average_pa_quotient_le _ _ 2 (by decide) (by omega)
  · rw [hb, ha]
    exact average_pa_quotient_le _ _ 2 (by decide) (by omega)

theorem average_pa_4_le (color_0 color_1 color_2 color_3 : Rgba8) :
    (average_pa_4 color_0 color_1 color_2 color_3).r_ ≤
      (average_pa_4 color_0 color_1 color_2 color_3).a_ ∧
    (average_pa_4 color_0 color_1 color_2 color_3).g_ ≤
      (average_pa_4 color_0 color_1 color_2 color_3).a_ ∧
    (average_pa_4 color_0 color_1 color_2 color_3).b_ ≤
      (average_pa_4 color_0 color_1 color_2 color_3).a_ := by
  obtain ⟨hr, hg, hb, ha, _⟩ := average_pa_4_val color_0 color_1 color_2 color_3
  have hr0 := uint8_le color_0.r_
  have hr1 := uint8_le color_1.r_
  have hr2 := uint8_le color_2.r_
  have hr3 := uint8_le color_3.r_
  have hg0 := uint8_le color_0.g_
  have hg1 := uint8_le color_1.g_
  have hg2 := uint8_le color_2.g_
  have hg3 := uint8_le color_3.g_
  have hb0 := uint8_le color_0.b_
  have hb1 := uint8_le color_1.b_
  have hb2 := uint8_le color_2.b_
  have hb3 := uint8_le color_3.b_
  refine ⟨Fin.le_def.2 ?_, Fin.le_def.2 ?_, Fin.le_def.2 ?_⟩
  · rw [hr, ha]
    exact average_pa_quotient_le _ _ 4 (by decide) (by omega)
  · rw [hg, ha]
    exact average_pa_quotient_le _ _ 4 (by decide) (by omega)
  · rw [hb, ha]
    exact average_pa_quotient_le _ _ 4 (by decide) (by omega)

theorem average_pa_2_zero (color_0 color_1 : Rgba8) (h0 : color_0.a_ = 0)
    (h1 : color_1.a_ = 0) : average_pa_2 color_0 color_1 = ⟨0, 0, 0, 0⟩ := by
  unfold average_pa_2
  simp [h0, h1, to_uint8]

theorem average_pa_4_zero (color_0 color_1 color_2 color_3 : Rgba8) (h0 : color_0.a_ = 0)
    (h1 : color_1.a_ = 0) (h2 : color_2.a_ = 0) (h3 : color_3.a_ = 0) :
    average_pa_4 color_0 color_1 color_2 color_3 = ⟨0, 0, 0, 0⟩ := by
  unfold average_pa_4
  simp [h0, h1, h2, h3, to_uint8]

theorem average_pa_2_alpha (color_0 color_1 other_0 other_1 : Rgba8)
    (h0 : color_0.a_ = other_0.a_) (h1 : color_1.a_ = other_1.a_) :
    (average_pa_2 color_0 color_1).a_ = (average_pa_2 other_0 other_1).a_ := by
  unfold average_pa_2
  simp [h0, h1]

theorem average_pa_4_alpha (color_0 color_1 color_2 color_3 other_0 other_1 other_2
    other_3 : Rgba8)
    (h0 : color_0.a_ = other_0.a_) (h1 : color_1.a_ = other_1.a_)
    (h2 : color_2.a_ = other_2.a_) (h3 : color_3.a_ = other_3.a_) :
    (average_pa_4 color_0 color_1 color_2 color_3).a_ =
      (average_pa_4 other_0 other_1 other_2 other_3).a_ := by
  unfold average_pa_4
  simp [h0, h1, h2, h3]

/-- Claim C23, as amended. For the 2-sample and the 4-sample `average_pa`,
two inputs that differ only in the `r_`, `g_`, `b_` channels of source texels
whose alpha is 0 produce the same output alpha, and the same output texel
when all the source texels have alpha 0. -/
theorem average_pa_transparent :
    (∀ color_0 color_1 other_0 other_1 : Rgba8,
      color_0.same_visible other_0 → color_1.same_visible other_1 →
      (average_pa_2 color_0 color_1).a_ = (average_pa_2 other_0 other_1).a_ ∧
      (color_0.a_ = 0 → color_1.a_ = 0 →
        average_pa_2 color_0 color_1 = average_pa_2 other_0 other_1)) ∧
    (∀ color_0 color_1 color_2 color_3 other_0 other_1 other_2 other_3 : Rgba8,
      color_0.same_visible other_0 → color_1.same_visible other_1 →
      color_2.same_visible other_2 → color_3.same_visible other_3 →
      (average_pa_4 color_0 color_1 color_2 color_3).a_ =
        (average_pa_4 other_0 other_1 other_2 other_3).a_ ∧
      (color_0.a_ = 0 → color_1.a_ = 0 → color_2.a_ = 0 → color_3.a_ = 0 →
        average_pa_4 color_0 color_1 color_2 color_3 =
          average_pa_4 other_0 other_1 other_2 other_3)) := by
  refine ⟨fun c0 c1 d0 d1 h0 h1 => ⟨average_pa_2_alpha c0 c1 d0 d1 h0.1 h1.1, fun z0 z1 => ?_⟩,
    fun c0 c1 c2 c3 d0 d1 d2 d3 h0 h1 h2 h3 =>
      ⟨average_pa_4_alpha c0 c1 c2 c3 d0 d1 d2 d3 h0.1 h1.1 h2.1 h3.1,
        fun z0 z1 z2 z3 => ?_⟩⟩
  · rw [average_pa_2_zero c0 c1 z0 z1,
      average_pa_2_zero d0 d1 (h0.1 ▸ z0) (h1.1 ▸ z1)]
  · rw [average_pa_4_zero c0 c1 c2 c3 z0 z1 z2 z3,
      average_pa_4_zero d0 d1 d2 d3 (h0.1 ▸ z0) (h1.1 ▸ z1) (h2.1 ▸ z2) (h3.1 ▸ z3)]

/-- Claim C23, as amended, on two transparent texels of different colours. -/
theorem average_pa_transparent_witness :
    Rgba8.same_visible ⟨255, 0, 0, 0⟩ ⟨0, 0, 255, 0⟩ ∧
    Rgba8.same_visible ⟨0, 255, 0, 0⟩ ⟨0, 255, 0, 0⟩ ∧
    (average_pa_2 ⟨255, 0, 0, 0⟩ ⟨0, 255, 0, 0⟩).a_ =
      (average_pa_2 ⟨0, 0, 255, 0⟩ ⟨0, 255, 0, 0⟩).a_ ∧
    average_pa_2 ⟨255, 0, 0, 0⟩ ⟨0, 255, 0, 0⟩ = average_pa_2 ⟨0, 0, 255, 0⟩ ⟨0, 255, 0, 0⟩ :=
  ⟨⟨rfl, fun h => absurd rfl h⟩, ⟨rfl, fun _ => rfl⟩,
    (average_pa_transparent.1 ⟨255, 0, 0, 0⟩ ⟨0, 255, 0, 0⟩ ⟨0, 0, 255, 0⟩ ⟨0, 255, 0, 0⟩
      ⟨rfl, fun h => absurd rfl h⟩ ⟨rfl, fun _ => rfl⟩).1,
    (average_pa_transparent.1 ⟨255, 0, 0, 0⟩ ⟨0, 255, 0, 0⟩ ⟨0, 0, 255, 0⟩ ⟨0, 255, 0, 0⟩
      ⟨rfl, fun h => absurd rfl h⟩ ⟨rfl, fun _ => rfl⟩).2 rfl rfl⟩

/-- Claim C23 fails as stated: next to an opaque black texel, a fully
transparent texel with red 255 gives the output red 63 where a fully
transparent black texel gives 0; with three opaque black texels the
4-sample average gives red 47 where it gives 0. -/
theorem average_pa_bleeds :
    Rgba8.same_visible ⟨255, 0, 0, 0⟩ ⟨0, 0, 0, 0⟩ ∧
    Rgba8.same_visible ⟨0, 0, 0, 255⟩ ⟨0, 0, 0, 255⟩ ∧
    average_pa_2 ⟨255, 0, 0, 0⟩ ⟨0, 0, 0, 255⟩ = ⟨63, 0, 0, 127⟩ ∧
    average_pa_2 ⟨0, 0, 0, 0⟩ ⟨0, 0, 0, 255⟩ = ⟨0, 0, 0, 127⟩ ∧
    average_pa_4 ⟨255, 0, 0, 0⟩ ⟨0, 0, 0, 255⟩ ⟨0, 0, 0, 255⟩ ⟨0, 0, 0, 255⟩ =
      ⟨47, 0, 0, 191⟩ ∧
    average_pa_4 ⟨0, 0, 0, 0⟩ ⟨0, 0, 0, 255⟩ ⟨0, 0, 0, 255⟩ ⟨0, 0, 0, 255⟩ =
      ⟨0, 0, 0, 191⟩ :=
  ⟨⟨rfl, fun h => absurd rfl h⟩, ⟨rfl, fun _ => rfl⟩, by decide, by decide, by decide,
    by decide⟩

/-! ### Range of the averaged channels -/

/-- Claim C26. For all 8-bit input colours, each channel of the 2-sample and
of the 4-sample `average_pa` is the quotient computed in `int`, without
truncation by the cast to `uint8`, the averaged alpha is at most 255, each
of `r_`, `g_`, `b_` is at most the output alpha, and the output is
`(0, 0, 0, 0)` when all input alphas are 0. -/
theorem average_pa_premultiplied :
    (∀ color_0 color_1 : Rgba8,
      (((average_pa_2 color_0 color_1).r_.val =
          ((color_0.r_.val + color_1.r_.val) * (color_0.a_.val + color_1.a_.val))
            / (255 * 2 * 2)) ∧
        ((average_pa_2 color_0 color_1).g_.val =
          ((color_0.g_.val + color_1.g_.val) * (color_0.a_.val + color_1.a_.val))
            / (255 * 2 * 2)) ∧
        ((average_pa_2 color_0 color_1).b_.val =
          ((color_0.b_.val + color_1.b_.val) * (color_0.a_.val + color_1.a_.val))
            / (255 * 2 * 2)) ∧
        ((average_pa_2 color_0 color_1).a_.val = (color_0.a_.val + color_1.a_.val) / 2) ∧
        (color_0.a_.val + color_1.a_.val) / 2 ≤ 255) ∧
      ((average_pa_2 color_0 color_1).r_ ≤ (average_pa_2 color_0 color_1).a_ ∧
        (average_pa_2 color_0 color_1).g_ ≤ (average_pa_2 color_0 color_1).a_ ∧
        (average_pa_2 color_0 color_1).b_ ≤ (average_pa_2 color_0 color_1).a_) ∧
      (color_0.a_ = 0 → color_1.a_ = 0 → average_pa_2 color_0 color_1 = ⟨0, 0, 0, 0⟩)) ∧
    (∀ color_0 color_1 color_2 color_3 : Rgba8,
      (((average_pa_4 color_0 color_1 color_2 color_3).r_.val =
          ((color_0.r_.val + color_1.r_.val + color_2.r_.val + color_3.r_.val) *
            (color_0.a_.val + color_1.a_.val + color_2.a_.val + color_3.a_.val))
            / (255 * 4 * 4)) ∧
        ((average_pa_4 color_0 color_1 color_2 color_3).g_.val =
          ((color_0.g_.val + color_1.g_.val + color_2.g_.val + color_3.g_.val) *
            (color_0.a_.val + color_1.a_.val + color_2.a_.val + color_3.a_.val))
            / (255 * 4 * 4)) ∧
        ((average_pa_4 color_0 color_1 color_2 color_3).b_.val =
          ((color_0.b_.val + color_1.b_.val + color_2.b_.val + color_3.b_.val) *
            (color_0.a_.val + color_1.a_.val + color_2.a_.val + color_3.a_.val))
            / (255 * 4 * 4)) ∧
        ((average_pa_4 color_0 color_1 color_2 color_3).a_.val =
          (color_0.a_.val + color_1.a_.val + color_2.a_.val + color_3.a_.val) / 4) ∧
        (color_0.a_.val + color_1.a_.val + color_2.a_.val + color_3.a_.val) / 4 ≤ 255) ∧
      ((average_pa_4 color_0 color_1 color_2 color_3).r_ ≤
          (average_pa_4 color_0 color_1 color_2 color_3).a_ ∧
        (average_pa_4 color_0 color_1 color_2 color_3).g_ ≤
          (average_pa_4 color_0 color_1 color_2 color_3).a_ ∧
        (average_pa_4 color_0 color_1 color_2 color_3).b_ ≤
          (average_pa_4 color_0 color_1 color_2 color_3).a_) ∧
      (color_0.a_ = 0 → color_1.a_ = 0 → color_2.a_ = 0 → color_3.a_ = 0 →
        average_pa_4 color_0 color_1 color_2 color_3 = ⟨0, 0, 0, 0⟩)) :=
  ⟨fun color_0 color_1 =>
      ⟨average_pa_2_val color_0 color_1, average_pa_2_le color_0 color_1,
        average_pa_2_zero color_0 color_1⟩,
    fun color_0 color_1 color_2 color_3 =>
      ⟨average_pa_4_val color_0 color_1 color_2 color_3,
        average_pa_4_le color_0 color_1 color_2 color_3,
        average_pa_4_zero color_0 color_1 color_2 color_3⟩⟩

/-- Claim C26 on white texels of alpha 255 and of alpha 0: the average of an
opaque and a transparent white is `(127, 127, 127, 127)`, the average of two
transparent whites is `(0, 0, 0, 0)`. -/
theorem average_pa_premultiplied_witness :
    average_pa_2 ⟨255, 255, 255, 255⟩ ⟨255, 255, 255, 0⟩ = ⟨127, 127, 127, 127⟩ ∧
    average_pa_2 ⟨255, 255, 255, 255⟩ ⟨255, 255, 255, 255⟩ = ⟨255, 255, 255, 255⟩ ∧
    average_pa_2 ⟨255, 255, 255, 0⟩ ⟨255, 255, 255, 0⟩ = ⟨0, 0, 0, 0⟩ ∧
    average_pa_4 ⟨255, 255, 255, 0⟩ ⟨255, 255, 255, 0⟩ ⟨255, 255, 255, 0⟩ ⟨255, 255, 255, 0⟩
      = ⟨0, 0, 0, 0⟩ :=
  ⟨by decide, by decide,
    (average_pa_premultiplied.1 ⟨255, 255, 255, 0⟩ ⟨255, 255, 255, 0⟩).2.2 rfl rfl,
    (average_pa_premultiplied.2 ⟨255, 255, 255, 0⟩ ⟨255, 255, 255, 0⟩ ⟨255, 255, 255, 0⟩
      ⟨255, 255, 255, 0⟩).2.2 rfl rfl rfl rfl⟩

end Ren3dUtils

namespace Ren3dUtils

/-! ### The cache of the resampling loops -/

end Ren3dUtils

namespace Ren3dGlVertexInputImpl

/-! ### Binding a vertex input without VAO -/

theorem assign_regular_attribute_eq (d : Ren3dVertexAttribDescr) (st : GlVertexArrayState)
    (hf : d.format_ ≠ Ren3dVertexAttribFormat.none) :
    assign_regular_attribute d st =
      (Except.ok (),
        { enabled_ := Ren3dUtils.mem_write st.enabled_ d.location_ true,
          calls := st.calls ++
            [VertexInputCall.enable_vertex_attrib_array d.location_,
              VertexInputCall.vertex_buffer_set,
              VertexInputCall.vertex_attrib_pointer d.location_ d.format_ d.stride_
                d.offset_] }) := by
  unfold assign_regular_attribute
  cases hfm : d.format_ with
  | none => exact absurd hfm hf
  | rgba_8_unorm =>
    simp [enable_attrib_array, Ren3dUtils.rethrow_in, Ren3dUtils.fail_nested,
      GlVertexArrayState.invoke]
  | rg_32_sfloat =>
    simp [enable_attrib_array, Ren3dUtils.rethrow_in, Ren3dUtils.fail_nested,
      GlVertexArrayState.invoke]
  | rgb_32_sfloat =>
    simp [enable_attrib_array, Ren3dUtils.rethrow_in, Ren3dUtils.fail_nested,
      GlVertexArrayState.invoke]

/-- A validated attribute is assigned without an exception; a regular one
enables the array of its location, a default one changes no enable flag, and
neither disables an array. -/
theorem assign_attribute_ok (d : Ren3dVertexAttribDescr) (st : GlVertexArrayState)
    (hfmt : d.is_default_ = false → d.format_ ≠ Ren3dVertexAttribFormat.none) :
    (assign_attribute d st).1 = Except.ok () ∧
    (∀ j, (assign_attribute d st).2.enabled_ j =
      (st.enabled_ j || (!d.is_default_ && decide (d.location_ = j)))) ∧
    ∃ invoked, (assign_attribute d st).2.calls = st.calls ++ invoked ∧
      ∀ c ∈ invoked, ∀ i, c ≠ VertexInputCall.disable_vertex_attrib_array i := by
  cases hdef : d.is_default_ with
  | true =>
    unfold assign_attribute
    rw [hdef, if_pos rfl]
    refine ⟨rfl, fun j => by simp [assign_default_attribute, Ren3dUtils.rethrow_in,
      GlVertexArrayState.invoke], [VertexInputCall.vertex_attrib_4fv d.location_], rfl, ?_⟩
    intro c hc i
    simp only [List.mem_singleton] at hc
    subst hc
    exact fun h => by cases h
  | false =>
    unfold assign_attribute
    rw [hdef, if_neg (by decide), assign_regular_attribute_eq d st (hfmt hdef)]
    refine ⟨rfl, fun j => ?_, _, rfl, ?_⟩
    · by_cases hj : j = d.location_
      · simp [Ren3dUtils.rethrow_in, Ren3dUtils.mem_write, hj]
      · have hj2 : ¬ d.location_ = j := fun h => hj h.symm
        simp [Ren3dUtils.rethrow_in, Ren3dUtils.mem_write, hj, hj2]
    · intro c hc i
      simp only [List.mem_cons, List.mem_singleton, List.not_mem_nil, or_false] at hc
      rcases hc with rfl | rfl | rfl <;> exact fun h => by cases h

/-- The first loop of `bind_internal` on validated attributes: no exception,
the arrays of the regular attributes are enabled on top of the flags found,
and no array is disabled. -/
theorem assign_attributes_ok :
    ∀ (ds : List Ren3dVertexAttribDescr) (st : GlVertexArrayState),
      (∀ d ∈ ds, d.is_default_ = false → d.format_ ≠ Ren3dVertexAttribFormat.none) →
      (assign_attributes ds st).1 = Except.ok () ∧
      (∀ j, (assign_attributes ds st).2.enabled_ j =
        (st.enabled_ j ||
          ds.any (fun item => !item.is_default_ && decide (item.location_ = j)))) ∧
      ∃ invoked, (assign_attributes ds st).2.calls = st.calls ++ invoked ∧
        ∀ c ∈ invoked, ∀ i, c ≠ VertexInputCall.disable_vertex_attrib_array i := by
  intro ds
  induction ds with
  | nil =>
    intro st _
    exact ⟨rfl, fun j => by simp [assign_attributes], [], by simp [assign_attributes],
      by simp⟩
  | cons d rest ih =>
    intro st hfmt
    obtain ⟨h1, h2, inv1, h3, h4⟩ := assign_attribute_ok d st (hfmt d (List.mem_cons_self _ _))
    cases hr : assign_attribute d st with
    | mk r st1 =>
      rw [hr] at h1 h2 h3
      dsimp only at h1 h2 h3
      subst h1
      obtain ⟨k1, k2, inv2, k3, k4⟩ := ih st1 (fun d2 hd2 => hfmt d2 (List.mem_cons_of_mem _ hd2))
      have heq : assign_attributes (d :: rest) st = assign_attributes rest st1 := by
        simp only [assign_attributes, hr]
      rw [heq]
      refine ⟨k1, fun j => ?_, inv1 ++ inv2, ?_, ?_⟩
      · rw [k2 j, h2 j, List.any_cons, Bool.or_assoc]
      · rw [k3, h3, List.append_assoc]
      · intro c hc i
        rcases List.mem_append.1 hc with hc | hc
        · exact h4 c hc i
        · exact k4 c hc i

theorem find_isNone_eq_any {α : Type} (p : α → Bool) (l : List α) :
    (l.find? p).isNone = !l.any p := by
  induction l with
  | nil => rfl
  | cons a rest ih =>
    cases hp : p a <;> simp [List.find?, hp, ih]

theorem disable_unreferenced_eq (self : Ren3dGlVertexInputImpl) (i : Nat)
    (st : GlVertexArrayState) :
    disable_unreferenced self i st =
      if self.attrib_descrs_.any
          (fun item => !item.is_default_ && decide (item.location_ = (i : Int))) = true then
        (Except.ok (), st)
      else
        (Except.ok (),
          { enabled_ := Ren3dUtils.mem_write st.enabled_ (i : Int) false,
            calls := st.calls ++ [VertexInputCall.disable_vertex_attrib_array (i : Int)] }) := by
  unfold disable_unreferenced
  dsimp only
  rw [find_isNone_eq_any]
  cases self.attrib_descrs_.any
    (fun item => !item.is_default_ && decide (item.location_ = (i : Int))) <;> rfl

/-- The second loop of `bind_internal`: no exception; the array of every slot
below the bound that no regular attribute refers to is disabled by a call of
its own, the other flags are kept. -/
theorem disable_loop_ok (self : Ren3dGlVertexInputImpl) (n : Nat) (st : GlVertexArrayState) :
    (for_loop_try n (disable_unreferenced self) st).1 = Except.ok () ∧
    (∀ j : Int, (for_loop_try n (disable_unreferenced self) st).2.enabled_ j =
      if 0 ≤ j ∧ j < (n : Int) ∧
          self.attrib_descrs_.any
            (fun item => !item.is_default_ && decide (item.location_ = j)) = false then false
      else st.enabled_ j) ∧
    ∃ invoked, (for_loop_try n (disable_unreferenced self) st).2.calls = st.calls ++ invoked ∧
      ∀ i : Nat, i < n →
        self.attrib_descrs_.any
          (fun item => !item.is_default_ && decide (item.location_ = (i : Int))) = false →
        VertexInputCall.disable_vertex_attrib_array (i : Int) ∈ invoked := by
  induction n with
  | zero =>
    refine ⟨rfl, fun j => ?_, [], by simp [for_loop_try], fun i hi => by omega⟩
    rw [if_neg (by omega)]
    rfl
  | succ n ih =>
    obtain ⟨h1, h2, inv, h3, h4⟩ := ih
    rw [Ren3dGl.for_loop_try_succ]
    cases hr : for_loop_try n (disable_unreferenced self) st with
    | mk r st1 =>
      rw [hr] at h1 h2 h3
      dsimp only at h1 h2 h3
      subst h1
      dsimp only
      rw [disable_unreferenced_eq]
      by_cases href : self.attrib_descrs_.any
          (fun item => !item.is_default_ && decide (item.location_ = (n : Int))) = true
      · rw [if_pos href]
        refine ⟨rfl, fun j => ?_, inv, h3, fun i hi hu => ?_⟩
        · dsimp only
          rw [h2 j]
          by_cases hjn : j = (n : Int)
          · subst hjn
            rw [if_neg (by simp [href]), if_neg (by simp [href])]
          · by_cases hc : 0 ≤ j ∧ j < (n : Int) ∧
                self.attrib_descrs_.any
                  (fun item => !item.is_default_ && decide (item.location_ = j)) = false
            · rw [if_pos hc, if_pos ⟨hc.1, by push_cast; omega, hc.2.2⟩]
            · rw [if_neg hc, if_neg (fun hc2 => hc ⟨hc2.1, by
                have := hc2.2.1
                push_cast at this
                omega, hc2.2.2⟩)]
        · by_cases hin : i = n
          · subst hin
            rw [href] at hu
            cases hu
          · exact h4 i (by omega) hu
      · have href2 : self.attrib_descrs_.any
            (fun item => !item.is_default_ && decide (item.location_ = (n : Int))) = false := by
          simpa using href
        rw [if_neg href]
        refine ⟨rfl, fun j => ?_,
          inv ++ [VertexInputCall.disable_vertex_attrib_array (n : Int)], ?_, fun i hi hu => ?_⟩
        · dsimp only
          by_cases hjn : j = (n : Int)
          · subst hjn
            rw [if_pos ⟨by omega, by push_cast; omega, href2⟩]
            simp [Ren3dUtils.mem_write]
          · have hw : Ren3dUtils.mem_write st1.enabled_ (n : Int) false j = st1.enabled_ j := by
              simp [Ren3dUtils.mem_write, hjn]
            rw [hw, h2 j]
            by_cases hc : 0 ≤ j ∧ j < (n : Int) ∧
                self.attrib_descrs_.any
                  (fun item => !item.is_default_ && decide (item.location_ = j)) = false
            · rw [if_pos hc, if_pos ⟨hc.1, by push_cast; omega, hc.2.2⟩]
            · rw [if_neg hc, if_neg (fun hc2 => hc ⟨hc2.1, by
                have := hc2.2.1
                push_cast at this
                omega, hc2.2.2⟩)]
        · dsimp only
          rw [h3, List.append_assoc]
        · by_cases hin : i = n
          · subst hin
            exact List.mem_append_right _ (List.mem_singleton.2 rfl)
          · exact List.mem_append_left _ (h4 i (by omega) hu)

end Ren3dGlVertexInputImpl

namespace Ren3dUtils

theorem vertex_input_validate_descr_format (max_locations : Int) (d : Ren3dVertexAttribDescr)
    (used used2 : List Int)
    (h : vertex_input_validate_descr max_locations d used = Except.ok used2)
    (hd : d.is_default_ = false) : d.format_ ≠ Ren3dVertexAttribFormat.none := by
  intro hnone
  unfold vertex_input_validate_descr at h
  rw [hd, if_neg (by decide)] at h
  dsimp only at h
  by_cases h1 : d.location_ < 0 ∨ d.location_ ≥ max_locations
  · rw [if_pos h1] at h
    cases h
  · rw [if_neg h1] at h
    by_cases h2 : used.contains d.location_ = true
    · rw [if_pos h2] at h
      cases h
    · rw [if_neg h2, hnone] at h
      cases h

theorem vertex_input_validate_descrs_format (max_locations : Int) :
    ∀ (ds : List Ren3dVertexAttribDescr) (used : List Int),
      vertex_input_validate_descrs max_locations ds used = Except.ok () →
      ∀ d ∈ ds, d.is_default_ = false → d.format_ ≠ Ren3dVertexAttribFormat.none := by
  intro ds
  induction ds with
  | nil =>
    intro used _ d hd
    exact absurd hd (List.not_mem_nil d)
  | cons d ds ih =>
    intro used h x hx hxd
    unfold vertex_input_validate_descrs at h
    split at h
    · cases h
    · rename_i used2 hd
      rcases List.mem_cons.1 hx with hx | hx
      · subst hx
        exact vertex_input_validate_descr_format max_locations x used used2 hd hxd
      · exact ih used2 h x hx hxd

theorem vertex_input_validate_param_format (max_locations : Int)
    (param : Ren3dCreateVertexInputParam)
    (h : vertex_input_validate_param max_locations param = Except.ok ()) :
    ∀ d ∈ param.attrib_descrs_, d.is_default_ = false →
      d.format_ ≠ Ren3dVertexAttribFormat.none := by
  unfold vertex_input_validate_param at h
  by_cases h1 : max_locations < 0
  · rw [if_pos h1] at h
    cases h
  rw [if_neg h1] at h
  by_cases h2 : param.index_buffer_.isSome ∧ param.index_buffer_ ≠ some Ren3dBufferKind.index
  · rw [if_pos h2] at h
    cases h
  rw [if_neg h2] at h
  cases hr : vertex_input_validate_descrs max_locations param.attrib_descrs_ [] with
  | error e =>
    rw [hr] at h
    cases h
  | ok u => exact vertex_input_validate_descrs_format max_locations _ [] hr

end Ren3dUtils

namespace Ren3dGlVertexInputImpl

/-- Claim C25. For a vertex input without VAO whose parameters have passed
`vertex_input_validate_param`, as its constructor requires, `bind` completes
without an exception whatever the enable flags left by a previous vertex
input are; afterwards, for every slot `i` in `[0, max_vertex_input_locations)`,
the vertex attribute array `i` is enabled if and only if a non-default
attribute description has `location_ = i`; and for every such slot without
such a description the call `glDisableVertexAttribArray(i)` was made during
this `bind`. -/
theorem bind_enabled_iff (self : Ren3dGlVertexInputImpl) (st : GlVertexArrayState)
    (hvao : self.vao_resource_ = none)
    (hvalid : Ren3dUtils.vertex_input_validate_param self.max_vertex_input_locations_
      ⟨self.index_buffer_, self.attrib_descrs_⟩ = Except.ok ()) :
    (bind self st).1 = Except.ok () ∧
    (∀ i : Int, 0 ≤ i → i < self.max_vertex_input_locations_ →
      ((bind self st).2.enabled_ i = true ↔
        ∃ d ∈ self.attrib_descrs_, d.is_default_ = false ∧ d.location_ = i)) ∧
    ∃ invoked, (bind self st).2.calls = st.calls ++ invoked ∧
      ∀ i : Int, 0 ≤ i → i < self.max_vertex_input_locations_ →
        (¬ ∃ d ∈ self.attrib_descrs_, d.is_default_ = false ∧ d.location_ = i) →
        VertexInputCall.disable_vertex_attrib_array i ∈ invoked := by
  have hfmt := Ren3dUtils.vertex_input_validate_param_format _ _ hvalid
  dsimp only at hfmt
  have hany : ∀ i : Int,
      (self.attrib_descrs_.any
        (fun item => !item.is_default_ && decide (item.location_ = i)) = true ↔
      ∃ d ∈ self.attrib_descrs_, d.is_default_ = false ∧ d.location_ = i) := by
    intro i
    rw [List.any_eq_true]
    constructor
    · rintro ⟨d, hd, hp⟩
      simp only [Bool.and_eq_true, Bool.not_eq_true', decide_eq_true_eq] at hp
      exact ⟨d, hd, hp⟩
    · rintro ⟨d, hd, hp⟩
      exact ⟨d, hd, by simpa using hp⟩
  have hbind : bind self st =
      Ren3dUtils.rethrow_in "bind" (Ren3dUtils.rethrow_in "bind_internal"
        (match assign_attributes self.attrib_descrs_
            (if self.index_buffer_.isSome then st.invoke VertexInputCall.index_buffer_set
              else st) with
          | (Except.error e, st2) => (Except.error e, st2)
          | (Except.ok (), st2) =>
            for_loop_try self.max_vertex_input_locations_.toNat
              (disable_unreferenced self) st2)) := by
    unfold bind
    rw [hvao]
    rfl
  obtain ⟨a1, a2, inv1, a3, _⟩ := assign_attributes_ok self.attrib_descrs_
    (if self.index_buffer_.isSome then st.invoke VertexInputCall.index_buffer_set else st) hfmt
  have hst1 : ∃ inv0, (if self.index_buffer_.isSome then
      st.invoke VertexInputCall.index_buffer_set else st).calls = st.calls ++ inv0 := by
    by_cases hib : self.index_buffer_.isSome = true
    · rw [if_pos hib]
      exact ⟨[VertexInputCall.index_buffer_set], rfl⟩
    · rw [if_neg hib]
      exact ⟨[], by simp⟩
  obtain ⟨inv0, a0⟩ := hst1
  rw [hbind]
  cases hr : assign_attributes self.attrib_descrs_
      (if self.index_buffer_.isSome then st.invoke VertexInputCall.index_buffer_set
        else st) with
  | mk r st2 =>
    rw [hr] at a1 a2 a3
    dsimp only at a1 a2 a3
    subst a1
    dsimp only
    obtain ⟨b1, b2, inv2, b3, b4⟩ :=
      disable_loop_ok self self.max_vertex_input_locations_.toNat st2
    refine ⟨?_, fun i h0 hmax => ?_, inv0 ++ inv1 ++ inv2, ?_, fun i h0 hmax hno => ?_⟩
    · exact (Ren3dGl.rethrow_in_error _ _).2.2 ((Ren3dGl.rethrow_in_error _ _).2.2 b1)
    · rw [(Ren3dGl.rethrow_in_error _ _).2.1, (Ren3dGl.rethrow_in_error _ _).2.1, b2 i,
        ← hany i]
      cases hrefs : self.attrib_descrs_.any
          (fun item => !item.is_default_ && decide (item.location_ = i)) with
      | true =>
        rw [if_neg (by simp), a2 i, hrefs]
        simp
      | false =>
        rw [if_pos ⟨h0, by omega, rfl⟩]
    · rw [(Ren3dGl.rethrow_in_error _ _).2.1, (Ren3dGl.rethrow_in_error _ _).2.1, b3, a3, a0,
        List.append_assoc, List.append_assoc, List.append_assoc]
    · obtain ⟨n, rfl⟩ := Int.eq_ofNat_of_zero_le h0
      have hu : self.attrib_descrs_.any
          (fun item => !item.is_default_ && decide (item.location_ = (n : Int))) = false := by
        cases hrefs : self.attrib_descrs_.any
            (fun item => !item.is_default_ && decide (item.location_ = (n : Int))) with
        | true => exact absurd ((hany _).1 hrefs) hno
        | false => rfl
      exact List.mem_append_right _ (b4 n (by omega) hu)

/-- Claim C25 on `sample_vertex_input` after a vertex input that left the
arrays 1 and 2 enabled: the arrays 0 and 2 end enabled, the arrays 1 and 3
disabled, each by a call of its own. -/
theorem bind_enabled_iff_witness :
    ((bind sample_vertex_input sample_vertex_state).1 = Except.ok () ∧
      (∀ i : Int, 0 ≤ i → i < sample_vertex_input.max_vertex_input_locations_ →
        ((bind sample_vertex_input sample_vertex_state).2.enabled_ i = true ↔
          ∃ d ∈ sample_vertex_input.attrib_descrs_, d.is_default_ = false ∧ d.location_ = i)) ∧
      ∃ invoked, (bind sample_vertex_input sample_vertex_state).2.calls =
          sample_vertex_state.calls ++ invoked ∧
        ∀ i : Int, 0 ≤ i → i < sample_vertex_input.max_vertex_input_locations_ →
          (¬ ∃ d ∈ sample_vertex_input.attrib_descrs_, d.is_default_ = false ∧ d.location_ = i) →
          VertexInputCall.disable_vertex_attrib_array i ∈ invoked) ∧
    (bind sample_vertex_input sample_vertex_state).2.enabled_ 0 = true ∧
    (bind sample_vertex_input sample_vertex_state).2.enabled_ 1 = false ∧
    (bind sample_vertex_input sample_vertex_state).2.enabled_ 2 = true ∧
    (bind sample_vertex_input sample_vertex_state).2.enabled_ 3 = false ∧
    (bind sample_vertex_input sample_vertex_state).2.calls =
      [VertexInputCall.index_buffer_set,
        VertexInputCall.vertex_attrib_4fv 0,
        VertexInputCall.enable_vertex_attrib_array 2,
        VertexInputCall.vertex_buffer_set,
        VertexInputCall.vertex_attrib_pointer 2 Ren3dVertexAttribFormat.rgb_32_sfloat 12 0,
        VertexInputCall.enable_vertex_attrib_array 0,
        VertexInputCall.vertex_buffer_set,
        VertexInputCall.vertex_attrib_pointer 0 Ren3dVertexAttribFormat.rgb_32_sfloat 12 0,
        VertexInputCall.disable_vertex_attrib_array 1,
        VertexInputCall.disable_vertex_attrib_array 3] :=
  ⟨bind_enabled_iff sample_vertex_input sample_vertex_state rfl rfl, rfl, rfl, rfl, rfl, rfl⟩

end Ren3dGlVertexInputImpl

namespace Ren3dUtils

/-! ### Mipmap count and halving -/

theorem calculate_mipmap_count_nat (a b : Nat) (ha : 1 ≤ a) (hb : 1 ≤ b) :
    calculate_mipmap_count (a : Int) (b : Int) =
      Except.ok ((Nat.log 2 (max a b) : Int) + 1) := by
  have hmax : max (a : Int) (b : Int) = ((max a b : Nat) : Int) := by
    push_cast
    rfl
  unfold calculate_mipmap_count
  rw [if_neg (by omega), if_neg (by omega)]
  simp only [hmax, Int.toNat_ofNat]
  rw [calculate_mipmap_count_loop_spec (max a b) 0 (max a b) (by omega) le_rfl]
  simp [fail_nested]

theorem tdiv_two_nat (a : Nat) : Int.tdiv (a : Int) 2 = ((a / 2 : Nat) : Int) := by
  rw [Int.tdiv_eq_ediv (by omega) (by omega)]
  simp

theorem build_mipmap_size_nat (a b : Nat) (ha : 1 ≤ a) (hb : 1 ≤ b)
    (hne : ¬ (a = 1 ∧ b = 1)) :
    build_mipmap_size (a : Int) (b : Int) =
      (((max 1 (a / 2) : Nat) : Int), ((max 1 (b / 2) : Nat) : Int)) := by
  unfold build_mipmap_size
  rw [tdiv_two_nat, tdiv_two_nat]
  by_cases h1 : (a : Int) = 1
  · have ha1 : a = 1 := by omega
    rw [if_pos h1]
    have hb2 : max 1 (b / 2) = b / 2 := by omega
    have ha2 : max 1 (a / 2) = 1 := by omega
    rw [hb2, ha2]
    rfl
  · rw [if_neg h1]
    by_cases h2 : (b : Int) = 1
    · rw [if_pos h2]
      have ha2 : max 1 (a / 2) = a / 2 := by omega
      have hb2 : max 1 (b / 2) = 1 := by omega
      rw [hb2, ha2]
      rfl
    · rw [if_neg h2]
      have ha2 : max 1 (a / 2) = a / 2 := by omega
      have hb2 : max 1 (b / 2) = b / 2 := by omega
      rw [hb2, ha2]

theorem log_halve (a b : Nat) (ha : 1 ≤ a) (hb : 1 ≤ b) (hne : ¬ (a = 1 ∧ b = 1)) :
    Nat.log 2 (max (max 1 (a / 2)) (max 1 (b / 2))) + 1 = Nat.log 2 (max a b) := by
  have hm : max (max 1 (a / 2)) (max 1 (b / 2)) = max a b / 2 := by omega
  rw [hm, Nat.log_div_base]
  have h2 : 2 ≤ max a b := by omega
  have := Nat.log_pos (b := 2) (by decide) h2
  omega

/-- The dimensions after `k` levels of halving, as long as `k` is at most
`floor(log2(max(a, b)))`. -/
theorem build_mipmap_size_iterate (a b : Nat) (ha : 1 ≤ a) (hb : 1 ≤ b) :
    ∀ k : Nat, k ≤ Nat.log 2 (max a b) →
      (fun p : Int × Int => build_mipmap_size p.1 p.2)^[k] ((a : Int), (b : Int)) =
        (((max 1 (a / 2 ^ k) : Nat) : Int), ((max 1 (b / 2 ^ k) : Nat) : Int)) := by
  intro k
  induction k with
  | zero =>
    intro _
    have h1 : max 1 (a / 2 ^ 0) = a := by simp; omega
    have h2 : max 1 (b / 2 ^ 0) = b := by simp; omega
    rw [h1, h2]
    rfl
  | succ k ih =>
    intro hk
    rw [Function.iterate_succ_apply', ih (by omega)]
    dsimp only
    have hpow : 2 ^ (k + 1) ≤ max a b := by
      calc 2 ^ (k + 1) ≤ 2 ^ Nat.log 2 (max a b) := Nat.pow_le_pow_right (by decide) hk
        _ ≤ max a b := Nat.pow_log_le_self 2 (by omega)
    have hdiv : 2 ≤ max a b / 2 ^ k := by
      rw [Nat.le_div_iff_mul_le (by positivity)]
      rw [pow_succ] at hpow
      omega
    have hmaxdiv : max a b / 2 ^ k = max (a / 2 ^ k) (b / 2 ^ k) := by
      rcases le_total a b with hab | hab
      · rw [max_eq_right hab, max_eq_right (Nat.div_le_div_right hab)]
      · rw [max_eq_left hab, max_eq_left (Nat.div_le_div_right hab)]
    have ha2 : a / 2 ^ (k + 1) = a / 2 ^ k / 2 := by
      rw [pow_succ, Nat.div_div_eq_div_mul]
    have hb2 : b / 2 ^ (k + 1) = b / 2 ^ k / 2 := by
      rw [pow_succ, Nat.div_div_eq_div_mul]
    rw [build_mipmap_size_nat _ _ (by omega) (by omega) (by omega), ha2, hb2]
    have e1 : max 1 (max 1 (a / 2 ^ k) / 2) = max 1 (a / 2 ^ k / 2) := by omega
    have e2 : max 1 (max 1 (b / 2 ^ k) / 2) = max 1 (b / 2 ^ k / 2) := by omega
    rw [e1, e2]

/-- Claim C27. For `width, height ≥ 1` other than `(1, 1)`, with
`n + 1 = calculate_mipmap_count(width, height)`: the count of the halved
dimensions `(max(1, width / 2), max(1, height / 2))`, which are the dimensions
of the level `build_mipmap` writes, is `n`; halving `n` times gives 1x1, and
halving fewer times does not. -/
theorem calculate_mipmap_count_halve (width height : Int) (hw : 1 ≤ width) (hh : 1 ≤ height)
    (hne : ¬ (width = 1 ∧ height = 1)) :
    ∃ n : Nat,
      calculate_mipmap_count width height = Except.ok ((n : Int) + 1) ∧
      calculate_mipmap_count (max 1 (Int.tdiv width 2)) (max 1 (Int.tdiv height 2)) =
        Except.ok (((n : Int) + 1) - 1) ∧
      build_mipmap_size width height =
        (max 1 (Int.tdiv width 2), max 1 (Int.tdiv height 2)) ∧
      (fun p : Int × Int => build_mipmap_size p.1 p.2)^[n] (width, height) = (1, 1) ∧
      ∀ k : Nat, k < n →
        (fun p : Int × Int => build_mipmap_size p.1 p.2)^[k] (width, height) ≠ (1, 1) := by
  obtain ⟨a, rfl⟩ := Int.eq_ofNat_of_zero_le (by omega : 0 ≤ width)
  obtain ⟨b, rfl⟩ := Int.eq_ofNat_of_zero_le (by omega : 0 ≤ height)
  have ha : 1 ≤ a := by omega
  have hb : 1 ≤ b := by omega
  have hne2 : ¬ (a = 1 ∧ b = 1) := fun h => hne ⟨by omega, by omega⟩
  have hma : max (1 : Int) (Int.tdiv (a : Int) 2) = ((max 1 (a / 2) : Nat) : Int) := by
    rw [tdiv_two_nat]
    push_cast
    rfl
  have hmb : max (1 : Int) (Int.tdiv (b : Int) 2) = ((max 1 (b / 2) : Nat) : Int) := by
    rw [tdiv_two_nat]
    push_cast
    rfl
  have hlog := log_halve a b ha hb hne2
  refine ⟨Nat.log 2 (max a b), calculate_mipmap_count_nat a b ha hb, ?_, ?_, ?_, ?_⟩
  · rw [hma, hmb, calculate_mipmap_count_nat _ _ (by omega) (by omega)]
    congr 1
    have : ((Nat.log 2 (max (max 1 (a / 2)) (max 1 (b / 2))) + 1 : Nat) : Int) =
        (Nat.log 2 (max a b) : Int) := by rw [hlog]
    push_cast at this
    omega
  · rw [hma, hmb]
    exact build_mipmap_size_nat a b ha hb hne2
  · rw [build_mipmap_size_iterate a b ha hb _ le_rfl]
    have hlt := Nat.lt_pow_succ_log_self (b := 2) (by decide) (max a b)
    have h1 : a / 2 ^ Nat.log 2 (max a b) < 2 := by
      rw [Nat.div_lt_iff_lt_mul (by positivity)]
      rw [pow_succ] at hlt
      omega
    have h2 : b / 2 ^ Nat.log 2 (max a b) < 2 := by
      rw [Nat.div_lt_iff_lt_mul (by positivity)]
      rw [pow_succ] at hlt
      omega
    have e1 : max 1 (a / 2 ^ Nat.log 2 (max a b)) = 1 := by omega
    have e2 : max 1 (b / 2 ^ Nat.log 2 (max a b)) = 1 := by omega
    rw [e1, e2]
    rfl
  · intro k hk
    rw [build_mipmap_size_iterate a b ha hb k (by omega)]
    have hpow : 2 ^ (k + 1) ≤ max a b := by
      calc 2 ^ (k + 1) ≤ 2 ^ Nat.log 2 (max a b) := Nat.pow_le_pow_right (by decide) hk
        _ ≤ max a b := Nat.pow_log_le_self 2 (by omega)
    have hdiv : 2 ≤ max a b / 2 ^ k := by
      rw [Nat.le_div_iff_mul_le (by positivity)]
      rw [pow_succ] at hpow
      omega
    have hmaxdiv : max a b / 2 ^ k = max (a / 2 ^ k) (b / 2 ^ k) := by
      rcases le_total a b with hab | hab
      · rw [max_eq_right hab, max_eq_right (Nat.div_le_div_right hab)]
      · rw [max_eq_left hab, max_eq_left (Nat.div_le_div_right hab)]
    intro heq
    have h1 := congrArg Prod.fst heq
    have h2 := congrArg Prod.snd heq
    dsimp only at h1 h2
    have h3 : max 1 (a / 2 ^ k) = 1 := by exact_mod_cast h1
    have h4 : max 1 (b / 2 ^ k) = 1 := by exact_mod_cast h2
    omega

/-- Claim C27 at `(300, 5)`: the count is 9, the count of `(150, 2)` is 8,
and eight halvings give 1x1. -/
theorem calculate_mipmap_count_halve_witness :
    (∃ n : Nat,
      calculate_mipmap_count 300 5 = Except.ok ((n : Int) + 1) ∧
      calculate_mipmap_count (max 1 (Int.tdiv 300 2)) (max 1 (Int.tdiv 5 2)) =
        Except.ok (((n : Int) + 1) - 1) ∧
      build_mipmap_size 300 5 = (max 1 (Int.tdiv 300 2), max 1 (Int.tdiv 5 2)) ∧
      (fun p : Int × Int => build_mipmap_size p.1 p.2)^[n] (300, 5) = (1, 1) ∧
      ∀ k : Nat, k < n →
        (fun p : Int × Int => build_mipmap_size p.1 p.2)^[k] (300, 5) ≠ (1, 1)) ∧
    calculate_mipmap_count 300 5 = Except.ok 9 ∧
    calculate_mipmap_count 150 2 = Except.ok 8 ∧
    build_mipmap_size 300 5 = (150, 2) ∧
    (fun p : Int × Int => build_mipmap_size p.1 p.2)^[8] (300, 5) = (1, 1) :=
  ⟨calculate_mipmap_count_halve 300 5 (by decide) (by decide) (by decide), rfl, rfl, rfl, rfl⟩

end Ren3dUtils

namespace Ren3dUtils

/-! ### The accesses of the resampling loops -/

end Ren3dUtils

namespace MtTaskQueue

/-! ### The task queue as a bounded FIFO list -/

theorem add_mod_cases (a e size : Nat) (ha : a < size) (he : e ≤ size) :
    (a + e) % size = if a + e < size then a + e else a + e - size := by
  by_cases h : a + e < size
  · rw [if_pos h, Nat.mod_eq_of_lt h]
  · rw [if_neg h, Nat.mod_eq_sub_mod (by omega), Nat.mod_eq_of_lt (by omega)]

/-- The write index of a valid queue is `count` slots after the read
index. -/
theorem valid_write_index (q : MtTaskQueue) (h : q.valid) :
    q.count < q.size_ ∧ q.mt_write_index_ = (q.mt_read_index_ + q.count) % q.size_ := by
  obtain ⟨h0, h1, h2, _⟩ := h
  unfold count
  by_cases hle : q.mt_read_index_ ≤ q.mt_write_index_
  · rw [if_pos hle]
    refine ⟨by omega, ?_⟩
    rw [add_mod_cases _ _ _ h1 (by omega), if_pos (by omega)]
    omega
  · rw [if_neg hle]
    refine ⟨by omega, ?_⟩
    rw [add_mod_cases _ _ _ h1 (by omega), if_neg (by omega)]
    omega

theorem count_of_write_index (size read c : Nat) (items : List MtTaskPtr) (hr : read < size)
    (hc : c < size) :
    count ⟨size, read, (read + c) % size, items⟩ = c := by
  unfold count
  dsimp only
  rw [add_mod_cases _ _ _ hr (by omega)]
  by_cases h : read + c < size
  · rw [if_pos h, if_pos (by omega)]
    omega
  · rw [if_neg h, if_neg (by omega)]
    omega

/-- What `drain` returns for a queue whose write index is `c` slots after the
read index: the items of these slots. -/
theorem drain_spec (size : Nat) (items : List MtTaskPtr) :
    ∀ (c fuel read : Nat), c ≤ fuel → read < size → c < size →
      drain fuel ⟨size, read, (read + c) % size, items⟩ =
        (List.range c).map (fun k => items.getD ((read + k) % size) none) := by
  intro c
  induction c with
  | zero =>
    intro fuel read _ hr _
    cases fuel with
    | zero => rfl
    | succ fuel =>
      simp [drain, pop, Nat.mod_eq_of_lt hr]
  | succ c ih =>
    intro fuel read hf hr hc
    obtain ⟨fuel, rfl⟩ : ∃ f, fuel = f + 1 := ⟨fuel - 1, by omega⟩
    have hne : ¬ (read = (read + (c + 1)) % size) := by
      rw [add_mod_cases _ _ _ hr (by omega)]
      by_cases h : read + (c + 1) < size
      · rw [if_pos h]
        omega
      · rw [if_neg h]
        omega
    have hstep : ((read + 1) % size + c) % size = (read + (c + 1)) % size := by
      rw [Nat.mod_add_mod]
      congr 1
      omega
    have hpop : pop none ⟨size, read, (read + (c + 1)) % size, items⟩ =
        (true, items.getD read none,
          ⟨size, (read + 1) % size, ((read + 1) % size + c) % size, items⟩) := by
      unfold pop
      dsimp only
      rw [if_neg hne, hstep]
    have hrec := ih fuel ((read + 1) % size) (by omega) (Nat.mod_lt _ (by omega)) (by omega)
    simp only [drain, hpop, hrec]
    rw [List.range_succ_eq_map, List.map_cons, List.map_map]
    have h0 : (read + 0) % size = read := Nat.mod_eq_of_lt hr
    rw [h0]
    congr 1
    apply List.map_congr_left
    intro k _
    dsimp only [Function.comp]
    rw [Nat.mod_add_mod]
    congr 2
    omega

/-- The logical content of a valid queue, slot by slot. -/
theorem contents_eq (q : MtTaskQueue) (h : q.valid) :
    q.contents =
      (List.range q.count).map
        (fun k => q.items_.getD ((q.mt_read_index_ + k) % q.size_) none) ∧
    q.contents.length = q.count := by
  obtain ⟨hc, hw⟩ := valid_write_index q h
  have hq : q = ⟨q.size_, q.mt_read_index_, (q.mt_read_index_ + q.count) % q.size_,
      q.items_⟩ := by
    rw [← hw]
  have h1 : q.contents =
      (List.range q.count).map
        (fun k => q.items_.getD ((q.mt_read_index_ + k) % q.size_) none) := by
    unfold contents
    conv_lhs => rw [hq]
    exact drain_spec q.size_ q.items_ q.count q.size_ q.mt_read_index_ (by omega) h.2.1 hc
  exact ⟨h1, by rw [h1]; simp⟩

theorem getD_set_eq (l : List MtTaskPtr) (i : Nat) (a : MtTaskPtr) (hi : i < l.length) :
    (l.set i a).getD i none = a := by
  simp [List.getD_eq_getElem?_getD, List.getElem?_set, hi]

theorem getD_set_ne (l : List MtTaskPtr) (i j : Nat) (a : MtTaskPtr) (hij : i ≠ j) :
    (l.set i a).getD j none = l.getD j none := by
  simp [List.getD_eq_getElem?_getD, List.getElem?_set, hij]

/-- Slots at different distances below `size` from the read index are
different slots. -/
theorem slot_ne (size read k c : Nat) (hr : read < size) (hk : k < c) (hc : c < size) :
    (read + c) % size ≠ (read + k) % size := by
  rw [add_mod_cases _ _ _ hr (by omega), add_mod_cases _ _ _ hr (by omega)]
  by_cases h1 : read + c < size
  · rw [if_pos h1, if_pos (by omega)]
    omega
  · rw [if_neg h1]
    by_cases h2 : read + k < size
    · rw [if_pos h2]
      omega
    · rw [if_neg h2]
      omega

/-- A slot written at or after the write index leaves the logical content as
it is. -/
theorem contents_set (q : MtTaskQueue) (h : q.valid) (c : Nat) (a : MtTaskPtr)
    (hc1 : q.count ≤ c) (hc2 : c < q.size_) :
    contents { q with items_ := q.items_.set ((q.mt_read_index_ + c) % q.size_) a } =
      q.contents := by
  have hv : valid { q with items_ := q.items_.set ((q.mt_read_index_ + c) % q.size_) a } :=
    ⟨h.1, h.2.1, h.2.2.1, by simp [h.2.2.2]⟩
  rw [(contents_eq _ hv).1, (contents_eq q h).1]
  have hcount : count { q with items_ := q.items_.set ((q.mt_read_index_ + c) % q.size_) a } =
      q.count := rfl
  rw [hcount]
  apply List.map_congr_left
  intro k hk
  rw [List.mem_range] at hk
  dsimp only
  exact getD_set_ne _ _ _ _ (slot_ne q.size_ q.mt_read_index_ k c h.2.1 (by omega) hc2)

/-- The slot at the write index and the write index moved by one: the task is
appended to the logical content. -/
theorem contents_append (q : MtTaskQueue) (h : q.valid) (a : MtTaskPtr)
    (hc : q.count + 1 < q.size_) :
    valid { q with
      items_ := q.items_.set q.mt_write_index_ a,
      mt_write_index_ := (q.mt_write_index_ + 1) % q.size_ } ∧
    count { q with
      items_ := q.items_.set q.mt_write_index_ a,
      mt_write_index_ := (q.mt_write_index_ + 1) % q.size_ } = q.count + 1 ∧
    contents { q with
      items_ := q.items_.set q.mt_write_index_ a,
      mt_write_index_ := (q.mt_write_index_ + 1) % q.size_ } = q.contents ++ [a] := by
  obtain ⟨_, hw⟩ := valid_write_index q h
  have hw2 : (q.mt_write_index_ + 1) % q.size_ =
      (q.mt_read_index_ + (q.count + 1)) % q.size_ := by
    rw [hw, Nat.mod_add_mod]
    congr 1
  have hv : valid { q with
      items_ := q.items_.set q.mt_write_index_ a,
      mt_write_index_ := (q.mt_write_index_ + 1) % q.size_ } :=
    ⟨h.1, h.2.1, Nat.mod_lt _ h.1, by simp [h.2.2.2]⟩
  have hcount : count { q with
      items_ := q.items_.set q.mt_write_index_ a,
      mt_write_index_ := (q.mt_write_index_ + 1) % q.size_ } = q.count + 1 := by
    have := count_of_write_index q.size_ q.mt_read_index_ (q.count + 1)
      (q.items_.set q.mt_write_index_ a) h.2.1 hc
    rw [← hw2] at this
    exact this
  refine ⟨hv, hcount, ?_⟩
  rw [(contents_eq _ hv).1, (contents_eq q h).1, hcount, List.range_succ, List.map_append]
  congr 1
  · apply List.map_congr_left
    intro k hk
    rw [List.mem_range] at hk
    dsimp only
    apply getD_set_ne
    rw [hw]
    exact slot_ne q.size_ q.mt_read_index_ k q.count h.2.1 hk (by omega)
  · dsimp only [List.map_cons, List.map_nil]
    rw [← hw, getD_set_eq _ _ _ (by rw [h.2.2.2]; exact h.2.2.1)]

/-- The overflow test of both `push` functions: the slot after the write
index is the read index when `size_ - 1` tasks are queued. -/
theorem overflow_iff (q : MtTaskQueue) (h : q.valid) :
    q.mt_read_index_ = (q.mt_write_index_ + 1) % q.size_ ↔ q.count + 1 = q.size_ := by
  obtain ⟨h0, h1, h2, _⟩ := h
  rw [add_mod_cases _ _ _ h2 (by omega)]
  unfold count
  by_cases hw : q.mt_write_index_ + 1 < q.size_
  · rw [if_pos hw]
    by_cases hle : q.mt_read_index_ ≤ q.mt_write_index_
    · rw [if_pos hle]
      omega
    · rw [if_neg hle]
      omega
  · rw [if_neg hw]
    by_cases hle : q.mt_read_index_ ≤ q.mt_write_index_
    · rw [if_pos hle]
      omega
    · rw [if_neg hle]
      omega

theorem create_spec (size : Int) (h : 1 ≤ size) :
    ∃ q, create size = Except.ok q ∧ q.valid ∧ (q.size_ : Int) = size ∧ q.contents = [] := by
  obtain ⟨n, rfl⟩ := Int.eq_ofNat_of_zero_le (by omega : 0 ≤ size)
  have hn : 0 < n := by omega
  have hv : valid ⟨n, 0, 0, List.replicate n none⟩ := ⟨hn, hn, hn, by simp⟩
  refine ⟨⟨n, 0, 0, List.replicate n none⟩, ?_, hv, rfl, ?_⟩
  · unfold create
    rw [if_neg (by omega)]
    rfl
  · have hl := (contents_eq _ hv).2
    have hc : count ⟨n, 0, 0, List.replicate n none⟩ = 0 := rfl
    rw [hc] at hl
    exact List.length_eq_zero.1 hl

theorem push_spec (q : MtTaskQueue) (mt_task : MtTaskPtr) (h : q.valid)
    (ht : mt_task.isSome = true) :
    (push mt_task q).2.valid ∧ (push mt_task q).2.size_ = q.size_ ∧
    ((push mt_task q).1, (push mt_task q).2.contents) =
      fifo_push (q.size_ - 1) q.contents mt_task := by
  have hnone : mt_task.isNone = false := by
    cases mt_task with
    | none => cases ht
    | some t => rfl
  obtain ⟨hc, _⟩ := valid_write_index q h
  have hlen := (contents_eq q h).2
  unfold push fifo_push
  rw [hnone, if_neg (by decide)]
  dsimp only
  by_cases hov : q.mt_read_index_ = (q.mt_write_index_ + 1) % q.size_
  · have hfull := (overflow_iff q h).1 hov
    rw [if_pos hov, if_neg (by omega)]
    exact ⟨h, rfl, rfl⟩
  · have hfree : ¬ (q.count + 1 = q.size_) := fun hc2 => hov ((overflow_iff q h).2 hc2)
    obtain ⟨hv, _, happ⟩ := contents_append q h mt_task (by omega)
    rw [if_neg hov, if_pos (by omega)]
    exact ⟨hv, rfl, by rw [happ]⟩

theorem pop_spec (q : MtTaskQueue) (mt_task : MtTaskPtr) (h : q.valid) :
    (pop mt_task q).2.2.valid ∧ (pop mt_task q).2.2.size_ = q.size_ ∧
    ((pop mt_task q).1, (pop mt_task q).2.1, (pop mt_task q).2.2.contents) =
      fifo_pop mt_task q.contents := by
  obtain ⟨hc, hw⟩ := valid_write_index q h
  obtain ⟨hcont, hlen⟩ := contents_eq q h
  unfold pop
  dsimp only
  by_cases he : q.mt_read_index_ = q.mt_write_index_
  · have hc0 : q.count = 0 := by
      unfold count
      rw [if_pos (by omega)]
      omega
    have hnil : q.contents = [] := List.length_eq_zero.1 (by rw [hlen, hc0])
    rw [if_pos he, hnil]
    exact ⟨h, rfl, rfl⟩
  · have hpos : 0 < q.count := by
      unfold count
      by_cases hle : q.mt_read_index_ ≤ q.mt_write_index_
      · rw [if_pos hle]
        omega
      · rw [if_neg hle]
        have h1 := h.2.1
        have h2 := h.2.2.1
        omega
    obtain ⟨c, hcc⟩ : ∃ c, q.count = c + 1 := ⟨q.count - 1, by omega⟩
    have hw2 : q.mt_write_index_ = ((q.mt_read_index_ + 1) % q.size_ + c) % q.size_ := by
      rw [hw, hcc, Nat.mod_add_mod]
      congr 1
      omega
    have hv : valid { q with mt_read_index_ := (q.mt_read_index_ + 1) % q.size_ } :=
      ⟨h.1, Nat.mod_lt _ h.1, h.2.2.1, h.2.2.2⟩
    have hcount : count { q with mt_read_index_ := (q.mt_read_index_ + 1) % q.size_ } = c := by
      have := count_of_write_index q.size_ ((q.mt_read_index_ + 1) % q.size_) c q.items_
        (Nat.mod_lt _ h.1) (by omega)
      rw [← hw2] at this
      exact this
    rw [if_neg he]
    refine ⟨hv, rfl, ?_⟩
    dsimp only
    rw [(contents_eq _ hv).1, hcount, hcont, hcc, List.range_succ_eq_map, List.map_cons,
      List.map_map]
    have h0 : (q.mt_read_index_ + 0) % q.size_ = q.mt_read_index_ := Nat.mod_eq_of_lt h.2.1
    rw [h0]
    unfold fifo_pop
    dsimp only
    congr 2
    apply List.map_congr_left
    intro k _
    dsimp only [Function.comp]
    rw [Nat.mod_add_mod]
    congr 2
    omega

/-- Claim C29. In one thread, a queue constructed with `size ≥ 1` is valid and
empty; on a valid queue, `push` of a non-null task and `pop` keep the queue
valid and act on its logical content as `fifo_push` with the capacity
`size_ - 1` and as `fifo_pop` do: `push` appends the task when fewer than
`size_ - 1` tasks are queued and fails with "Queue overflow." otherwise,
`pop` returns `false` when nothing is queued and otherwise removes and hands
out the oldest task. -/
theorem mt_task_queue_refines :
    (∀ size : Int, 1 ≤ size →
      ∃ q, create size = Except.ok q ∧ q.valid ∧ (q.size_ : Int) = size ∧ q.contents = []) ∧
    (∀ (q : MtTaskQueue) (mt_task : MtTaskPtr), q.valid → mt_task.isSome = true →
      (push mt_task q).2.valid ∧ (push mt_task q).2.size_ = q.size_ ∧
      ((push mt_task q).1, (push mt_task q).2.contents) =
        fifo_push (q.size_ - 1) q.contents mt_task) ∧
    (∀ (q : MtTaskQueue) (mt_task : MtTaskPtr), q.valid →
      (pop mt_task q).2.2.valid ∧ (pop mt_task q).2.2.size_ = q.size_ ∧
      ((pop mt_task q).1, (pop mt_task q).2.1, (pop mt_task q).2.2.contents) =
        fifo_pop mt_task q.contents) :=
  ⟨create_spec, push_spec, pop_spec⟩

/-- Claim C29 on `sample_queue`, which holds the tasks 8 and 9 in a queue of
size 4: the push of 5 gives 8, 9, 5; one more push overflows; `pop` hands out
8. -/
theorem mt_task_queue_refines_witness :
    sample_queue.valid ∧ sample_queue.contents = [some 8, some 9] ∧
    ((push (some 5) sample_queue).1, (push (some 5) sample_queue).2.contents) =
      fifo_push (sample_queue.size_ - 1) sample_queue.contents (some 5) ∧
    (push (some 5) sample_queue).2.contents = [some 8, some 9, some 5] ∧
    (push (some 6) (push (some 5) sample_queue).2).1 = Except.error ["Queue overflow."] ∧
    ((pop none sample_queue).1, (pop none sample_queue).2.1,
        (pop none sample_queue).2.2.contents) = fifo_pop none sample_queue.contents ∧
    (pop none sample_queue).2.1 = some 8 ∧
    (pop none sample_queue).2.2.contents = [some 9] :=
  ⟨⟨by decide, by decide, by decide, rfl⟩, by decide,
    (mt_task_queue_refines.2.1 sample_queue (some 5)
      ⟨by decide, by decide, by decide, rfl⟩ rfl).2.2,
    by decide, rfl,
    (mt_task_queue_refines.2.2 sample_queue none ⟨by decide, by decide, by decide, rfl⟩).2.2,
    by decide, by decide⟩

/-! ### The batch push -/

/-- The loop of the batch push while there is room: after `n` iterations the
tasks at the positions below `n` are appended behind the logical content, and
the content up to the stored write index is as before. -/
theorem push_tasks_loop (q : MtTaskQueue) (tasks : Int → MtTaskPtr) (h : q.valid) :
    ∀ n : Nat, q.count + n < q.size_ →
      ∃ st : PushState,
        for_loop_try n (push_tasks_step q.size_ q.mt_read_index_ tasks)
          ⟨q.mt_write_index_, q.mt_write_index_, q.items_⟩ = (Except.ok (), st) ∧
        st.new_write_index = st.write_index ∧
        st.write_index = (q.mt_read_index_ + (q.count + n)) % q.size_ ∧
        st.items_.length = q.size_ ∧
        contents { q with items_ := st.items_ } = q.contents ∧
        contents { q with items_ := st.items_, mt_write_index_ := st.write_index } =
          q.contents ++ (List.range n).map (fun i : Nat => tasks (i : Int)) := by
  intro n
  induction n with
  | zero =>
    intro _
    obtain ⟨_, hw⟩ := valid_write_index q h
    exact ⟨⟨q.mt_write_index_, q.mt_write_index_, q.items_⟩, rfl, rfl, hw, h.2.2.2, rfl,
      by simp⟩
  | succ n ih =>
    intro hn
    obtain ⟨st, h1, h2, h3, h4, h5, h6⟩ := ih (by omega)
    have hvn : valid { q with items_ := st.items_, mt_write_index_ := st.write_index } :=
      ⟨h.1, h.2.1, by rw [h3]; exact Nat.mod_lt _ h.1, h4⟩
    have hcn : count { q with items_ := st.items_, mt_write_index_ := st.write_index } =
        q.count + n := by
      have := count_of_write_index q.size_ q.mt_read_index_ (q.count + n) st.items_ h.2.1
        (by omega)
      rw [← h3] at this
      exact this
    have hno : ¬ (q.mt_read_index_ = (st.write_index + 1) % q.size_) := by
      intro hov
      have := (overflow_iff _ hvn).1 hov
      rw [hcn] at this
      dsimp only at this
      omega
    obtain ⟨_, _, happ⟩ := contents_append _ hvn (tasks (n : Int)) (by rw [hcn]; exact hn)
    dsimp only at happ
    have hv2 : valid { q with items_ := st.items_ } := ⟨h.1, h.2.1, h.2.2.1, h4⟩
    have hset := contents_set { q with items_ := st.items_ } hv2 (q.count + n)
      (tasks (n : Int)) (Nat.le_add_right _ _) (show q.count + n < q.size_ by omega)
    dsimp only at hset
    rw [← h3, h5] at hset
    refine ⟨⟨(st.write_index + 1) % q.size_, (st.write_index + 1) % q.size_,
      st.items_.set st.write_index (tasks (n : Int))⟩, ?_, rfl, ?_, by simp [h4], hset, ?_⟩
    · rw [Ren3dGl.for_loop_try_succ, h1]
      dsimp only
      unfold push_tasks_step
      dsimp only
      rw [h2, if_neg hno]
    · rw [h3, Nat.mod_add_mod]
      congr 1
    · dsimp only
      rw [happ, h6, List.range_succ, List.map_append, List.append_assoc]
      rfl

theorem push_tasks_spec (q : MtTaskQueue) (tasks : Int → MtTaskPtr) (k : Nat) (hk : 1 ≤ k)
    (h : q.valid) (hnn : ∀ i : Nat, i < k → (tasks (i : Int)).isSome = true) :
    (push_tasks (some tasks) (k : Int) q).2.valid ∧
    (push_tasks (some tasks) (k : Int) q).2.size_ = q.size_ ∧
    ((push_tasks (some tasks) (k : Int) q).1,
        (push_tasks (some tasks) (k : Int) q).2.contents) =
      fifo_push_tasks (q.size_ - 1) q.contents
        ((List.range k).map (fun i : Nat => tasks (i : Int))) := by
  obtain ⟨hc, _⟩ := valid_write_index q h
  have hlen := (contents_eq q h).2
  have hnull : (List.range k).any (fun i : Nat => (tasks (i : Int)).isNone) = false := by
    rw [List.any_eq_false]
    intro i hi
    rw [List.mem_range] at hi
    have := hnn i hi
    cases hti : tasks (i : Int) with
    | none => rw [hti] at this; cases this
    | some t => simp
  unfold push_tasks fifo_push_tasks
  dsimp only
  rw [if_neg (by omega), Int.toNat_ofNat, hnull, if_neg (by decide), hlen, List.length_map,
    List.length_range]
  by_cases hroom : q.count + k < q.size_
  · obtain ⟨st, h1, h2, h3, h4, _, h6⟩ := push_tasks_loop q tasks h k hroom
    rw [h1, if_pos (by omega)]
    dsimp only
    rw [h2]
    exact ⟨⟨h.1, h.2.1, by rw [h3]; exact Nat.mod_lt _ h.1, h4⟩, rfl, by rw [h6]⟩
  · obtain ⟨st, h1, h2, h3, h4, h5, _⟩ :=
      push_tasks_loop q tasks h (q.size_ - 1 - q.count) (by omega)
    have hvn : valid { q with items_ := st.items_, mt_write_index_ := st.write_index } :=
      ⟨h.1, h.2.1, by rw [h3]; exact Nat.mod_lt _ h.1, h4⟩
    have hcn : count { q with items_ := st.items_, mt_write_index_ := st.write_index } =
        q.count + (q.size_ - 1 - q.count) := by
      have := count_of_write_index q.size_ q.mt_read_index_
        (q.count + (q.size_ - 1 - q.count)) st.items_ h.2.1 (by omega)
      rw [← h3] at this
      exact this
    have hov : q.mt_read_index_ = (st.write_index + 1) % q.size_ := by
      apply (overflow_iff _ hvn).2
      rw [hcn]
      dsimp only
      omega
    have hstep : for_loop_try (q.size_ - 1 - q.count + 1)
        (push_tasks_step q.size_ q.mt_read_index_ tasks)
        ⟨q.mt_write_index_, q.mt_write_index_, q.items_⟩ =
        (Except.error ["Queue overflow."],
          { st with new_write_index := (st.new_write_index + 1) % q.size_ }) := by
      rw [Ren3dGl.for_loop_try_succ, h1]
      dsimp only
      unfold push_tasks_step
      dsimp only
      rw [h2, if_pos hov]
      rfl
    have hk2 : k = (q.size_ - 1 - q.count + 1) + (k - (q.size_ - 1 - q.count + 1)) := by
      omega
    have hall := Ren3dGl.for_loop_try_error_add
      (push_tasks_step q.size_ q.mt_read_index_ tasks)
      ⟨q.mt_write_index_, q.mt_write_index_, q.items_⟩ (q.size_ - 1 - q.count + 1)
      ⟨_, by rw [hstep]⟩ (k - (q.size_ - 1 - q.count + 1))
    rw [← hk2, hstep] at hall
    rw [hall, if_neg (by omega)]
    dsimp only
    exact ⟨⟨h.1, h.2.1, h.2.2.1, h4⟩, rfl, by rw [h5]; rfl⟩

/-- Claim C30. For a valid queue and a non-null array of `k ≥ 1` non-null
tasks, the batch `push` acts on the logical content as the atomic batch push
of a bounded FIFO list of capacity `size_ - 1`: when the queued tasks and the
`k` new ones fit, all `k` are appended in array order; otherwise it fails with
"Queue overflow." and the logical content, the tasks subsequent pops return,
is as before. -/
theorem push_tasks_atomic (q : MtTaskQueue) (tasks : Int → MtTaskPtr) (k : Nat) (hk : 1 ≤ k)
    (h : q.valid) (hnn : ∀ i : Nat, i < k → (tasks (i : Int)).isSome = true) :
    (push_tasks (some tasks) (k : Int) q).2.valid ∧
    (push_tasks (some tasks) (k : Int) q).2.size_ = q.size_ ∧
    ((push_tasks (some tasks) (k : Int) q).1,
        (push_tasks (some tasks) (k : Int) q).2.contents) =
      fifo_push_tasks (q.size_ - 1) q.contents
        ((List.range k).map (fun i : Nat => tasks (i : Int))) ∧
    (q.contents.length + k ≤ q.size_ - 1 →
      (push_tasks (some tasks) (k : Int) q).1 = Except.ok () ∧
      (push_tasks (some tasks) (k : Int) q).2.contents =
        q.contents ++ (List.range k).map (fun i : Nat => tasks (i : Int))) ∧
    (¬ (q.contents.length + k ≤ q.size_ - 1) →
      (push_tasks (some tasks) (k : Int) q).1 = Except.error ["Queue overflow."] ∧
      (push_tasks (some tasks) (k : Int) q).2.contents = q.contents) := by
  obtain ⟨h1, h2, h3⟩ := push_tasks_spec q tasks k hk h hnn
  refine ⟨h1, h2, h3, fun hfit => ?_, fun hfull => ?_⟩
  · unfold fifo_push_tasks at h3
    rw [List.length_map, List.length_range, if_pos hfit] at h3
    exact ⟨congrArg Prod.fst h3, congrArg Prod.snd h3⟩
  · unfold fifo_push_tasks at h3
    rw [List.length_map, List.length_range, if_neg hfull] at h3
    exact ⟨congrArg Prod.fst h3, congrArg Prod.snd h3⟩

/-- Claim C30 on `sample_queue`, which holds two tasks of at most three: the
batch push of one task appends it, the batch push of two tasks fails and
leaves the tasks 8 and 9 queued, although it has written the slot at the
write index. -/
theorem push_tasks_atomic_witness :
    ((push_tasks (some sample_tasks) ((2 : Nat) : Int) sample_queue).1 =
        Except.error ["Queue overflow."] ∧
      (push_tasks (some sample_tasks) ((2 : Nat) : Int) sample_queue).2.contents =
        sample_queue.contents) ∧
    (push_tasks (some sample_tasks) 2 sample_queue).2.items_ =
      [some 7, some 8, some 9, some 1] ∧
    (push_tasks (some sample_tasks) 2 sample_queue).2.contents = [some 8, some 9] ∧
    (push_tasks (some sample_tasks) 1 sample_queue).1 = Except.ok () ∧
    (push_tasks (some sample_tasks) 1 sample_queue).2.contents = [some 8, some 9, some 1] :=
  ⟨(push_tasks_atomic sample_queue sample_tasks 2 (by decide)
      ⟨by decide, by decide, by decide, rfl⟩ (fun i _ => rfl)).2.2.2.2 (by decide),
    by decide, by decide, rfl, by decide⟩

end MtTaskQueue

end detail
end bstone
